import Mathlib

/-!
# xiaotianquan: the stateful risk-analysis engine

A shallow embedding of the Go packages `pkg/alerter`, `pkg/analyzer`,
`pkg/storage` and `pkg/models`, followed by theorems about the embedded code.

Modelling conventions.

* A Go `time.Time` is a `GoTime`: the instant in nanoseconds since the Unix
  epoch together with the zone offset of its location.  Comparisons
  (`After`, `Before`, `Sub`) look at the instant only, as in Go.
* A Go `time.Duration` is an `Int` number of nanoseconds; `Sub` saturates at
  the 64-bit bounds as `time.Time.Sub` does.
* A Go `map[K]V` whose code only looks keys up, stores and deletes them is a
  total lookup function `K → Option V`.  The per-cookie address map, whose
  entries are counted, is a finite association list without duplicate keys.
* `float64` scores are rationals: every score the engine produces is a finite
  value, and rounding of the arithmetic is idealised as exact.
* Every call of `time.Now()` during one pass reads the same instant `env.now`.
* External collaborators (database, webhook, GeoIP readers) are state fields
  holding what they have stored, plus per-pass outcomes in `Env`.
-/

namespace Xiaotianquan

/-! ## Time -/

/-- Nanoseconds, the unit of Go's `time.Duration`. -/
abbrev Duration := Int

/-- Go's `time.Time`: an instant and the offset (seconds east of UTC) of its location. -/
structure GoTime where
  unixNano : Int
  offset : Int
  deriving DecidableEq, Repr

def Second : Duration := 1000000000
def Minute : Duration := 60 * Second
def Hour : Duration := 60 * Minute

def minDuration : Duration := -9223372036854775808
def maxDuration : Duration := 9223372036854775807

/-- Go's `t.Sub(u)`: the difference of the instants, saturated to the range of `Duration`. -/
def GoTime.Sub (t u : GoTime) : Duration :=
  let d := t.unixNano - u.unixNano
  if d < minDuration then minDuration
  else if maxDuration < d then maxDuration
  else d

/-- Go's `t.Add(d)`. -/
def GoTime.Add (t : GoTime) (d : Duration) : GoTime :=
  { t with unixNano := t.unixNano + d }

/-- Go's `t.After(u)`. -/
def GoTime.After (t u : GoTime) : Bool := decide (u.unixNano < t.unixNano)

/-- Go's `t.Before(u)`. -/
def GoTime.Before (t u : GoTime) : Bool := decide (t.unixNano < u.unixNano)

/-- Seconds of the wall clock shown by `t` in its location, counted from 1970-01-01 00:00 local. -/
def GoTime.localSeconds (t : GoTime) : Int := t.unixNano / 1000000000 + t.offset

/-- Go's `t.Hour()`. -/
def GoTime.HourOfDay (t : GoTime) : Int := (t.localSeconds % 86400) / 3600

/-- Number of the calendar day shown by `t` in its location (day 0 is 1970-01-01); it
stands for the text `t.Format("2006-01-02")`, which is different for different days. -/
def GoTime.dayNumber (t : GoTime) : Int := t.localSeconds / 86400

/-- Go's `t.Weekday()`, Sunday = 0, ..., Saturday = 6 (1970-01-01 was a Thursday). -/
def GoTime.Weekday (t : GoTime) : Int := (t.dayNumber + 4) % 7

def Sunday : Int := 0
def Saturday : Int := 6

/-- The zero value `time.Time{}`: January 1, year 1, 00:00 UTC. -/
def zeroTime : GoTime := ⟨-62135596800000000000, 0⟩

/-! ## models -/

/-- The fields of `models.PacketData` the engine reads. -/
structure PacketData where
  Timestamp : GoTime
  Method : String
  RelatedIP : List String
  /-- `HTTP.Response.Body.Content` -/
  Content : String
  /-- `HTTP.Response.StatusCode` -/
  StatusCode : Int
  /-- `HTTP.Request.Headers.Cookie` -/
  HeaderCookie : String
  /-- `HTTP.Request.Headers.UserAgent` -/
  HeaderUserAgent : String
  ClientIP : String
  URLFull : String
  UserAgent : String
  Cookie : String
  XForwardedFor : String
  deriving DecidableEq, Repr

/-- Go's `len(s)` of a string: its length in bytes. -/
def strLen (s : String) : Nat := s.utf8ByteSize

structure UserFingerprint where
  IP : String
  UserAgent : String
  Cookie : String
  deriving DecidableEq, Repr

structure RiskEvent where
  Fingerprint : UserFingerprint
  RiskScore : ℚ
  Timestamp : GoTime
  RiskType : String
  AlertRules : List String
  deriving DecidableEq

/-! ## storage -/

/-- A row of the table `alert_events`. -/
structure AlertRow where
  client_ip : String
  cookie : String
  user_agent : String
  risk_score : ℚ
  rules : List String
  created_at : GoTime
  deriving DecidableEq

/-- A row of the table `risk_analysis_results`. -/
structure AnalysisRow where
  client_ip : String
  cookie : String
  user_agent : String
  url : String
  risk_score : ℚ
  created_at : GoTime
  access_time : GoTime
  deriving DecidableEq

/-- A row of the table `sensitive_data_avg`. -/
structure BaselineRow where
  user_id : String
  avg_value : ℚ
  expiry : GoTime
  deriving DecidableEq

/-- The relational database behind `storage.Storage`. -/
structure Storage where
  alert_events : List AlertRow
  risk_analysis_results : List AnalysisRow
  sensitive_data_avg : List BaselineRow
  deriving DecidableEq

/-- A Go `error` value. -/
inductive GoError where
  | db
  | http
  deriving DecidableEq, Repr

/-- What the outside world does during one pass: the clock and the outcome of each I/O call. -/
structure Env where
  /-- `time.Now()`, also the database server's `NOW()` -/
  now : GoTime
  /-- `Exec` of the insert into `risk_analysis_results` fails -/
  saveAnalysisFails : Bool
  /-- `Exec` of the insert into `alert_events` fails -/
  saveAlertFails : Bool
  /-- `http.Post` to the webhook fails -/
  postFails : Bool
  /-- `Query` on `alert_events` fails -/
  alertQueryFails : Bool
  /-- `rows.Scan` fails on this row -/
  scanFails : AlertRow → Bool
  /-- `QueryRow(...).Scan` on `sensitive_data_avg` fails with an error other than `ErrNoRows` -/
  baselineQueryFails : Bool
  /-- answer of `storage.GetUserAccessHistory(userID, startTime)`; `none` is an error
  (the body in `storage.go` is a placeholder returning `nil, nil`) -/
  GetUserAccessHistory : String → GoTime → Option (List PacketData)

/-- The row `SaveAlertEvent` inserts: the bound parameters and `NOW()`. -/
def alertRow (env : Env) (data : PacketData) (riskScore : ℚ) (rules : List String) : AlertRow :=
  { client_ip := data.ClientIP, cookie := data.HeaderCookie,
    user_agent := data.HeaderUserAgent, risk_score := riskScore,
    rules := rules, created_at := env.now }

/-- `Storage.SaveAlertEvent`: insert a row into `alert_events`. -/
def Storage.SaveAlertEvent (s : Storage) (env : Env) (data : PacketData) (riskScore : ℚ)
    (rules : List String) : Storage × Option GoError :=
  if env.saveAlertFails then (s, some GoError.db)
  else ({ s with alert_events := s.alert_events ++ [alertRow env data riskScore rules] }, none)

/-- `Storage.SaveAnalysisResult`: insert a row into `risk_analysis_results`. -/
def Storage.SaveAnalysisResult (s : Storage) (env : Env) (data : PacketData) (riskScore : ℚ) :
    Storage × Option GoError :=
  if env.saveAnalysisFails then (s, some GoError.db)
  else
    ({ s with risk_analysis_results := s.risk_analysis_results ++
        [{ client_ip := data.ClientIP, cookie := data.HeaderCookie,
           user_agent := data.HeaderUserAgent, url := data.URLFull,
           risk_score := riskScore, created_at := env.now,
           access_time := data.Timestamp }] }, none)

/-! ## alerter -/

/-- The JSON body posted to the webhook by `sendAlertNotification`. -/
structure AlertPayload where
  Timestamp : GoTime
  ClientIP : String
  UserAgent : String
  Cookie : String
  RiskScore : ℚ
  AccessedURL : String
  AlertRules : List String
  ResponseSize : Nat
  deriving DecidableEq

/-- The `Alerter`.  `storage` is the database the `*storage.Storage` pointer leads to and
`posted` lists the requests handed to `http.Post`, oldest first. -/
structure Alerter where
  storage : Storage
  webhookURL : String
  alertHistory : String → Option GoTime
  alertCooldownTime : Duration
  posted : List AlertPayload

/-- `generateUserFingerprint`: cookie, a colon, client address. -/
def generateUserFingerprint (data : PacketData) : String :=
  data.HeaderCookie ++ ":" ++ data.ClientIP

/-- The rows selected by `created_at > DATE_SUB(NOW(), INTERVAL 1 HOUR)`. -/
def recentAlertRows (s : Storage) (env : Env) : List AlertRow :=
  s.alert_events.filter (fun r => decide (env.now.unixNano - Hour < r.created_at.unixNano))

/-- The loop of `loadRecentAlerts` over the rows of the result set. -/
def loadRows (env : Env) : List AlertRow → (String → Option GoTime) → (String → Option GoTime)
  | [], m => m
  | r :: rest, m =>
    if env.scanFails r then loadRows env rest m
    else
      let fingerprint := r.cookie ++ ":" ++ r.client_ip
      loadRows env rest (fun k => if k = fingerprint then some r.created_at else m k)

/-- `Alerter.loadRecentAlerts`. -/
def Alerter.loadRecentAlerts (a : Alerter) (env : Env) : Alerter × Option GoError :=
  if env.alertQueryFails then (a, some GoError.db)
  else ({ a with alertHistory := loadRows env (recentAlertRows a.storage env) a.alertHistory }, none)

/-- `NewAlerter`: an empty history, a cooldown of ten hours, then the bootstrap from the
database (its error is logged only).  The cleanup ticker is `CleanupOldHistory` below. -/
def NewAlerter (storage : Storage) (webhookURL : String) (env : Env) : Alerter :=
  let a : Alerter :=
    { storage := storage, webhookURL := webhookURL, alertHistory := fun _ => none,
      alertCooldownTime := 10 * Hour, posted := [] }
  (a.loadRecentAlerts env).1

/-- The struct `alert` built by `sendAlertNotification`. -/
def alertPayload (env : Env) (data : PacketData) (riskScore : ℚ) (alertRules : List String) :
    AlertPayload :=
  { Timestamp := env.now, ClientIP := data.ClientIP, UserAgent := data.HeaderUserAgent,
    Cookie := data.HeaderCookie, RiskScore := riskScore, AccessedURL := data.URLFull,
    AlertRules := alertRules, ResponseSize := strLen data.Content }

/-- `Alerter.sendAlertNotification`: build the payload and post it to the webhook. -/
def Alerter.sendAlertNotification (a : Alerter) (env : Env) (data : PacketData) (riskScore : ℚ)
    (alertRules : List String) : Alerter × Option GoError :=
  let a' := { a with posted := a.posted ++ [alertPayload env data riskScore alertRules] }
  if env.postFails then (a', some GoError.http) else (a', none)

/-- `Alerter.TriggerAlert`. -/
def Alerter.TriggerAlert (a : Alerter) (env : Env) (data : PacketData) (riskScore : ℚ)
    (alertRules : List String) : Alerter × Option GoError :=
  let fingerprint := generateUserFingerprint data
  let lastAlertTime := a.alertHistory fingerprint
  let now := env.now
  if lastAlertTime.isSome ∧ now.Sub (lastAlertTime.getD zeroTime) < a.alertCooldownTime then
    (a, none)
  else
    match a.storage.SaveAlertEvent env data riskScore alertRules with
    | (storage', some err) => ({ a with storage := storage' }, some err)
    | (storage', none) =>
      let a1 := { a with storage := storage' }
      match a1.sendAlertNotification env data riskScore alertRules with
      | (a2, some err) => (a2, some err)
      | (a2, none) =>
        ({ a2 with alertHistory := fun k => if k = fingerprint then some now else a2.alertHistory k },
          none)

/-- `Alerter.CleanupOldHistory`, run by the ticker started in `NewAlerter`. -/
def Alerter.CleanupOldHistory (a : Alerter) (env : Env) : Alerter :=
  { a with alertHistory := fun k =>
      match a.alertHistory k with
      | some lastAlertTime =>
        if env.now.Sub lastAlertTime > a.alertCooldownTime then none else some lastAlertTime
      | none => none }

/-! ## Go's `net` package: textual addresses, masks and networks

The repository calls `net.ParseIP`, `net.ParseCIDR` and `(*net.IPNet).Contains`;
what follows embeds these library functions (Go 1.22 `net` and `net/netip`). -/

/-- A byte of an address. -/
abbrev Byte := Fin 256

/-- Go's `net.IP` and `net.IPMask`: a byte slice, `nil` being the empty one. -/
abbrev IP := List Byte

/-- Go's `strings.Contains` on the characters of the two strings. -/
def containsChars : List Char → List Char → Bool
  | [], sub => sub.isEmpty
  | c :: cs, sub => sub.isPrefixOf (c :: cs) || containsChars cs sub

/-- Go's `strings.Contains`. -/
def strContains (s substr : String) : Bool := containsChars s.data substr.data

/-- The loop of `netip.parseIPv4Fields`: `val`, `pos` and `digLen` as in the Go code,
`fields` the octets stored so far, `first` telling that the index is 0 and `prevDot`
that the previous byte is a dot. -/
def parseIPv4Loop : List Char → Bool → Bool → Nat → Nat → Nat → List Byte → Option (List Byte)
  | [], _, _, val, pos, _, fields =>
    if pos < 3 then none else some (fields ++ [Fin.ofNat val])
  | c :: cs, first, prevDot, val, pos, digLen, fields =>
    if '0' ≤ c ∧ c ≤ '9' then
      if digLen = 1 ∧ val = 0 then none
      else
        let val' := val * 10 + (c.toNat - '0'.toNat)
        if val' > 255 then none
        else parseIPv4Loop cs false false val' pos (digLen + 1) fields
    else if c = '.' then
      if first ∨ cs.isEmpty ∨ prevDot then none
      else if pos = 3 then none
      else parseIPv4Loop cs false true 0 (pos + 1) 0 (fields ++ [Fin.ofNat val])
    else none

/-- Go's `netip.parseIPv4Fields` on a whole string: the four octets of a dotted-decimal
address, or `none` for an error. -/
def parseIPv4Fields (s : List Char) : Option (List Byte) :=
  parseIPv4Loop s true false 0 0 0 []

/-- Value of a hexadecimal digit. -/
def hexVal (c : Char) : Option Nat :=
  if '0' ≤ c ∧ c ≤ '9' then some (c.toNat - '0'.toNat)
  else if 'a' ≤ c ∧ c ≤ 'f' then some (c.toNat - 'a'.toNat + 10)
  else if 'A' ≤ c ∧ c ≤ 'F' then some (c.toNat - 'A'.toNat + 10)
  else none

/-- The inner loop of `netip.parseIPv6` reading one hexadecimal group: the value, the
number of digits and the rest of the string; `none` for more than four digits. -/
def scanHex : List Char → Nat → Nat → Option (Nat × Nat × List Char)
  | [], acc, off => some (acc, off, [])
  | c :: cs, acc, off =>
    match hexVal c with
    | none => some (acc, off, c :: cs)
    | some d =>
      let acc' := acc * 16 + d
      if off > 3 then none
      else if acc' > 65535 then none
      else scanHex cs acc' (off + 1)

/-- The outer loop of `netip.parseIPv6` (`for i < 16`, at most eight rounds): `ip` holds
the `i` bytes written so far, `ellipsis` the position of `::` if met.  The result is the
unread rest of the string, the bytes and the ellipsis at the exit of the loop. -/
def parseIPv6Loop : Nat → List Char → List Byte → Option Nat →
    Option (List Char × List Byte × Option Nat)
  | 0, s, ip, ellipsis => some (s, ip, ellipsis)
  | fuel + 1, s, ip, ellipsis =>
    if ip.length ≥ 16 then some (s, ip, ellipsis)
    else
      match scanHex s 0 0 with
      | none => none
      | some (acc, off, rest) =>
        if off = 0 then none
        else
          match rest with
          | [] => some ([], ip ++ [Fin.ofNat (acc / 256), Fin.ofNat acc], ellipsis)
          | c :: rest1 =>
            if c = '.' then
              if ellipsis.isNone ∧ ip.length ≠ 12 then none
              else if ip.length + 4 > 16 then none
              else
                match parseIPv4Fields s with
                | none => none
                | some fields => some ([], ip ++ fields, ellipsis)
            else
              let ip' := ip ++ [Fin.ofNat (acc / 256), Fin.ofNat acc]
              if c ≠ ':' then none
              else
                match rest1 with
                | [] => none
                | ':' :: rest2 =>
                  if ellipsis.isSome then none
                  else if rest2.isEmpty then some ([], ip', some ip'.length)
                  else parseIPv6Loop fuel rest2 ip' (some ip'.length)
                | _ => parseIPv6Loop fuel rest1 ip' ellipsis

/-- Split at the first occurrence of a character: the part before it and the part after
it, or `none` when the character does not occur. -/
def splitAtChar (sep : Char) : List Char → Option (List Char × List Char)
  | [] => none
  | c :: cs =>
    if c = sep then some ([], cs)
    else
      match splitAtChar sep cs with
      | none => none
      | some (before, after) => some (c :: before, after)

/-- Go's `netip.Addr`: an IPv4 address of 4 bytes, or an IPv6 address of 16 bytes with a zone. -/
inductive Addr where
  | v4 (bytes : List Byte)
  | v6 (bytes : List Byte) (zone : List Char)
  deriving DecidableEq

/-- Go's `netip.parseIPv6`. -/
def parseIPv6 (input : List Char) : Option Addr :=
  let split : Option (List Char × List Char) :=
    match splitAtChar '%' input with
    | none => some (input, [])
    | some (s, zone) => if zone.isEmpty then none else some (s, zone)
  match split with
  | none => none
  | some (s, zone) =>
    let start : List Char × Option Nat :=
      match s with
      | ':' :: ':' :: rest => (rest, some 0)
      | _ => (s, none)
    if start.2.isSome ∧ start.1.isEmpty then some (Addr.v6 (List.replicate 16 0) zone)
    else
      match parseIPv6Loop 8 start.1 [] start.2 with
      | none => none
      | some (rest, ip, ellipsis) =>
        if ¬ rest.isEmpty then none
        else if ip.length < 16 then
          match ellipsis with
          | none => none
          | some e =>
            some (Addr.v6 (ip.take e ++ List.replicate (16 - ip.length) 0 ++ ip.drop e) zone)
        else if ellipsis.isSome then none
        else some (Addr.v6 ip zone)

/-- Go's `netip.parseIPv4`. -/
def parseIPv4 (s : List Char) : Option Addr :=
  match parseIPv4Fields s with
  | none => none
  | some fields => some (Addr.v4 fields)

/-- Go's `netip.ParseAddr`: the first of `.`, `:` and `%` met decides the syntax. -/
def ParseAddr (s : List Char) : Option Addr :=
  match s.find? (fun c => c = '.' ∨ c = ':' ∨ c = '%') with
  | some '.' => parseIPv4 s
  | some ':' => parseIPv6 s
  | _ => none

def v4InV6Prefix : List Byte := [0, 0, 0, 0, 0, 0, 0, 0, 0, 0, 255, 255]

/-- Go's `Addr.As16`. -/
def Addr.As16 : Addr → IP
  | Addr.v4 bytes => v4InV6Prefix ++ bytes
  | Addr.v6 bytes _ => bytes

/-- Go's `Addr.BitLen`. -/
def Addr.BitLen : Addr → Nat
  | Addr.v4 _ => 32
  | Addr.v6 _ _ => 128

/-- Go's `Addr.Zone`. -/
def Addr.Zone : Addr → List Char
  | Addr.v4 _ => []
  | Addr.v6 _ zone => zone

/-- Go's `net.ParseIP`: the 16-byte form of the address, `none` for `nil`. -/
def ParseIP (s : String) : Option IP :=
  match ParseAddr s.data with
  | none => none
  | some addr => if addr.Zone ≠ [] then none else some addr.As16

/-- Go's `IP.To4`. -/
def IP.To4 (ip : IP) : Option IP :=
  if ip.length = 4 then some ip
  else if ip.length = 16 ∧ ip.take 12 = v4InV6Prefix then some (ip.drop 12)
  else none

/-- The loop of `net.CIDRMask` over `l` bytes with `n` ones left. -/
def cidrMaskBytes : Nat → Nat → List Byte
  | 0, _ => []
  | l + 1, n =>
    if n ≥ 8 then 255 :: cidrMaskBytes l (n - 8)
    else Fin.ofNat (255 - 255 >>> n) :: cidrMaskBytes l 0

/-- Go's `net.CIDRMask`. -/
def CIDRMask (ones bits : Nat) : Option IP :=
  if bits ≠ 32 ∧ bits ≠ 128 then none
  else if ones > bits then none
  else some (cidrMaskBytes (bits / 8) ones)

/-- Go's `IP.Mask`. -/
def IP.Mask (ip : IP) (mask : IP) : Option IP :=
  let mask := if mask.length = 16 ∧ ip.length = 4 ∧ (mask.take 12).all (fun b => b = 255)
    then mask.drop 12 else mask
  let ip := if mask.length = 4 ∧ ip.length = 16 ∧ ip.take 12 = v4InV6Prefix
    then ip.drop 12 else ip
  if ip.length ≠ mask.length then none
  else some (List.zipWith (fun a b => a &&& b) ip mask)

/-- Go's `net.IPNet`. -/
structure IPNet where
  IP : Xiaotianquan.IP
  Mask : Xiaotianquan.IP
  deriving DecidableEq

/-- The loop of Go's `net.dtoi`, required to read the whole string: the value of a run of
decimal digits, `none` at another character or once the value reaches `0xFFFFFF`. -/
def dtoiLoop : List Char → Nat → Option Nat
  | [], n => some n
  | c :: cs, n =>
    if '0' ≤ c ∧ c ≤ '9' then
      let n' := n * 10 + (c.toNat - '0'.toNat)
      if n' ≥ 16777215 then none else dtoiLoop cs n'
    else none

/-- Go's `net.dtoi` together with the test `i == len(mask)` of `ParseCIDR`: the value of a
string that is a non-empty run of decimal digits. -/
def dtoiAll (s : List Char) : Option Nat :=
  if s.isEmpty then none else dtoiLoop s 0

/-- Go's `net.ParseCIDR`: the network of the prefix, `none` for an error. -/
def ParseCIDR (s : String) : Option IPNet :=
  match splitAtChar '/' s.data with
  | none => none
  | some (addr, mask) =>
    match ParseAddr addr with
    | none => none
    | some ipAddr =>
      if ipAddr.Zone ≠ [] then none
      else
        match dtoiAll mask with
        | none => none
        | some n =>
          if n > ipAddr.BitLen then none
          else
            match CIDRMask n ipAddr.BitLen with
            | none => none
            | some m =>
              match IP.Mask ipAddr.As16 m with
              | none => none
              | some masked => some { IP := masked, Mask := m }

/-- Go's `net.networkNumberAndMask`. -/
def networkNumberAndMask (n : IPNet) : IP × IP :=
  let ip : Option IP :=
    match n.IP.To4 with
    | some ip4 => some ip4
    | none => if n.IP.length ≠ 16 then none else some n.IP
  match ip with
  | none => ([], [])
  | some ip =>
    if n.Mask.length = 4 then
      if ip.length ≠ 4 then ([], []) else (ip, n.Mask)
    else if n.Mask.length = 16 then
      if ip.length = 4 then (ip, n.Mask.drop 12) else (ip, n.Mask)
    else ([], [])

/-- Go's `(*IPNet).Contains`. -/
def IPNet.Contains (n : IPNet) (ip : Xiaotianquan.IP) : Bool :=
  let (nn, m) := networkNumberAndMask n
  let ip := match ip.To4 with
    | some x => x
    | none => ip
  if ip.length ≠ nn.length then false
  else (nn.zip (m.zip ip)).all (fun t => t.1 &&& t.2.1 = t.2.2 &&& t.2.1)

/-! ## analyzer: whitelist -/

/-- The `Whitelist`: the networks in the order they were added. -/
structure Whitelist where
  nets : List IPNet
  deriving DecidableEq

/-- The loop of `Whitelist.Update`. -/
def Whitelist.updateLoop : List String → List IPNet → List IPNet
  | [], nets => nets
  | ip :: rest, nets =>
    let ip := if ¬ strContains ip "/" then ip ++ "/32" else ip
    match ParseCIDR ip with
    | none => Whitelist.updateLoop rest nets
    | some ipnet => Whitelist.updateLoop rest (nets ++ [ipnet])

/-- `Whitelist.Update`: replace the networks by those parsed from `ips`. -/
def Whitelist.Update (_w : Whitelist) (ips : List String) : Whitelist :=
  { nets := Whitelist.updateLoop ips [] }

/-- `Whitelist.ContainsIP`. -/
def Whitelist.ContainsIP (w : Whitelist) (ipStr : String) : Bool :=
  if w.nets.length = 0 then false
  else
    match ParseIP ipStr with
    | none => false
    | some ip => w.nets.any (fun ipnet => ipnet.Contains ip)

/-- `NewWhitelist` with `initFromConfig`: `whitelistIPs` is
`config.GlobalConfig.Security.WhitelistIPs`. -/
def NewWhitelist (whitelistIPs : List String) : Whitelist :=
  let w : Whitelist := { nets := [] }
  if whitelistIPs.length > 0 then w.Update whitelistIPs else w

/-! ## analyzer: state -/

/-- What a `geoip2.Reader` lookup returns of a `City` record: `Country.IsoCode` and the
`IsoCode` of each element of `Subdivisions`. -/
structure City where
  CountryIsoCode : String
  Subdivisions : List String
  deriving DecidableEq, Repr

/-- A `*geoip2.Reader` on a city database: the record of an address, `none` for an error. -/
abbrev CityReader := IP → Option City

/-- A `*geoip2.Reader` on an ASN database: the `AutonomousSystemNumber` of an address,
`none` for an error. -/
abbrev ASNReader := IP → Option Nat

/-- The inner map of `cookieIPHistory`: address to the time it was last seen. -/
abbrev IPTimes := AList (fun _ : String => GoTime)

/-- The `RiskAnalyzer`.  Its `storage` pointer is the one held by its alerter
(`NewRiskAnalyzer` passes the same pointer to both), see `RiskAnalyzer.storage`. -/
structure RiskAnalyzer where
  userAccessHistory : UserFingerprint → Option (List PacketData)
  ipRiskHistory : String → Option (List RiskEvent)
  cookieIPHistory : String → Option IPTimes
  geoIP : Option CityReader
  asnDB : Option ASNReader
  sensitiveDataAvg : String → Option ℚ
  sensitiveDataExpiry : String → Option GoTime
  whitelist : Whitelist
  alerter : Alerter

/-- The database reached through `ra.storage`. -/
def RiskAnalyzer.storage (ra : RiskAnalyzer) : Storage := ra.alerter.storage

/-- Write through `ra.storage`. -/
def RiskAnalyzer.setStorage (ra : RiskAnalyzer) (s : Storage) : RiskAnalyzer :=
  { ra with alerter := { ra.alerter with storage := s } }

/-- `NewRiskAnalyzer`; `whitelistIPs` is the configured whitelist read by `NewWhitelist`. -/
def NewRiskAnalyzer (storage : Storage) (geoIP : Option CityReader) (asnDB : Option ASNReader)
    (webhookURL : String) (whitelistIPs : List String) (env : Env) : RiskAnalyzer :=
  { userAccessHistory := fun _ => none
    ipRiskHistory := fun _ => none
    cookieIPHistory := fun _ => none
    geoIP := geoIP
    asnDB := asnDB
    sensitiveDataAvg := fun _ => none
    sensitiveDataExpiry := fun _ => none
    whitelist := NewWhitelist whitelistIPs
    alerter := NewAlerter storage webhookURL env }

/-- `RiskAnalyzer.UpdateWhitelist`. -/
def RiskAnalyzer.UpdateWhitelist (ra : RiskAnalyzer) (ips : List String) : RiskAnalyzer :=
  { ra with whitelist := ra.whitelist.Update ips }

/-- `RiskAnalyzer.LoadWhitelistFromConfig`. -/
def RiskAnalyzer.LoadWhitelistFromConfig (ra : RiskAnalyzer) (whitelistIPs : List String) :
    RiskAnalyzer :=
  if whitelistIPs.length = 0 then ra else ra.UpdateWhitelist whitelistIPs

/-! ## storage: the baseline table -/

/-- `Storage.GetSensitiveDataAvg`: the row of the user with the latest expiry among those
not yet expired; `(0, time.Time{}, nil)` when there is none. -/
def Storage.GetSensitiveDataAvg (s : Storage) (env : Env) (userID : String) :
    ℚ × GoTime × Option GoError :=
  if env.baselineQueryFails then (0, zeroTime, some GoError.db)
  else
    let rows := s.sensitive_data_avg.filter
      (fun r => r.user_id = userID ∧ env.now.unixNano < r.expiry.unixNano)
    let best : Option BaselineRow := rows.foldl
      (fun best r =>
        match best with
        | none => some r
        | some b => if b.expiry.unixNano < r.expiry.unixNano then some r else some b)
      none
    match best with
    | none => (0, zeroTime, none)
    | some r => (r.avg_value, r.expiry, none)

/-- `Storage.SaveSensitiveDataAvg`: the body in `storage.go` stores nothing and returns `nil`. -/
def Storage.SaveSensitiveDataAvg (s : Storage) (_userID : String) (_avg : ℚ) (_expiry : GoTime) :
    Storage × Option GoError :=
  (s, none)

/-! ## analyzer: rules -/

/-- `checkDataDownloadVolumeFromHistory`: the three window sums after the loop. -/
def downloadSizes (now : GoTime) (history : List PacketData) : Int × Int × Int :=
  history.foldl
    (fun (acc : Int × Int × Int) data =>
      let duration := now.Sub data.Timestamp
      let size : Int := strLen data.Content
      let size10m := if duration ≤ 10 * Minute then acc.1 + size else acc.1
      let size1h := if duration ≤ Hour then acc.2.1 + size else acc.2.1
      let size4h := if duration ≤ 4 * Hour then acc.2.2 + size else acc.2.2
      (size10m, size1h, size4h))
    (0, 0, 0)

/-- `RiskAnalyzer.checkDataDownloadVolumeFromHistory`.  The sums are far below `2^63`
for histories held in memory, so `int64` is `Int`. -/
def RiskAnalyzer.checkDataDownloadVolumeFromHistory (ra : RiskAnalyzer) (env : Env)
    (fingerprint : UserFingerprint) : ℚ :=
  let history := (ra.userAccessHistory fingerprint).getD []
  let sizes := downloadSizes env.now history
  if sizes.1 > 10 * 1024 * 1024 ∨ sizes.2.1 > 50 * 1024 * 1024 ∨ sizes.2.2 > 200 * 1024 * 1024
  then 4 else 0

def sensitiveURLPaths : List String :=
  ["/api/user", "/api/admin", "/api/finance", "/api/account", "/api/sensitive", "/internal/"]

/-- `RiskAnalyzer.isSensitiveDataAccess`. -/
def isSensitiveDataAccess (data : PacketData) : Bool :=
  sensitiveURLPaths.any (fun path => strContains data.URLFull path)

/-- `RiskAnalyzer.calculateSensitiveDataAvg`: the loop keeps `workdayAccessCount`,
`workdayCount` and the days entered in `workdayMap`. -/
def calculateSensitiveDataAvg (env : Env) (userID : String) : ℚ :=
  let thirtyDaysAgo := env.now.Add (-30 * 24 * Hour)
  match env.GetUserAccessHistory userID thirtyDaysAgo with
  | none => 0
  | some history =>
    let r := history.foldl
      (fun (acc : Nat × Nat × List Int) data =>
        if ¬ isSensitiveDataAccess data then acc
        else
          let weekday := data.Timestamp.Weekday
          if weekday = Saturday ∨ weekday = Sunday then acc
          else
            let dateStr := data.Timestamp.dayNumber
            if dateStr ∈ acc.2.2 then (acc.1 + 1, acc.2.1, acc.2.2)
            else (acc.1 + 1, acc.2.1 + 1, dateStr :: acc.2.2))
      (0, 0, [])
    if r.2.1 > 0 then (r.1 : ℚ) / (r.2.1 : ℚ) else 0

/-- Midnight of the day of `now` in its location, `time.Date(y, m, d, 0, 0, 0, 0, loc)`. -/
def startOfDay (now : GoTime) : GoTime :=
  { now with unixNano := (now.localSeconds - now.localSeconds % 86400 - now.offset) * 1000000000 }

/-- `RiskAnalyzer.getTodaySensitiveAccessCount`. -/
def getTodaySensitiveAccessCount (env : Env) (userID : String) : Nat :=
  match env.GetUserAccessHistory userID (startOfDay env.now) with
  | none => 0
  | some history => (history.filter isSensitiveDataAccess).length

/-- `RiskAnalyzer.getSensitiveDataAvg`, run by one goroutine: the check under the read
lock, the second check under the write lock, the database, the recomputation.  The
write-through started at the end is `Storage.SaveSensitiveDataAvg`. -/
def RiskAnalyzer.getSensitiveDataAvg (ra : RiskAnalyzer) (env : Env) (userID : String) :
    RiskAnalyzer × ℚ :=
  let now := env.now
  let live (ra : RiskAnalyzer) : Option ℚ :=
    match ra.sensitiveDataAvg userID, ra.sensitiveDataExpiry userID with
    | some avg, some expiry => if now.Before expiry then some avg else none
    | _, _ => none
  match live ra with
  | some avg => (ra, avg)
  | none =>
    match live ra with
    | some avg => (ra, avg)
    | none =>
      let (dbAvg, dbExpiry, err) := ra.storage.GetSensitiveDataAvg env userID
      if err.isNone ∧ now.Before dbExpiry then
        ({ ra with
            sensitiveDataAvg := fun k => if k = userID then some dbAvg else ra.sensitiveDataAvg k
            sensitiveDataExpiry :=
              fun k => if k = userID then some dbExpiry else ra.sensitiveDataExpiry k },
          dbAvg)
      else
        let avg := calculateSensitiveDataAvg env userID
        let expiry := now.Add (24 * Hour)
        let ra1 : RiskAnalyzer :=
          { ra with
            sensitiveDataAvg := fun k => if k = userID then some avg else ra.sensitiveDataAvg k
            sensitiveDataExpiry :=
              fun k => if k = userID then some expiry else ra.sensitiveDataExpiry k }
        (ra1.setStorage (ra1.storage.SaveSensitiveDataAvg userID avg expiry).1, avg)

/-- `RiskAnalyzer.checkOperationTimeEnhanced`. -/
def RiskAnalyzer.checkOperationTimeEnhanced (ra : RiskAnalyzer) (env : Env) (data : PacketData) :
    RiskAnalyzer × ℚ :=
  let hour := data.Timestamp.HourOfDay
  let weekday := data.Timestamp.Weekday
  let isNightTime : Bool := decide (hour ≥ 22 ∨ hour < 7)
  let isWeekend : Bool := decide (weekday = Saturday ∨ weekday = Sunday)
  let offHours : ℚ := if isNightTime then 3 else if isWeekend then 2 else 0
  let userID := data.HeaderCookie
  if userID ≠ "" ∧ isSensitiveDataAccess data then
    let (ra1, avgAccess) := ra.getSensitiveDataAvg env userID
    let todayCount := getTodaySensitiveAccessCount env userID
    if ¬ isWeekend ∧ avgAccess > 0 ∧ (todayCount : ℚ) > avgAccess * 3 then (ra1, 6)
    else if isWeekend ∧ avgAccess > 0 ∧ (todayCount : ℚ) > avgAccess * (5 / 2) then (ra1, 6)
    else (ra1, offHours)
  else (ra, offHours)

/-- `RiskAnalyzer.checkHistoricalRisksEnhanced`. -/
def RiskAnalyzer.checkHistoricalRisksEnhanced (ra : RiskAnalyzer) (env : Env)
    (data : PacketData) : ℚ :=
  match ra.ipRiskHistory data.ClientIP with
  | none => 0
  | some events =>
    if events.length = 0 then 0
    else
      let twentyFourHoursAgo := env.now.Add (-24 * Hour)
      let r := events.foldl
        (fun (acc : ℚ × Nat) event =>
          if event.Timestamp.After twentyFourHoursAgo
          then (acc.1 + event.RiskScore * (1 / 10), acc.2 + 1) else acc)
        (0, 0)
      if r.2 ≥ 3 then r.1 + 2 else r.1

/-- `RiskAnalyzer.checkHighIPSwitching`. -/
def RiskAnalyzer.checkHighIPSwitching (ra : RiskAnalyzer) (env : Env)
    (fingerprint : UserFingerprint) : RiskAnalyzer × ℚ :=
  if fingerprint.Cookie = "" ∨ fingerprint.IP = "" then (ra, 0)
  else
    let seen : IPTimes := (ra.cookieIPHistory fingerprint.Cookie).getD ∅
    let now := env.now
    let seen' := seen.insert fingerprint.IP now
    let ra' : RiskAnalyzer :=
      { ra with cookieIPHistory :=
          fun c => if c = fingerprint.Cookie then some seen' else ra.cookieIPHistory c }
    let tenMinutesAgo := now.Add (-10 * Minute)
    let uniqueIPs := (seen'.entries.filter (fun e => e.2.After tenMinutesAgo)).map (fun e => e.1)
    if uniqueIPs.length > 2 then (ra', 6) else (ra', 0)

/-- `RiskAnalyzer.checkLoginIPLocation`. -/
def RiskAnalyzer.checkLoginIPLocation (ra : RiskAnalyzer) (data : PacketData) : ℚ :=
  match ra.geoIP with
  | none => 0
  | some reader =>
    match ParseIP data.ClientIP with
    | none => 0
    | some ip =>
      match reader ip with
      | none => 0
      | some city => if city.CountryIsoCode ∈ ["RU", "KP", "IR"] then 2 else 0

def dataCenterASNs : List Nat := [16509, 14618, 8075, 45102, 37963, 4134, 4837]

/-- `RiskAnalyzer.checkDataCenterIP`. -/
def RiskAnalyzer.checkDataCenterIP (ra : RiskAnalyzer) (data : PacketData) : ℚ :=
  match ra.asnDB with
  | none => 0
  | some reader =>
    match ParseIP data.ClientIP with
    | none => 0
    | some ip =>
      match reader ip with
      | none => 0
      | some asn => if asn ∈ dataCenterASNs then 1 else 0

/-- `RiskAnalyzer.checkProxyFeatures`. -/
def RiskAnalyzer.checkProxyFeatures (ra : RiskAnalyzer) (data : PacketData) : ℚ :=
  if data.XForwardedFor ≠ "" ∧ data.XForwardedFor ≠ data.ClientIP then 3 / 2
  else ra.checkDataCenterIP data

/-- `RiskAnalyzer.checkNonMainlandChina`. -/
def RiskAnalyzer.checkNonMainlandChina (ra : RiskAnalyzer) (data : PacketData) : ℚ :=
  match ra.geoIP with
  | none => 0
  | some reader =>
    match ParseIP data.ClientIP with
    | none => 0
    | some ip =>
      match reader ip with
      | none => 0
      | some city =>
        if city.CountryIsoCode = "CN" then
          if city.Subdivisions.length > 0 ∧
              (city.Subdivisions.head? = some "HK" ∨ city.Subdivisions.head? = some "MO" ∨
                city.Subdivisions.head? = some "TW")
          then 8 else 0
        else 8

/-! ## analyzer: aggregation -/

/-- `RiskAnalyzer.getRiskType`. -/
def getRiskType (score : ℚ) : String :=
  if score ≥ 8 then "高风险"
  else if score ≥ 5 then "中风险"
  else "低风险"

/-- The eight calls summed by `ProcessPacket`, in the order of the expression: the state
after them and the eight values. -/
def RiskAnalyzer.ruleScores (ra : RiskAnalyzer) (env : Env) (data : PacketData)
    (fingerprint : UserFingerprint) : RiskAnalyzer × List ℚ :=
  let s1 := ra.checkDataDownloadVolumeFromHistory env fingerprint
  let (ra1, s2) := ra.checkOperationTimeEnhanced env data
  let (ra2, s3) := ra1.checkHighIPSwitching env fingerprint
  let s4 := ra2.checkLoginIPLocation data
  let s5 := ra2.checkProxyFeatures data
  let s6 := ra2.checkHistoricalRisksEnhanced env data
  let s7 := ra2.checkNonMainlandChina data
  let s8 := ra2.checkDataCenterIP data
  (ra2, [s1, s2, s3, s4, s5, s6, s7, s8])

/-- `RiskAnalyzer.getAlertRules`. -/
def RiskAnalyzer.getAlertRules (ra : RiskAnalyzer) (env : Env) (data : PacketData)
    (_riskScore : ℚ) : RiskAnalyzer × List String :=
  let fingerprint : UserFingerprint :=
    { IP := data.ClientIP, UserAgent := data.HeaderUserAgent, Cookie := data.HeaderCookie }
  let rules : List String := []
  let rules := if ra.checkDataDownloadVolumeFromHistory env fingerprint > 0
    then rules ++ ["数据下载量异常"] else rules
  let (ra1, s2) := ra.checkOperationTimeEnhanced env data
  let rules := if s2 > 0 then rules ++ ["非常规操作时间"] else rules
  let (ra2, s3) := ra1.checkHighIPSwitching env fingerprint
  let rules := if s3 > 0 then rules ++ ["IP高频切换"] else rules
  let rules := if ra2.checkLoginIPLocation data > 0 then rules ++ ["地理位置异常"] else rules
  let rules := if ra2.checkProxyFeatures data > 0 then rules ++ ["代理IP访问"] else rules
  let rules := if ra2.checkHistoricalRisksEnhanced env data > 0
    then rules ++ ["历史高风险"] else rules
  let rules := if ra2.checkNonMainlandChina data > 0 then rules ++ ["非中国大陆IP"] else rules
  let rules := if ra2.checkDataCenterIP data > 0 then rules ++ ["数据中心IP"] else rules
  (ra2, rules)

/-- `RiskAnalyzer.cleanupOldData`: both horizons are one hour in the code. -/
def RiskAnalyzer.cleanupOldData (ra : RiskAnalyzer) (env : Env) : RiskAnalyzer :=
  let now := env.now
  let eightHoursAgo := now.Add (-1 * Hour)
  let twentyFourHoursAgo := now.Add (-1 * Hour)
  { ra with
    userAccessHistory := fun fp =>
      match ra.userAccessHistory fp with
      | none => none
      | some history =>
        let newHistory := history.filter (fun data => data.Timestamp.After eightHoursAgo)
        if newHistory.length > 0 then some newHistory else none
    ipRiskHistory := fun ip =>
      match ra.ipRiskHistory ip with
      | none => none
      | some events =>
        let newEvents := events.filter (fun event => event.Timestamp.After twentyFourHoursAgo)
        if newEvents.length > 0 then some newEvents else none }

/-- `RiskAnalyzer.ProcessPacket`. -/
def RiskAnalyzer.ProcessPacket (ra : RiskAnalyzer) (env : Env) (data : PacketData) :
    RiskAnalyzer :=
  if ra.whitelist.ContainsIP data.ClientIP then ra
  else
    let fingerprint : UserFingerprint :=
      { IP := data.ClientIP, UserAgent := data.HeaderUserAgent, Cookie := data.HeaderCookie }
    let ra0 : RiskAnalyzer :=
      { ra with userAccessHistory := fun fp =>
          if fp = fingerprint then some ((ra.userAccessHistory fingerprint).getD [] ++ [data])
          else ra.userAccessHistory fp }
    let (ra1, scores) := ra0.ruleScores env data fingerprint
    let riskScore := scores.sum
    let (ra2, eventRules) := ra1.getAlertRules env data riskScore
    let event : RiskEvent :=
      { Fingerprint := fingerprint, RiskScore := riskScore, Timestamp := env.now,
        RiskType := getRiskType riskScore, AlertRules := eventRules }
    let ra3 : RiskAnalyzer :=
      { ra2 with ipRiskHistory := fun ip =>
          if ip = data.ClientIP then some ((ra2.ipRiskHistory data.ClientIP).getD [] ++ [event])
          else ra2.ipRiskHistory ip }
    let ra4 := ra3.setStorage (ra3.storage.SaveAnalysisResult env data riskScore).1
    let ra5 :=
      if riskScore ≥ 8 then
        let (ra', alertRules) := ra4.getAlertRules env data riskScore
        { ra' with alerter := (ra'.alerter.TriggerAlert env data riskScore alertRules).1 }
      else ra4
    ra5.cleanupOldData env

/-! ## analyzer: two goroutines in `getSensitiveDataAvg` -/

/-- The test `exists && hasExpiry && now.Before(expiry)` of `getSensitiveDataAvg` on the two
maps: the average when the entry of the identity is live at `now`. -/
def RiskAnalyzer.cachedAvg (ra : RiskAnalyzer) (now : GoTime) (userID : String) : Option ℚ :=
  match ra.sensitiveDataAvg userID, ra.sensitiveDataExpiry userID with
  | some avg, some expiry => if now.Before expiry then some avg else none
  | _, _ => none

/-- Where a goroutine stands in `getSensitiveDataAvg`: before `RLock`; before `Lock` after
the first check missed; holding the lock before the second check; before the query of the
database; before the recomputation; before `Unlock` with the value to return (and the expiry
when a write-through is due); before `go func` of the write-through; returned. -/
inductive ReadStage where
  | start
  | waiting
  | locked
  | query
  | compute
  | unlock (avg : ℚ) (save : Option GoTime)
  | spawn (avg : ℚ) (expiry : GoTime)
  | returned (avg : ℚ)
  deriving DecidableEq

/-- Two goroutines, `true` and `false`, in `getSensitiveDataAvg` for one identity: the
engine they share, the holder of the write side of `sensitiveDataMu`, the stage of each, and
the number of calls of `calculateSensitiveDataAvg` so far. -/
structure ReadSystem where
  ra : RiskAnalyzer
  writer : Option Bool
  stage : Bool → ReadStage
  recomputations : Nat

/-- Both goroutines before their call, the lock free. -/
def ReadSystem.init (ra : RiskAnalyzer) : ReadSystem :=
  { ra := ra, writer := none, stage := fun _ => ReadStage.start, recomputations := 0 }

/-- The system with goroutine `i` moved to a stage. -/
def ReadSystem.setStage (s : ReadSystem) (i : Bool) (st : ReadStage) : ReadSystem :=
  { s with stage := fun j => if j = i then st else s.stage j }

/-- One step of goroutine `i`, whose clock reading and I/O outcomes are `envs i`; `none`
when it has returned or waits for the lock.  The section between `RLock` and `RUnlock` only
reads and is one step, which needs the write side to be free; `Lock` needs it free as well
(no reader holds the read side between steps).  The write-through stores nothing
(`Storage.SaveSensitiveDataAvg`) and is run where it is started. -/
def ReadSystem.step (s : ReadSystem) (envs : Bool → Env) (userID : String) (i : Bool) :
    Option ReadSystem :=
  let env := envs i
  let now := env.now
  match s.stage i with
  | ReadStage.start =>
    if s.writer.isSome then none
    else
      match s.ra.cachedAvg now userID with
      | some avg => some (s.setStage i (ReadStage.returned avg))
      | none => some (s.setStage i ReadStage.waiting)
  | ReadStage.waiting =>
    if s.writer.isSome then none
    else some ({ s with writer := some i }.setStage i ReadStage.locked)
  | ReadStage.locked =>
    match s.ra.cachedAvg now userID with
    | some avg => some (s.setStage i (ReadStage.unlock avg none))
    | none => some (s.setStage i ReadStage.query)
  | ReadStage.query =>
    let (dbAvg, dbExpiry, err) := s.ra.storage.GetSensitiveDataAvg env userID
    if err.isNone ∧ now.Before dbExpiry then
      some ({ s with ra :=
          { s.ra with
            sensitiveDataAvg := fun k => if k = userID then some dbAvg else s.ra.sensitiveDataAvg k
            sensitiveDataExpiry :=
              fun k => if k = userID then some dbExpiry else s.ra.sensitiveDataExpiry k } }.setStage
        i (ReadStage.unlock dbAvg none))
    else some (s.setStage i ReadStage.compute)
  | ReadStage.compute =>
    let avg := calculateSensitiveDataAvg env userID
    let expiry := now.Add (24 * Hour)
    some ({ s with
        ra :=
          { s.ra with
            sensitiveDataAvg := fun k => if k = userID then some avg else s.ra.sensitiveDataAvg k
            sensitiveDataExpiry :=
              fun k => if k = userID then some expiry else s.ra.sensitiveDataExpiry k }
        recomputations := s.recomputations + 1 }.setStage i (ReadStage.unlock avg (some expiry)))
  | ReadStage.unlock avg save =>
    match save with
    | none => some ({ s with writer := none }.setStage i (ReadStage.returned avg))
    | some expiry => some ({ s with writer := none }.setStage i (ReadStage.spawn avg expiry))
  | ReadStage.spawn avg expiry =>
    some ({ s with
        ra := s.ra.setStorage (s.ra.storage.SaveSensitiveDataAvg userID avg expiry).1 }.setStage
      i (ReadStage.returned avg))
  | ReadStage.returned _ => none

/-- The system after a schedule: the goroutines take a step in the order given; a goroutine
that is scheduled while it waits for the lock or after it returned does nothing. -/
def ReadSystem.run (envs : Bool → Env) (userID : String) : ReadSystem → List Bool → ReadSystem
  | s, [] => s
  | s, i :: rest =>
    match s.step envs userID i with
    | some s' => ReadSystem.run envs userID s' rest
    | none => ReadSystem.run envs userID s rest

/-! ## Notions used to state the properties -/

/-- The entry of the fingerprint of `data`, if any, is still within the cooldown at `env.now`. -/
def Alerter.inCooldown (a : Alerter) (env : Env) (data : PacketData) : Prop :=
  ∃ lastAlert, a.alertHistory (generateUserFingerprint data) = some lastAlert ∧
    env.now.Sub lastAlert < a.alertCooldownTime

/-- The alerter after an alert of `data` was stored and posted, the cooldown map untouched. -/
def Alerter.withAlert (a : Alerter) (env : Env) (data : PacketData) (riskScore : ℚ)
    (alertRules : List String) : Alerter :=
  { a with
    storage := { a.storage with
      alert_events := a.storage.alert_events ++ [alertRow env data riskScore alertRules] }
    posted := a.posted ++ [alertPayload env data riskScore alertRules] }

/-- The network a bare IPv4 address is stored as: the address itself under the mask of
32 ones. -/
def hostNet4 (x : List Byte) : IPNet := { IP := x, Mask := [255, 255, 255, 255] }

/-- Summed response-body length of the entries of `history` aged at most `window` at `now`. -/
def windowBytes (now : GoTime) (window : Duration) (history : List PacketData) : Int :=
  ((history.filter (fun d => decide (now.unixNano - d.Timestamp.unixNano ≤ window))).map
    (fun d => (strLen d.Content : Int))).sum

/-- One of the three download thresholds is exceeded: more than 10 MiB within 10 minutes,
50 MiB within 1 hour or 200 MiB within 4 hours. -/
def exceedsDownloadLimit (now : GoTime) (history : List PacketData) : Prop :=
  windowBytes now (10 * Minute) history > 10 * 1024 * 1024 ∨
  windowBytes now Hour history > 50 * 1024 * 1024 ∨
  windowBytes now (4 * Hour) history > 200 * 1024 * 1024

/-- The time is within the trailing ten minutes of `now`: strictly after `now - 10 min`. -/
def seenRecently (now t : GoTime) : Bool := decide (now.unixNano - 10 * Minute < t.unixNano)

/-- The distinct addresses used by a cookie within the trailing ten minutes: those of the
map `seen` last seen recently, and the address of the current event. -/
def recentAddresses (seen : IPTimes) (now : GoTime) (current : String) : Finset String :=
  insert current (seen.keys.toFinset.filter
    (fun ip => (seen.lookup ip).any (seenRecently now) = true))

/-- The record says: not China, or China with first subdivision Hong Kong, Macao or Taiwan. -/
def City.nonMainland (city : City) : Prop :=
  city.CountryIsoCode ≠ "CN" ∨
    (city.CountryIsoCode = "CN" ∧
      (city.Subdivisions.head? = some "HK" ∨ city.Subdivisions.head? = some "MO" ∨
        city.Subdivisions.head? = some "TW"))

/-- The fingerprint `ProcessPacket` and `getAlertRules` build for an event. -/
def fingerprintOf (data : PacketData) : UserFingerprint :=
  { IP := data.ClientIP, UserAgent := data.HeaderUserAgent, Cookie := data.HeaderCookie }

/-- The hour of the timestamp is at least 22 or below 7. -/
def isNightTime (t : GoTime) : Prop := t.HourOfDay ≥ 22 ∨ t.HourOfDay < 7

/-- The weekday of the timestamp is Saturday or Sunday. -/
def isWeekend (t : GoTime) : Prop := t.Weekday = Saturday ∨ t.Weekday = Sunday

instance (t : GoTime) : Decidable (isNightTime t) := by unfold isNightTime; infer_instance

instance (t : GoTime) : Decidable (isWeekend t) := by unfold isWeekend; infer_instance

/-- The score of the hour and the weekday alone: 3 at night, else 2 on a weekend day,
else 0. -/
def offHoursScore (t : GoTime) : ℚ := if isNightTime t then 3 else if isWeekend t then 2 else 0

/-- Today's sensitive-access count of the identity exceeds 3 times the baseline average on
a weekday, 2.5 times on Saturday or Sunday. -/
def exceedsBaseline (t : GoTime) (avgAccess : ℚ) (todayCount : Nat) : Prop :=
  if isWeekend t then (todayCount : ℚ) > avgAccess * (5 / 2) else (todayCount : ℚ) > avgAccess * 3

/-- The anomaly as stated without guards: a sensitive path and a count above the multiple
of the average the cache serves. -/
def RiskAnalyzer.anomalyAsStated (ra : RiskAnalyzer) (env : Env) (data : PacketData) : Prop :=
  isSensitiveDataAccess data = true ∧
    exceedsBaseline data.Timestamp (ra.getSensitiveDataAvg env data.HeaderCookie).2
      (getTodaySensitiveAccessCount env data.HeaderCookie)

/-- The anomaly as the code tests it: the cookie is not empty, the path is sensitive, the
average the cache serves is positive and the count is above its multiple. -/
def RiskAnalyzer.anomalyTriggers (ra : RiskAnalyzer) (env : Env) (data : PacketData) : Prop :=
  data.HeaderCookie ≠ "" ∧ isSensitiveDataAccess data = true ∧
    0 < (ra.getSensitiveDataAvg env data.HeaderCookie).2 ∧
    exceedsBaseline data.Timestamp (ra.getSensitiveDataAvg env data.HeaderCookie).2
      (getTodaySensitiveAccessCount env data.HeaderCookie)

/-- The prior events of an address within the trailing 24 hours: strictly after
`now - 24 h`. -/
def recentRisks (now : GoTime) (events : List RiskEvent) : List RiskEvent :=
  events.filter (fun event => decide (now.unixNano - 24 * Hour < event.Timestamp.unixNano))

/-- One tenth of the summed scores of the events. -/
def weightedRisk (events : List RiskEvent) : ℚ :=
  (events.map (fun event => event.RiskScore)).sum * (1 / 10)

/-- The events that are high-scoring: a score of at least 8. -/
def highScoring (events : List RiskEvent) : List RiskEvent :=
  events.filter (fun event => decide (8 ≤ event.RiskScore))

/-- The accesses that count for the baseline: a sensitive path, Monday to Friday. -/
def workdaySensitive (history : List PacketData) : List PacketData :=
  history.filter (fun data =>
    isSensitiveDataAccess data ∧ ¬ (data.Timestamp.Weekday = Saturday ∨
      data.Timestamp.Weekday = Sunday))

/-- The distinct calendar days of the accesses. -/
def distinctDays (history : List PacketData) : Finset Int :=
  (history.map (fun data => data.Timestamp.dayNumber)).toFinset

/-- The in-memory baseline entry of the identity is live at `now`: value and expiry are
present and `now` is before the expiry. -/
def RiskAnalyzer.baselineLive (ra : RiskAnalyzer) (now : GoTime) (userID : String) (avg : ℚ) :
    Prop :=
  ra.sensitiveDataAvg userID = some avg ∧
    ∃ expiry, ra.sensitiveDataExpiry userID = some expiry ∧ now.Before expiry = true

/-- The engine after the first statement of `ProcessPacket`: the event appended to the
access history of its fingerprint. -/
def RiskAnalyzer.withAccess (ra : RiskAnalyzer) (data : PacketData) : RiskAnalyzer :=
  { ra with userAccessHistory := fun fp =>
      if fp = fingerprintOf data
      then some ((ra.userAccessHistory (fingerprintOf data)).getD [] ++ [data])
      else ra.userAccessHistory fp }

/-- The eight contributions `ProcessPacket` computes for an event, in the order of the sum. -/
def RiskAnalyzer.contributions (ra : RiskAnalyzer) (env : Env) (data : PacketData) : List ℚ :=
  ((ra.withAccess data).ruleScores env data (fingerprintOf data)).2

/-- The aggregate score `ProcessPacket` computes for an event. -/
def RiskAnalyzer.aggregateScore (ra : RiskAnalyzer) (env : Env) (data : PacketData) : ℚ :=
  (ra.contributions env data).sum

/-- The rule list `ProcessPacket` stores in the `RiskEvent` of an event. -/
def RiskAnalyzer.eventRules (ra : RiskAnalyzer) (env : Env) (data : PacketData) : List String :=
  (((ra.withAccess data).ruleScores env data (fingerprintOf data)).1.getAlertRules env data
    (ra.aggregateScore env data)).2

/-- The `RiskEvent` `ProcessPacket` records for an event. -/
def RiskAnalyzer.recordedEvent (ra : RiskAnalyzer) (env : Env) (data : PacketData) : RiskEvent :=
  { Fingerprint := fingerprintOf data, RiskScore := ra.aggregateScore env data,
    Timestamp := env.now, RiskType := getRiskType (ra.aggregateScore env data),
    AlertRules := ra.eventRules env data }

/-- The engine at the alert decision of `ProcessPacket`: the risk event is appended and the
analysis result saved. -/
def RiskAnalyzer.atAlertDecision (ra : RiskAnalyzer) (env : Env) (data : PacketData) :
    RiskAnalyzer :=
  let ra2 := (((ra.withAccess data).ruleScores env data (fingerprintOf data)).1.getAlertRules
    env data (ra.aggregateScore env data)).1
  let ra3 : RiskAnalyzer :=
    { ra2 with ipRiskHistory := fun ip =>
        if ip = data.ClientIP
        then some ((ra2.ipRiskHistory data.ClientIP).getD [] ++ [ra.recordedEvent env data])
        else ra2.ipRiskHistory ip }
  ra3.setStorage (ra3.storage.SaveAnalysisResult env data (ra.aggregateScore env data)).1

/-- The rule list `ProcessPacket` hands to the alerter for an event whose score is at
least 8. -/
def RiskAnalyzer.alertRulesHanded (ra : RiskAnalyzer) (env : Env) (data : PacketData) :
    List String :=
  ((ra.atAlertDecision env data).getAlertRules env data (ra.aggregateScore env data)).2

/-- The engine right before the cleanup that ends `ProcessPacket`. -/
def RiskAnalyzer.beforeCleanup (ra : RiskAnalyzer) (env : Env) (data : PacketData) :
    RiskAnalyzer :=
  if ra.aggregateScore env data ≥ 8 then
    let r := (ra.atAlertDecision env data).getAlertRules env data (ra.aggregateScore env data)
    { r.1 with alerter :=
        (r.1.alerter.TriggerAlert env data (ra.aggregateScore env data) r.2).1 }
  else ra.atAlertDecision env data

/-- The names of the eight rules in the order of the battery. -/
def ruleNames : List String :=
  ["数据下载量异常", "非常规操作时间", "IP高频切换", "地理位置异常", "代理IP访问", "历史高风险",
    "非中国大陆IP", "数据中心IP"]

/-- The names of the rules whose value is positive, in the order of the battery. -/
def namesOfPositive (scores : List ℚ) : List String :=
  ((ruleNames.zip scores).filter (fun p => decide (0 < p.2))).map (fun p => p.1)

/-- The two engines agree on everything but the cookie-address history and the baseline
cache. -/
def RiskAnalyzer.sameCore (ra ra' : RiskAnalyzer) : Prop :=
  ra'.userAccessHistory = ra.userAccessHistory ∧ ra'.ipRiskHistory = ra.ipRiskHistory ∧
    ra'.geoIP = ra.geoIP ∧ ra'.asnDB = ra.asnDB ∧ ra'.whitelist = ra.whitelist ∧
    ra'.alerter = ra.alerter

/-- The engines reachable from a freshly built one by `ProcessPacket` steps. -/
inductive Reachable : RiskAnalyzer → Prop where
  | init (storage : Storage) (geoIP : Option CityReader) (asnDB : Option ASNReader)
      (webhookURL : String) (whitelistIPs : List String) (env : Env) :
      Reachable (NewRiskAnalyzer storage geoIP asnDB webhookURL whitelistIPs env)
  | step {ra : RiskAnalyzer} (env : Env) (data : PacketData) :
      Reachable ra → Reachable (ra.ProcessPacket env data)

/-- Every stored `RiskEvent` has a non-negative score. -/
def RiskAnalyzer.riskScoresNonneg (ra : RiskAnalyzer) : Prop :=
  ∀ ip events, ra.ipRiskHistory ip = some events → ∀ event ∈ events, 0 ≤ event.RiskScore

/-- `ProcessPacket` run on a sequence of events, each with the world of its pass. -/
def RiskAnalyzer.run (ra : RiskAnalyzer) : List (Env × PacketData) → RiskAnalyzer
  | [] => ra
  | step :: rest => (ra.ProcessPacket step.1 step.2).run rest

/-- The cleanup of the pass keeps a timestamp: strictly after `now - 1 h`. -/
def keptAt (env : Env) (t : GoTime) : Bool := t.After (env.now.Add (-1 * Hour))

/-- The cleanups of all the passes keep a timestamp. -/
def keptThrough (steps : List (Env × PacketData)) (t : GoTime) : Bool :=
  steps.all (fun step => keptAt step.1 t)

/-- The processed events of a fingerprint that the cleanup of their own pass and of every
later pass keeps, in arrival order. -/
def retained (fp : UserFingerprint) : List (Env × PacketData) → List PacketData
  | [] => []
  | step :: rest =>
    (if fingerprintOf step.2 = fp ∧ keptThrough (step :: rest) step.2.Timestamp = true
      then [step.2] else []) ++ retained fp rest

/-- The access history of a fingerprint as a sequence, empty when there is no entry. -/
def RiskAnalyzer.historyOf (ra : RiskAnalyzer) (fp : UserFingerprint) : List PacketData :=
  (ra.userAccessHistory fp).getD []

/-- The database serves the identity a value that is still valid at the clock of `env`: the
test `err == nil && now.Before(dbExpiry)` of `getSensitiveDataAvg`. -/
def RiskAnalyzer.storeServes (ra : RiskAnalyzer) (env : Env) (userID : String) : Prop :=
  (ra.storage.GetSensitiveDataAvg env userID).2.2 = none ∧
    env.now.Before (ra.storage.GetSensitiveDataAvg env userID).2.1 = true

/-- Both goroutines have returned. -/
def ReadSystem.finished (s : ReadSystem) : Prop := ∀ i, ∃ avg, s.stage i = ReadStage.returned avg

/-- The number of steps a goroutine at the stage can still take at most. -/
def ReadStage.rank : ReadStage → Nat
  | ReadStage.start => 7
  | ReadStage.waiting => 6
  | ReadStage.locked => 5
  | ReadStage.query => 4
  | ReadStage.compute => 3
  | ReadStage.unlock _ _ => 2
  | ReadStage.spawn _ _ => 1
  | ReadStage.returned _ => 0

/-- The number of steps the two goroutines can still take at most. -/
def ReadSystem.remaining (s : ReadSystem) : Nat := (s.stage true).rank + (s.stage false).rank

/-- The goroutine at the stage holds the write side of the lock. -/
def ReadStage.holds : ReadStage → Prop
  | ReadStage.locked => True
  | ReadStage.query => True
  | ReadStage.compute => True
  | ReadStage.unlock _ _ => True
  | _ => False

instance (ra : RiskAnalyzer) (env : Env) (userID : String) :
    Decidable (ra.storeServes env userID) := by
  unfold RiskAnalyzer.storeServes
  infer_instance

/-- The stages a goroutine can be at while no goroutine has written the cache. -/
def ReadStage.early : ReadStage → Prop
  | ReadStage.start => True
  | ReadStage.waiting => True
  | ReadStage.locked => True
  | ReadStage.query => True
  | ReadStage.compute => True
  | _ => False

/-- The stages a goroutine can be at once a goroutine has written the value `v`: it has not
passed the second check, or it carries `v`. -/
def ReadStage.late (v : ℚ) : ReadStage → Prop
  | ReadStage.start => True
  | ReadStage.waiting => True
  | ReadStage.locked => True
  | ReadStage.unlock avg _ => avg = v
  | ReadStage.spawn avg _ => avg = v
  | ReadStage.returned avg => avg = v
  | _ => False

/-- What holds of the two goroutines started on the engine `ra0`: the lock is held exactly by
a goroutine between `Lock` and `Unlock`; the database is the one of `ra0`; and either the
cache is that of `ra0`, nothing was recomputed and no goroutine is past the recomputation, or
one goroutine `w` has written what `getSensitiveDataAvg` run alone on `ra0` writes, the
recomputation was counted if the database served it nothing, and every goroutine past the
second check carries the value `w` returns. -/
def ReadSystem.coherent (ra0 : RiskAnalyzer) (envs : Bool → Env) (userID : String)
    (s : ReadSystem) : Prop :=
  (∀ i, (s.stage i).holds ↔ s.writer = some i) ∧
  s.ra.alerter = ra0.alerter ∧
  ((s.ra.sensitiveDataAvg = ra0.sensitiveDataAvg ∧
      s.ra.sensitiveDataExpiry = ra0.sensitiveDataExpiry ∧ s.recomputations = 0 ∧
      (∀ i, (s.stage i).early) ∧
      (∀ i, s.stage i = ReadStage.compute → ¬ ra0.storeServes (envs i) userID)) ∨
    (∃ w, s.ra.sensitiveDataAvg = (ra0.getSensitiveDataAvg (envs w) userID).1.sensitiveDataAvg ∧
      s.ra.sensitiveDataExpiry = (ra0.getSensitiveDataAvg (envs w) userID).1.sensitiveDataExpiry ∧
      s.recomputations = (if ra0.storeServes (envs w) userID then 0 else 1) ∧
      (∀ i, (s.stage i).late (ra0.getSensitiveDataAvg (envs w) userID).2)))

/-! ## Sample inputs -/

/-- An event of cookie `sid=1` from address `1.2.3.4`. -/
def sampleEvent : PacketData :=
  { Timestamp := ⟨0, 0⟩, Method := "GET", RelatedIP := [], Content := "", StatusCode := 200,
    HeaderCookie := "sid=1", HeaderUserAgent := "curl", ClientIP := "1.2.3.4",
    URLFull := "http://h/x", UserAgent := "", Cookie := "", XForwardedFor := "" }

/-- A world whose clock shows `t` nanoseconds, where only the webhook may fail. -/
def sampleEnv (t : Int) (postFails : Bool) : Env :=
  { now := ⟨t, 0⟩, saveAnalysisFails := false, saveAlertFails := false, postFails := postFails,
    alertQueryFails := false, scanFails := fun _ => false, baselineQueryFails := false,
    GetUserAccessHistory := fun _ _ => some [] }

def emptyStorage : Storage := ⟨[], [], []⟩

/-- A database holding one alert of `sampleEvent`, created at instant 0. -/
def storageWithAlert : Storage :=
  ⟨[alertRow (sampleEnv 0 false) sampleEvent 9 ["非中国大陆IP"]], [], []⟩

/-- An engine without GeoIP readers whose whitelist holds `10.0.0.5`. -/
def sampleAnalyzer : RiskAnalyzer :=
  NewRiskAnalyzer emptyStorage none none "http://hook" ["10.0.0.5"] (sampleEnv 0 false)

/-- An event from the whitelisted address `10.0.0.5`. -/
def whitelistedEvent : PacketData := { sampleEvent with ClientIP := "10.0.0.5" }

/-- A body of `n` bytes. -/
def bodyOfSize (n : Nat) : String := String.mk (List.replicate n 'a')

/-- The event `sampleEvent` with a body of `n` bytes. -/
def eventOfSize (n : Nat) : PacketData := { sampleEvent with Content := bodyOfSize n }

/-- The fingerprint of `sampleEvent`. -/
def sampleFingerprint : UserFingerprint := ⟨"1.2.3.4", "curl", "sid=1"⟩

/-- The engine holding one event with a body of `n` bytes under `sampleFingerprint`. -/
def analyzerWithBody (n : Nat) : RiskAnalyzer :=
  { sampleAnalyzer with userAccessHistory := fun fp =>
      if fp = sampleFingerprint then some [eventOfSize n] else none }

/-- The engine in which cookie `sid=1` was seen from the given addresses at the given
instants. -/
def analyzerWithAddresses (seen : List (String × Int)) : RiskAnalyzer :=
  let times : IPTimes := seen.foldl (fun (m : IPTimes) e => m.insert e.1 ⟨e.2, 0⟩) ∅
  { sampleAnalyzer with cookieIPHistory := fun c => if c = "sid=1" then some times else none }

/-- A city database knowing four addresses. -/
def sampleCityReader : CityReader := fun ip =>
  if ip = v4InV6Prefix ++ [1, 1, 1, 1] then some ⟨"CN", ["HK"]⟩
  else if ip = v4InV6Prefix ++ [2, 2, 2, 2] then some ⟨"CN", []⟩
  else if ip = v4InV6Prefix ++ [3, 3, 3, 3] then some ⟨"US", []⟩
  else if ip = v4InV6Prefix ++ [4, 4, 4, 4] then some ⟨"CN", ["BJ"]⟩
  else none

/-- The sample engine with the city database `sampleCityReader`. -/
def analyzerWithGeo : RiskAnalyzer := { sampleAnalyzer with geoIP := some sampleCityReader }

/-- The event `sampleEvent` coming from the given address. -/
def eventFrom (ip : String) : PacketData := { sampleEvent with ClientIP := ip }

/-- The world of `sampleEnv t false` in which the store answers every history query with
`history`. -/
def envWithHistory (t : Int) (history : List PacketData) : Env :=
  { sampleEnv t false with GetUserAccessHistory := fun _ _ => some history }

/-- The sample engine whose baseline cache holds `avg` for `userID`, expiring at
instant 1000. -/
def analyzerWithBaseline (userID : String) (avg : ℚ) : RiskAnalyzer :=
  { sampleAnalyzer with
    sensitiveDataAvg := fun k => if k = userID then some avg else none
    sensitiveDataExpiry := fun k => if k = userID then some ⟨1000, 0⟩ else none }

/-- The event `sampleEvent` (Thursday 1970-01-01, 00:00) on a sensitive path. -/
def sensitiveEvent : PacketData := { sampleEvent with URLFull := "http://h/api/user/1" }

/-- The event `sensitiveEvent` without a cookie. -/
def anonymousSensitiveEvent : PacketData := { sensitiveEvent with HeaderCookie := "" }

/-- The event `sampleEvent` with its timestamp at the given second, UTC. -/
def eventAtSecond (sec : Int) : PacketData :=
  { sampleEvent with Timestamp := ⟨sec * 1000000000, 0⟩ }

/-- A risk event of address `1.2.3.4` with the given score at the given instant. -/
def riskEventAt (score : ℚ) (t : Int) : RiskEvent :=
  { Fingerprint := sampleFingerprint, RiskScore := score, Timestamp := ⟨t, 0⟩,
    RiskType := getRiskType score, AlertRules := [] }

/-- The sample engine whose risk history of address `1.2.3.4` holds the given events. -/
def analyzerWithRisks (events : List RiskEvent) : RiskAnalyzer :=
  { sampleAnalyzer with ipRiskHistory := fun ip => if ip = "1.2.3.4" then some events else none }

/-- A city database that knows `5.5.5.5` as an address of Russia. -/
def highRiskCityReader : CityReader := fun ip =>
  if ip = v4InV6Prefix ++ [5, 5, 5, 5] then some ⟨"RU", []⟩ else none

/-- A freshly built engine with an empty whitelist, an empty database and the city database
`highRiskCityReader`. -/
def freshAnalyzer : RiskAnalyzer :=
  NewRiskAnalyzer emptyStorage (some highRiskCityReader) none "http://hook" [] (sampleEnv 0 false)

/-- An event from `5.5.5.5` stamped at midnight with a body of 11 MiB. -/
def nightDownload : PacketData :=
  { sampleEvent with ClientIP := "5.5.5.5", Content := bodyOfSize (11 * 1024 * 1024) }

/-- The event `sensitiveEvent` stamped `sec` seconds after 1970-01-01 00:00 UTC, a Thursday. -/
def sensitiveAt (sec : Int) : PacketData :=
  { sensitiveEvent with Timestamp := ⟨sec * 1000000000, 0⟩ }

/-- A stored history: two sensitive accesses on Thursday, one on Friday, one on Saturday, and
an access to a path that is not sensitive on Thursday. -/
def sampleHistory : List PacketData :=
  [sensitiveAt 0, sensitiveAt 60, sensitiveAt 86400, sensitiveAt 172800, sampleEvent]

/-- An autonomous-system database that knows `6.6.6.6` as an address of AS 16509. -/
def sampleASNReader : ASNReader := fun ip =>
  if ip = v4InV6Prefix ++ [6, 6, 6, 6] then some 16509 else none

/-- The sample engine with the autonomous-system database `sampleASNReader`. -/
def analyzerWithASN : RiskAnalyzer := { sampleAnalyzer with asnDB := some sampleASNReader }

/-- The event `sampleEvent` forwarded for `9.9.9.9`. -/
def forwardedEvent : PacketData := { sampleEvent with XForwardedFor := "9.9.9.9" }

/-- An alerter with a cooldown of ten hours whose map holds `old` since instant 0 and `new`
since eleven hours later. -/
def alerterWithHistory : Alerter :=
  { storage := emptyStorage, webhookURL := "http://hook",
    alertHistory := fun k =>
      if k = "old:1.2.3.4" then some ⟨0, 0⟩
      else if k = "new:1.2.3.4" then some ⟨11 * Hour, 0⟩ else none,
    alertCooldownTime := 10 * Hour, posted := [] }

/-- A database whose baseline table holds the average 2 for `sid=1`, valid until instant 1000. -/
def storageWithBaseline : Storage := ⟨[], [], [⟨"sid=1", 2, ⟨1000, 0⟩⟩]⟩

/-- The sample engine over the database `storageWithBaseline`, its cache empty. -/
def analyzerOverBaseline : RiskAnalyzer :=
  NewRiskAnalyzer storageWithBaseline none none "http://hook" [] (sampleEnv 0 false)

/-- Two goroutines whose clock shows instant 5 and whose store answers every history query
with `sampleHistory`. -/
def sampleEnvs : Bool → Env := fun _ => envWithHistory 5 sampleHistory

/-! ## Theorems -/

/-! ### Time arithmetic -/

/-- Saturation of `Sub` does not change a comparison with a threshold inside the range. -/
theorem GoTime.Sub_lt_iff (t u : GoTime) (c : Int) (h1 : minDuration < c)
    (h2 : c ≤ maxDuration) : t.Sub u < c ↔ t.unixNano - u.unixNano < c := by
  have e : t.Sub u = if t.unixNano - u.unixNano < minDuration then minDuration
      else if maxDuration < t.unixNano - u.unixNano then maxDuration
      else t.unixNano - u.unixNano := rfl
  rw [e]
  split_ifs with ha hb
  · constructor <;> intro _ <;> linarith
  · constructor <;> intro _ <;> linarith
  · rfl

theorem GoTime.Sub_le_iff (t u : GoTime) (c : Int) (h1 : minDuration ≤ c)
    (h2 : c < maxDuration) : t.Sub u ≤ c ↔ t.unixNano - u.unixNano ≤ c := by
  have e : t.Sub u = if t.unixNano - u.unixNano < minDuration then minDuration
      else if maxDuration < t.unixNano - u.unixNano then maxDuration
      else t.unixNano - u.unixNano := rfl
  rw [e]
  split_ifs with ha hb
  · constructor <;> intro _ <;> linarith
  · constructor <;> intro _ <;> linarith
  · rfl

/-! ### The alerter -/

/-- Within the cooldown `TriggerAlert` returns at once. -/
theorem Alerter.TriggerAlert_inCooldown (a : Alerter) (env : Env) (data : PacketData)
    (riskScore : ℚ) (alertRules : List String) (h : a.inCooldown env data) :
    a.TriggerAlert env data riskScore alertRules = (a, none) := by
  obtain ⟨lastAlert, hentry, hlive⟩ := h
  unfold Alerter.TriggerAlert
  simp [hentry, hlive]

theorem Alerter.guard_iff_inCooldown (a : Alerter) (env : Env) (data : PacketData) :
    ((a.alertHistory (generateUserFingerprint data)).isSome = true ∧
      env.now.Sub ((a.alertHistory (generateUserFingerprint data)).getD zeroTime)
        < a.alertCooldownTime) ↔ a.inCooldown env data := by
  constructor
  · rintro ⟨h1, h2⟩
    obtain ⟨t, ht⟩ := Option.isSome_iff_exists.1 h1
    exact ⟨t, ht, by simpa [ht] using h2⟩
  · rintro ⟨t, ht, h2⟩
    exact ⟨by simp [ht], by simpa [ht] using h2⟩

/-- Outside the cooldown, with the insert and the post succeeding, the alert is stored and
posted and the cooldown entry is set. -/
theorem Alerter.TriggerAlert_delivered (a : Alerter) (env : Env) (data : PacketData)
    (riskScore : ℚ) (alertRules : List String) (h : ¬ a.inCooldown env data)
    (hsave : env.saveAlertFails = false) (hpost : env.postFails = false) :
    a.TriggerAlert env data riskScore alertRules =
      ({ a.withAlert env data riskScore alertRules with
          alertHistory := fun k =>
            if k = generateUserFingerprint data then some env.now else a.alertHistory k },
        none) := by
  unfold Alerter.TriggerAlert
  have hc := (not_congr (Alerter.guard_iff_inCooldown a env data)).2 h
  simp only [hc, if_false]
  simp [Storage.SaveAlertEvent, Alerter.sendAlertNotification, hsave, hpost, Alerter.withAlert]

/-- Outside the cooldown, with the insert succeeding and the post failing, the alert is
stored, the post was attempted, and the error comes back before the cooldown map is written. -/
theorem Alerter.TriggerAlert_undelivered (a : Alerter) (env : Env) (data : PacketData)
    (riskScore : ℚ) (alertRules : List String) (h : ¬ a.inCooldown env data)
    (hsave : env.saveAlertFails = false) (hpost : env.postFails = true) :
    a.TriggerAlert env data riskScore alertRules =
      (a.withAlert env data riskScore alertRules, some GoError.http) := by
  unfold Alerter.TriggerAlert
  have hc := (not_congr (Alerter.guard_iff_inCooldown a env data)).2 h
  simp only [hc, if_false]
  simp [Storage.SaveAlertEvent, Alerter.sendAlertNotification, hsave, hpost, Alerter.withAlert]

/-- C1: for every alerter state and every event whose cooldown key (cookie, address) has an
entry `lastAlert` with `now - lastAlert` below the cooldown duration, `TriggerAlert` inserts
no alert row, posts nothing, leaves the cooldown map as it was and returns no error; the
whole alerter is returned unchanged. -/
theorem C1_triggerAlert_suppressed (a : Alerter) (env : Env) (data : PacketData)
    (riskScore : ℚ) (alertRules : List String) (lastAlert : GoTime)
    (hentry : a.alertHistory (generateUserFingerprint data) = some lastAlert)
    (hlive : env.now.Sub lastAlert < a.alertCooldownTime) :
    (a.TriggerAlert env data riskScore alertRules).1.storage.alert_events
      = a.storage.alert_events ∧
    (a.TriggerAlert env data riskScore alertRules).1.posted = a.posted ∧
    (a.TriggerAlert env data riskScore alertRules).1.alertHistory = a.alertHistory ∧
    (a.TriggerAlert env data riskScore alertRules).2 = none ∧
    a.TriggerAlert env data riskScore alertRules = (a, none) := by
  simp [Alerter.TriggerAlert_inCooldown a env data riskScore alertRules
    ⟨lastAlert, hentry, hlive⟩]

/-- C1 at a concrete input: an alerter started at instant 5 over a database holding an alert
of `sampleEvent` created at instant 0 posts nothing for `sampleEvent` at instant 7. -/
theorem C1_triggerAlert_suppressed_witness :
    (NewAlerter storageWithAlert "http://hook" (sampleEnv 5 false)).alertHistory
        (generateUserFingerprint sampleEvent) = some ⟨0, 0⟩ ∧
    ((NewAlerter storageWithAlert "http://hook" (sampleEnv 5 false)).TriggerAlert
        (sampleEnv 7 false) sampleEvent 9 []).1.posted = [] ∧
    ((NewAlerter storageWithAlert "http://hook" (sampleEnv 5 false)).TriggerAlert
        (sampleEnv 7 false) sampleEvent 9 []).1.storage.alert_events
      = storageWithAlert.alert_events :=
  ⟨by decide,
   (C1_triggerAlert_suppressed (NewAlerter storageWithAlert "http://hook" (sampleEnv 5 false))
      (sampleEnv 7 false) sampleEvent 9 [] ⟨0, 0⟩ (by decide) (by decide)).2.1,
   (C1_triggerAlert_suppressed (NewAlerter storageWithAlert "http://hook" (sampleEnv 5 false))
      (sampleEnv 7 false) sampleEvent 9 [] ⟨0, 0⟩ (by decide) (by decide)).1⟩

/-- C2: starting from a cooldown map with no entry for a fingerprint and a cooldown of ten
hours, when two events of that fingerprint are handed to `TriggerAlert` at times `t1` and
`t2` with `t2 - t1` below ten hours, and the insert and the post of the first succeed, then
both calls return no error, exactly one alert row is inserted and exactly one payload is
posted, both for the first event, and the cooldown entry afterwards is `t1`.  (The scores
and the order of `t1` and `t2` play no role, so they are not assumed.) -/
theorem C2_two_events_one_alert (a : Alerter) (env1 env2 : Env) (d1 d2 : PacketData)
    (s1 s2 : ℚ) (rules1 rules2 : List String)
    (hcool : a.alertCooldownTime = 10 * Hour)
    (hnone : a.alertHistory (generateUserFingerprint d1) = none)
    (hsame : generateUserFingerprint d2 = generateUserFingerprint d1)
    (hlt : env2.now.unixNano - env1.now.unixNano < 10 * Hour)
    (hsave : env1.saveAlertFails = false) (hpost : env1.postFails = false) :
    (a.TriggerAlert env1 d1 s1 rules1).2 = none ∧
    ((a.TriggerAlert env1 d1 s1 rules1).1.TriggerAlert env2 d2 s2 rules2).2 = none ∧
    ((a.TriggerAlert env1 d1 s1 rules1).1.TriggerAlert env2 d2 s2 rules2).1.storage.alert_events
      = a.storage.alert_events ++ [alertRow env1 d1 s1 rules1] ∧
    ((a.TriggerAlert env1 d1 s1 rules1).1.TriggerAlert env2 d2 s2 rules2).1.posted
      = a.posted ++ [alertPayload env1 d1 s1 rules1] ∧
    ((a.TriggerAlert env1 d1 s1 rules1).1.TriggerAlert env2 d2 s2 rules2).1.alertHistory
      (generateUserFingerprint d1) = some env1.now := by
  have hfresh : ¬ a.inCooldown env1 d1 := by
    rintro ⟨t, ht, _⟩
    rw [hnone] at ht
    cases ht
  have hsub : env2.now.Sub env1.now < 10 * Hour :=
    (GoTime.Sub_lt_iff _ _ _ (by decide) (by decide)).2 hlt
  rw [Alerter.TriggerAlert_delivered a env1 d1 s1 rules1 hfresh hsave hpost]
  rw [Alerter.TriggerAlert_inCooldown _ env2 d2 s2 rules2
    ⟨env1.now, by simp [hsame], by simpa [hcool, Alerter.withAlert] using hsub⟩]
  simp [Alerter.withAlert]

/-- C2 at a concrete input: a fresh alerter over an empty database, `sampleEvent` at
instants 5 and 7. -/
theorem C2_two_events_one_alert_witness :
    (((NewAlerter emptyStorage "http://hook" (sampleEnv 0 false)).TriggerAlert
        (sampleEnv 5 false) sampleEvent 9 []).1.TriggerAlert
        (sampleEnv 7 false) sampleEvent 10 []).1.storage.alert_events
      = [alertRow (sampleEnv 5 false) sampleEvent 9 []] ∧
    (((NewAlerter emptyStorage "http://hook" (sampleEnv 0 false)).TriggerAlert
        (sampleEnv 5 false) sampleEvent 9 []).1.TriggerAlert
        (sampleEnv 7 false) sampleEvent 10 []).1.posted
      = [alertPayload (sampleEnv 5 false) sampleEvent 9 []] :=
  ⟨(C2_two_events_one_alert (NewAlerter emptyStorage "http://hook" (sampleEnv 0 false))
      (sampleEnv 5 false) (sampleEnv 7 false) sampleEvent sampleEvent 9 10 [] []
      (by decide) (by decide) (by decide) (by decide) (by decide) (by decide)).2.2.1,
   (C2_two_events_one_alert (NewAlerter emptyStorage "http://hook" (sampleEnv 0 false))
      (sampleEnv 5 false) (sampleEnv 7 false) sampleEvent sampleEvent 9 10 [] []
      (by decide) (by decide) (by decide) (by decide) (by decide) (by decide)).2.2.2.1⟩

/-- C3 as stated fails: a fresh alerter, `sampleEvent` at instant 5 with the insert
succeeding and the post failing.  The cooldown entry of the fingerprint is not the current
time afterwards (there is none), and the same event at instant 6 is not suppressed: a second
alert row is inserted. -/
theorem C3_cooldown_not_set_on_delivery_failure :
    (NewAlerter emptyStorage "http://hook" (sampleEnv 0 false)).alertHistory
      (generateUserFingerprint sampleEvent) = none ∧
    (sampleEnv 5 true).saveAlertFails = false ∧ (sampleEnv 5 true).postFails = true ∧
    ((NewAlerter emptyStorage "http://hook" (sampleEnv 0 false)).TriggerAlert
      (sampleEnv 5 true) sampleEvent 9 []).1.alertHistory (generateUserFingerprint sampleEvent)
      ≠ some (sampleEnv 5 true).now ∧
    ((((NewAlerter emptyStorage "http://hook" (sampleEnv 0 false)).TriggerAlert
      (sampleEnv 5 true) sampleEvent 9 []).1.TriggerAlert
      (sampleEnv 6 false) sampleEvent 9 []).1.storage.alert_events.length = 2) := by
  decide

/-- C3, amended: for every event with no live cooldown entry, when inserting the alert row
succeeds and the post to the webhook fails, `TriggerAlert` returns the delivery error, the
inserted alert row stays, the post was attempted once, and the cooldown map is left as it
was. -/
theorem C3_delivery_failure_keeps_record_and_map (a : Alerter) (env : Env)
    (data : PacketData) (riskScore : ℚ) (alertRules : List String)
    (hfresh : ¬ a.inCooldown env data)
    (hsave : env.saveAlertFails = false) (hpost : env.postFails = true) :
    (a.TriggerAlert env data riskScore alertRules).2 = some GoError.http ∧
    (a.TriggerAlert env data riskScore alertRules).1.storage.alert_events
      = a.storage.alert_events ++ [alertRow env data riskScore alertRules] ∧
    (a.TriggerAlert env data riskScore alertRules).1.posted
      = a.posted ++ [alertPayload env data riskScore alertRules] ∧
    (a.TriggerAlert env data riskScore alertRules).1.alertHistory = a.alertHistory := by
  rw [Alerter.TriggerAlert_undelivered a env data riskScore alertRules hfresh hsave hpost]
  simp [Alerter.withAlert]

/-- C3, amended, at a concrete input: a fresh alerter and `sampleEvent` at instant 5 with a
failing webhook. -/
theorem C3_delivery_failure_keeps_record_and_map_witness :
    ((NewAlerter emptyStorage "http://hook" (sampleEnv 0 false)).TriggerAlert
      (sampleEnv 5 true) sampleEvent 9 []).2 = some GoError.http ∧
    ((NewAlerter emptyStorage "http://hook" (sampleEnv 0 false)).TriggerAlert
      (sampleEnv 5 true) sampleEvent 9 []).1.storage.alert_events
      = [alertRow (sampleEnv 5 true) sampleEvent 9 []] :=
  ⟨(C3_delivery_failure_keeps_record_and_map
      (NewAlerter emptyStorage "http://hook" (sampleEnv 0 false)) (sampleEnv 5 true)
      sampleEvent 9 []
      (by
        rintro ⟨t, ht, _⟩
        have hn : (NewAlerter emptyStorage "http://hook" (sampleEnv 0 false)).alertHistory
            (generateUserFingerprint sampleEvent) = none := by decide
        rw [hn] at ht
        cases ht) (by decide) (by decide)).1,
   (C3_delivery_failure_keeps_record_and_map
      (NewAlerter emptyStorage "http://hook" (sampleEnv 0 false)) (sampleEnv 5 true)
      sampleEvent 9 []
      (by
        rintro ⟨t, ht, _⟩
        have hn : (NewAlerter emptyStorage "http://hook" (sampleEnv 0 false)).alertHistory
            (generateUserFingerprint sampleEvent) = none := by decide
        rw [hn] at ht
        cases ht) (by decide) (by decide)).2.1⟩

/-- C4 on the code: the database holds one alert of `sampleEvent` created at instant 0 and
the alerter starts two hours later, well within the cooldown of ten hours.  The bootstrap
query selects the last hour only, so the cooldown map has no entry for the fingerprint, and
`TriggerAlert` for the same cookie and address inserts a second alert row and posts. -/
theorem C4_bootstrap_misses_two_hour_old_alert :
    storageWithAlert.alert_events.map (fun r => (r.cookie, r.client_ip, r.created_at))
      = [("sid=1", "1.2.3.4", ⟨0, 0⟩)] ∧
    (sampleEnv (2 * Hour) false).now.unixNano - 0 < 10 * Hour ∧
    (NewAlerter storageWithAlert "http://hook" (sampleEnv (2 * Hour) false)).alertCooldownTime
      = 10 * Hour ∧
    (NewAlerter storageWithAlert "http://hook" (sampleEnv (2 * Hour) false)).alertHistory
      (generateUserFingerprint sampleEvent) = none ∧
    ((NewAlerter storageWithAlert "http://hook" (sampleEnv (2 * Hour) false)).TriggerAlert
      (sampleEnv (2 * Hour) false) sampleEvent 9 []).1.storage.alert_events.length = 2 ∧
    ((NewAlerter storageWithAlert "http://hook" (sampleEnv (2 * Hour) false)).TriggerAlert
      (sampleEnv (2 * Hour) false) sampleEvent 9 []).1.posted.length = 1 := by
  decide

/-! ### The whitelist -/

/-- C5: for every engine state and every event whose source address is whitelisted,
`ProcessPacket` leaves the access history, the per-address risk history, the cookie-address
history, the baseline cache and the alert cooldown map unchanged, writes nothing to the
database and posts no alert; it returns the engine as it was. -/
theorem C5_whitelisted_event_changes_nothing (ra : RiskAnalyzer) (env : Env) (data : PacketData)
    (hwl : ra.whitelist.ContainsIP data.ClientIP = true) :
    (ra.ProcessPacket env data).userAccessHistory = ra.userAccessHistory ∧
    (ra.ProcessPacket env data).ipRiskHistory = ra.ipRiskHistory ∧
    (ra.ProcessPacket env data).cookieIPHistory = ra.cookieIPHistory ∧
    (ra.ProcessPacket env data).sensitiveDataAvg = ra.sensitiveDataAvg ∧
    (ra.ProcessPacket env data).sensitiveDataExpiry = ra.sensitiveDataExpiry ∧
    (ra.ProcessPacket env data).alerter.alertHistory = ra.alerter.alertHistory ∧
    (ra.ProcessPacket env data).storage = ra.storage ∧
    (ra.ProcessPacket env data).alerter.posted = ra.alerter.posted ∧
    ra.ProcessPacket env data = ra := by
  have h : ra.ProcessPacket env data = ra := by
    unfold RiskAnalyzer.ProcessPacket
    simp [hwl]
  simp [h]

/-- C5 at a concrete input: the engine whose whitelist holds `10.0.0.5` and an event from
that address. -/
theorem C5_whitelisted_event_changes_nothing_witness :
    sampleAnalyzer.whitelist.ContainsIP whitelistedEvent.ClientIP = true ∧
    sampleAnalyzer.ProcessPacket (sampleEnv 5 false) whitelistedEvent = sampleAnalyzer :=
  ⟨by decide,
   (C5_whitelisted_event_changes_nothing sampleAnalyzer (sampleEnv 5 false) whitelistedEvent
      (by decide)).2.2.2.2.2.2.2.2⟩

set_option maxRecDepth 100000 in
theorem byte_and_255 : ∀ b : Byte, b &&& 255 = b := by decide

theorem containsChars_singleton (c : Char) (l : List Char) :
    containsChars l [c] = true ↔ c ∈ l := by
  induction l with
  | nil => simp [containsChars]
  | cons d ds ih =>
    unfold containsChars
    rw [Bool.or_eq_true, ih]
    simp only [List.isPrefixOf, Bool.and_true, beq_iff_eq, List.mem_cons]

theorem splitAtChar_append (sep : Char) (l r : List Char) (h : sep ∉ l) :
    splitAtChar sep (l ++ sep :: r) = some (l, r) := by
  induction l with
  | nil => simp [splitAtChar]
  | cons d ds ih =>
    have hd : d ≠ sep := fun e => h (by simp [e])
    have hds : sep ∉ ds := fun e => h (by simp [e])
    simp [splitAtChar, hd, ih hds]

/-- A dotted-decimal address that parses has four octets. -/
theorem parseIPv4Loop_length (s : List Char) :
    ∀ (first prevDot : Bool) (val pos digLen : Nat) (fields r : List Byte),
      fields.length = pos → pos ≤ 3 →
      parseIPv4Loop s first prevDot val pos digLen fields = some r → r.length = 4 := by
  induction s with
  | nil =>
    intro first prevDot val pos digLen fields r hlen hpos h
    unfold parseIPv4Loop at h
    split_ifs at h with h3
    cases h
    simp
    omega
  | cons c cs ih =>
    intro first prevDot val pos digLen fields r hlen hpos h
    unfold parseIPv4Loop at h
    dsimp only at h
    split_ifs at h with h1 h2 h3 h4 h5 h6
    · exact ih _ _ _ _ _ _ _ hlen hpos h
    · exact ih _ _ _ _ _ _ _ (by simp [hlen]) (by omega) h

theorem parseIPv6_not_v4 (s : List Char) (x : List Byte) : parseIPv6 s ≠ some (Addr.v4 x) := by
  intro h
  unfold parseIPv6 at h
  dsimp only at h
  repeat' split at h
  all_goals cases h

theorem parseAddr_v4_length (s : List Char) (x : List Byte)
    (h : ParseAddr s = some (Addr.v4 x)) : x.length = 4 := by
  unfold ParseAddr at h
  split at h
  · unfold parseIPv4 at h
    split at h
    · cases h
    · rename_i fields hf
      cases h
      exact parseIPv4Loop_length s true false 0 0 0 [] _ rfl (by omega) hf
  · exact absurd h (parseIPv6_not_v4 s x)
  · cases h

/-- With `/32` appended, a bare IPv4 address parses to its exact-host network. -/
theorem parseCIDR_bare_v4 (a : String) (x : List Byte)
    (hbare : strContains a "/" = false) (hv4 : ParseAddr a.data = some (Addr.v4 x)) :
    ParseCIDR (a ++ "/32") = some (hostNet4 x) := by
  have hlen := parseAddr_v4_length _ _ hv4
  have hslash : '/' ∉ a.data := by
    intro hmem
    have := (containsChars_singleton '/' a.data).2 hmem
    unfold strContains at hbare
    rw [show ("/" : String).data = ['/'] from rfl, this] at hbare
    cases hbare
  have hsplit : splitAtChar '/' (a ++ "/32").data = some (a.data, ['3', '2']) := by
    rw [String.data_append]
    exact splitAtChar_append '/' a.data ['3', '2'] hslash
  unfold ParseCIDR
  rw [hsplit]
  simp only [hv4]
  have hd : dtoiAll ['3', '2'] = some 32 := by decide
  have hm : CIDRMask 32 32 = some [255, 255, 255, 255] := by decide
  simp only [Addr.Zone, ne_eq, not_true_eq_false, if_false, hd, Addr.BitLen, gt_iff_lt,
    lt_self_iff_false, hm, Addr.As16]
  match x, hlen with
  | [x0, x1, x2, x3], _ =>
    have hmask : IP.Mask (v4InV6Prefix ++ [x0, x1, x2, x3]) [255, 255, 255, 255]
        = some [x0, x1, x2, x3] := by
      unfold IP.Mask
      simp [v4InV6Prefix, byte_and_255]
    rw [hmask]
    rfl

theorem To4_length (ip y : IP) (h : ip.To4 = some y) : y.length = 4 := by
  unfold IP.To4 at h
  split_ifs at h with h1 h2
  · cases h; exact h1
  · cases h
    rw [List.length_drop, h2.1]

theorem To4_none_length (ip : IP) (h : ip.To4 = none) : ip.length ≠ 4 := by
  intro h4
  unfold IP.To4 at h
  rw [if_pos h4] at h
  cases h

/-- An exact-host IPv4 network contains exactly the addresses whose 4-byte form is its own. -/
theorem hostNet4_contains (x : List Byte) (hx : x.length = 4) (ip : IP) :
    (hostNet4 x).Contains ip = true ↔ ip.To4 = some x := by
  have hnn : networkNumberAndMask (hostNet4 x) = (x, [255, 255, 255, 255]) := by
    unfold networkNumberAndMask hostNet4
    simp [IP.To4, hx]
  unfold IPNet.Contains
  rw [hnn]
  dsimp only
  cases hto : ip.To4 with
  | none =>
    have := To4_none_length ip hto
    simp [hx, this]
  | some y =>
    have hy := To4_length ip y hto
    match x, hx, y, hy with
    | [x0, x1, x2, x3], _, [y0, y1, y2, y3], _ =>
      simp only [List.length_cons, List.length_nil, ne_eq, not_true_eq_false, if_false,
        List.zip_cons_cons, List.zip_nil_left, List.zip_nil_right, List.all_cons, List.all_nil,
        byte_and_255, Bool.and_true, Bool.and_eq_true, decide_eq_true_eq, Option.some.injEq,
        List.cons.injEq, and_true]
      constructor
      · rintro ⟨h0, h1, h2, h3⟩
        exact ⟨h0.symm, h1.symm, h2.symm, h3.symm⟩
      · rintro ⟨h0, h1, h2, h3⟩
        exact ⟨h0.symm, h1.symm, h2.symm, h3.symm⟩

/-- The IPv4 half of the whitelist normalisation: for every bare dotted-decimal address `a`,
`Update [a]` stores the exact-host network `a/32`, and `ContainsIP b` holds exactly when `b`
parses to an address with the 4-byte form of `a`. -/
theorem Whitelist.Update_bare_ipv4 (w : Whitelist) (a b : String) (x : List Byte)
    (hbare : strContains a "/" = false) (hv4 : ParseAddr a.data = some (Addr.v4 x)) :
    (w.Update [a]).nets = [{ IP := x, Mask := [255, 255, 255, 255] }] ∧
    ((w.Update [a]).ContainsIP b = true ↔
      (ParseIP b).bind IP.To4 = (ParseIP a).bind IP.To4) := by
  have hlen := parseAddr_v4_length _ _ hv4
  have hnets : (w.Update [a]).nets = [hostNet4 x] := by
    unfold Whitelist.Update Whitelist.updateLoop
    simp only [hbare, Bool.false_eq_true, not_false_eq_true, if_true,
      parseCIDR_bare_v4 a x hbare hv4]
    rfl
  have ha : (ParseIP a).bind IP.To4 = some x := by
    unfold ParseIP
    rw [hv4]
    simp [Addr.Zone, Addr.As16, IP.To4, v4InV6Prefix, hlen]
  refine ⟨hnets, ?_⟩
  unfold Whitelist.ContainsIP
  rw [hnets, ha]
  cases hb : ParseIP b with
  | none => simp
  | some ip => simp [hostNet4_contains x hlen ip]

/-- C6 on the code.  The IPv4 example of the claim holds: after `Update ["10.0.0.5"]` the
stored network is `10.0.0.5/32`, `ContainsIP "10.0.0.5"` is true and `ContainsIP "10.0.0.6"`
is false.  The IPv6 half does not: the bare address `::1` has `/32` appended like any other,
the stored network is `::/32` and not `::1/128`, and `ContainsIP "::2"` is true although
`::2` is another address. -/
theorem C6_bare_ipv6_is_stored_as_slash_32 :
    (Whitelist.Update ⟨[]⟩ ["10.0.0.5"]).nets
      = [{ IP := [10, 0, 0, 5], Mask := [255, 255, 255, 255] }] ∧
    (Whitelist.Update ⟨[]⟩ ["10.0.0.5"]).ContainsIP "10.0.0.5" = true ∧
    (Whitelist.Update ⟨[]⟩ ["10.0.0.5"]).ContainsIP "10.0.0.6" = false ∧
    strContains "::1" "/" = false ∧
    ParseIP "::1" = some [0, 0, 0, 0, 0, 0, 0, 0, 0, 0, 0, 0, 0, 0, 0, 1] ∧
    ParseIP "::2" = some [0, 0, 0, 0, 0, 0, 0, 0, 0, 0, 0, 0, 0, 0, 0, 2] ∧
    (Whitelist.Update ⟨[]⟩ ["::1"]).nets =
      [{ IP := [0, 0, 0, 0, 0, 0, 0, 0, 0, 0, 0, 0, 0, 0, 0, 0],
         Mask := [255, 255, 255, 255, 0, 0, 0, 0, 0, 0, 0, 0, 0, 0, 0, 0] }] ∧
    (Whitelist.Update ⟨[]⟩ ["::1"]).ContainsIP "::1" = true ∧
    (Whitelist.Update ⟨[]⟩ ["::1"]).ContainsIP "::2" = true := by
  decide

/-! ### Classification -/

/-- C7: for every score `s`, `getRiskType` returns the high tier if and only if `s ≥ 8`, the
medium tier if and only if `5 ≤ s < 8`, and the low tier if and only if `s < 5`; 7.999 is
medium, 8 is high, 4.999 is low and 5 is medium. -/
theorem C7_getRiskType_tiers (s : ℚ) :
    (getRiskType s = "高风险" ↔ 8 ≤ s) ∧
    (getRiskType s = "中风险" ↔ 5 ≤ s ∧ s < 8) ∧
    (getRiskType s = "低风险" ↔ s < 5) ∧
    getRiskType 7.999 = "中风险" ∧ getRiskType 8 = "高风险" ∧
    getRiskType 4.999 = "低风险" ∧ getRiskType 5 = "中风险" := by
  have hm : ("中风险" : String) ≠ "高风险" := by decide
  have hl : ("低风险" : String) ≠ "高风险" := by decide
  have hlm : ("低风险" : String) ≠ "中风险" := by decide
  have key : getRiskType s = if 8 ≤ s then "高风险" else if 5 ≤ s then "中风险" else "低风险" := rfl
  refine ⟨?_, ?_, ?_, ?_, ?_, ?_, ?_⟩
  · rw [key]
    split_ifs with h8 h5
    · simp [h8]
    · simp [h8, hm]
    · simp [h8, hl]
  · rw [key]
    split_ifs with h8 h5
    · simp only [hm.symm, false_iff, not_and, not_lt]
      exact fun _ => h8
    · simp only [true_iff]
      exact ⟨h5, lt_of_not_le h8⟩
    · simp only [hlm, false_iff, not_and, not_lt]
      exact fun h => absurd h h5
  · rw [key]
    split_ifs with h8 h5
    · simp only [hl.symm, false_iff, not_lt]
      linarith
    · simp only [hlm.symm, false_iff, not_lt]
      exact h5
    · simp only [true_iff]
      exact lt_of_not_le h5
  · unfold getRiskType; norm_num
  · unfold getRiskType; norm_num
  · unfold getRiskType; norm_num
  · unfold getRiskType; norm_num

/-! ### The download-volume rule -/

theorem windowBytes_nil (now : GoTime) (w : Duration) : windowBytes now w [] = 0 := rfl

theorem windowBytes_cons (now : GoTime) (w : Duration) (d : PacketData) (h : List PacketData) :
    windowBytes now w (d :: h) =
      (if now.unixNano - d.Timestamp.unixNano ≤ w then (strLen d.Content : Int) else 0)
        + windowBytes now w h := by
  unfold windowBytes
  rw [List.filter_cons]
  by_cases hc : now.unixNano - d.Timestamp.unixNano ≤ w
  · rw [if_pos (decide_eq_true hc), if_pos hc, List.map_cons, List.sum_cons]
  · rw [if_neg (by rw [decide_eq_true_eq]; exact hc), if_neg hc, zero_add]

/-- The loop of the rule adds to each accumulator the bytes of its window. -/
theorem downloadSizes_foldl (now : GoTime) (history : List PacketData) (a b c : Int) :
    history.foldl
      (fun (acc : Int × Int × Int) data =>
        let duration := now.Sub data.Timestamp
        let size : Int := strLen data.Content
        let size10m := if duration ≤ 10 * Minute then acc.1 + size else acc.1
        let size1h := if duration ≤ Hour then acc.2.1 + size else acc.2.1
        let size4h := if duration ≤ 4 * Hour then acc.2.2 + size else acc.2.2
        (size10m, size1h, size4h))
      (a, b, c) =
    (a + windowBytes now (10 * Minute) history, b + windowBytes now Hour history,
      c + windowBytes now (4 * Hour) history) := by
  induction history generalizing a b c with
  | nil => simp [windowBytes_nil]
  | cons d h ih =>
    rw [List.foldl_cons]
    simp only []
    rw [ih]
    rw [windowBytes_cons, windowBytes_cons, windowBytes_cons]
    simp only [GoTime.Sub_le_iff now d.Timestamp (10 * Minute) (by decide) (by decide),
      GoTime.Sub_le_iff now d.Timestamp Hour (by decide) (by decide),
      GoTime.Sub_le_iff now d.Timestamp (4 * Hour) (by decide) (by decide)]
    refine Prod.ext ?_ (Prod.ext ?_ ?_)
    · simp only []; split_ifs <;> ring
    · simp only []; split_ifs <;> ring
    · simp only []; split_ifs <;> ring

theorem downloadSizes_eq (now : GoTime) (history : List PacketData) :
    downloadSizes now history =
      (windowBytes now (10 * Minute) history, windowBytes now Hour history,
        windowBytes now (4 * Hour) history) := by
  unfold downloadSizes
  rw [downloadSizes_foldl]
  simp

theorem checkDataDownloadVolumeFromHistory_eq (ra : RiskAnalyzer) (env : Env)
    (fingerprint : UserFingerprint) :
    ra.checkDataDownloadVolumeFromHistory env fingerprint =
      if windowBytes env.now (10 * Minute) ((ra.userAccessHistory fingerprint).getD [])
            > 10 * 1024 * 1024 ∨
          windowBytes env.now Hour ((ra.userAccessHistory fingerprint).getD [])
            > 50 * 1024 * 1024 ∨
          windowBytes env.now (4 * Hour) ((ra.userAccessHistory fingerprint).getD [])
            > 200 * 1024 * 1024
      then 4 else 0 := by
  unfold RiskAnalyzer.checkDataDownloadVolumeFromHistory
  simp only [downloadSizes_eq]

/-- C8: for every fingerprint history and evaluation time, `checkDataDownloadVolumeFromHistory`
returns 4 if and only if the summed body length of the entries aged at most 10 minutes
exceeds 10 MiB, or of those aged at most 1 hour exceeds 50 MiB, or of those aged at most
4 hours exceeds 200 MiB, and returns 0 otherwise.  The bounds are strict: a history with
exactly 10 MiB within 10 minutes (and no other window over its bound) gives 0, and one with
10 MiB + 1 byte within 10 minutes gives 4. -/
theorem C8_download_volume (ra : RiskAnalyzer) (env : Env) (fingerprint : UserFingerprint) :
    (ra.checkDataDownloadVolumeFromHistory env fingerprint = 4 ↔
      exceedsDownloadLimit env.now ((ra.userAccessHistory fingerprint).getD [])) ∧
    (ra.checkDataDownloadVolumeFromHistory env fingerprint = 0 ↔
      ¬ exceedsDownloadLimit env.now ((ra.userAccessHistory fingerprint).getD [])) ∧
    (windowBytes env.now (10 * Minute) ((ra.userAccessHistory fingerprint).getD [])
        = 10 * 1024 * 1024 →
      windowBytes env.now Hour ((ra.userAccessHistory fingerprint).getD []) ≤ 50 * 1024 * 1024 →
      windowBytes env.now (4 * Hour) ((ra.userAccessHistory fingerprint).getD [])
        ≤ 200 * 1024 * 1024 →
      ra.checkDataDownloadVolumeFromHistory env fingerprint = 0) ∧
    (windowBytes env.now (10 * Minute) ((ra.userAccessHistory fingerprint).getD [])
        = 10 * 1024 * 1024 + 1 →
      ra.checkDataDownloadVolumeFromHistory env fingerprint = 4) := by
  rw [checkDataDownloadVolumeFromHistory_eq]
  unfold exceedsDownloadLimit
  refine ⟨?_, ?_, ?_, ?_⟩
  · split_ifs with h
    · exact ⟨fun _ => h, fun _ => rfl⟩
    · exact ⟨fun h4 => by norm_num at h4, fun h' => absurd h' h⟩
  · split_ifs with h
    · exact ⟨fun h4 => by norm_num at h4, fun h' => absurd h h'⟩
    · exact ⟨fun _ => h, fun _ => rfl⟩
  · intro h1 h2 h3
    rw [if_neg]
    rintro (h | h | h) <;> omega
  · intro h1
    rw [if_pos]
    left; omega

theorem utf8ByteSize_go_replicate (n : Nat) :
    String.utf8ByteSize.go (List.replicate n 'a') = n := by
  induction n with
  | zero => rfl
  | succ k ih =>
    simp only [List.replicate_succ, String.utf8ByteSize.go, ih]
    rfl

theorem strLen_bodyOfSize (n : Nat) : strLen (bodyOfSize n) = n := by
  unfold strLen bodyOfSize String.utf8ByteSize
  exact utf8ByteSize_go_replicate n

theorem windowBytes_analyzerWithBody (n : Nat) (w : Duration) (hw : 5 ≤ w) :
    windowBytes (sampleEnv 5 false).now w
      (((analyzerWithBody n).userAccessHistory sampleFingerprint).getD []) = n := by
  have h : ((analyzerWithBody n).userAccessHistory sampleFingerprint).getD []
      = [eventOfSize n] := rfl
  rw [h, windowBytes_cons, windowBytes_nil]
  have h2 : (sampleEnv 5 false).now.unixNano - (eventOfSize n).Timestamp.unixNano = 5 := rfl
  rw [h2, if_pos hw]
  simp [eventOfSize, strLen_bodyOfSize]

/-- C8 at concrete inputs: one entry aged 5 nanoseconds with a body of exactly 10 MiB gives
0, and with a body of 10 MiB + 1 byte gives 4. -/
theorem C8_download_volume_witness :
    (analyzerWithBody (10 * 1024 * 1024)).checkDataDownloadVolumeFromHistory (sampleEnv 5 false)
      sampleFingerprint = 0 ∧
    (analyzerWithBody (10 * 1024 * 1024 + 1)).checkDataDownloadVolumeFromHistory
      (sampleEnv 5 false) sampleFingerprint = 4 :=
  ⟨(C8_download_volume (analyzerWithBody (10 * 1024 * 1024)) (sampleEnv 5 false)
      sampleFingerprint).2.2.1
      (by rw [windowBytes_analyzerWithBody _ _ (by decide)]; norm_num)
      (by rw [windowBytes_analyzerWithBody _ _ (by decide)]; norm_num)
      (by rw [windowBytes_analyzerWithBody _ _ (by decide)]; norm_num),
   (C8_download_volume (analyzerWithBody (10 * 1024 * 1024 + 1)) (sampleEnv 5 false)
      sampleFingerprint).2.2.2
      (by rw [windowBytes_analyzerWithBody _ _ (by decide)]; norm_num)⟩

/-! ### The address-switching rule -/

theorem after_tenMinutesAgo (now t : GoTime) :
    t.After (now.Add (-10 * Minute)) = seenRecently now t := by
  unfold GoTime.After GoTime.Add seenRecently
  simp only [neg_mul]
  congr 1

theorem recent_keys_erase (seen : IPTimes) (now : GoTime) (ip : String) :
    (((seen.erase ip).entries.filter (fun e => seenRecently now e.2)).map (fun e => e.1)).toFinset
      = (seen.keys.toFinset.filter
          (fun k => (seen.lookup k).any (seenRecently now) = true)).erase ip := by
  ext k
  simp only [List.mem_toFinset, List.mem_map, List.mem_filter, Finset.mem_erase,
    Finset.mem_filter]
  constructor
  · rintro ⟨⟨k', t⟩, ⟨hmem, hrec⟩, rfl⟩
    have hl : (seen.erase ip).lookup k' = some t := AList.mem_lookup_iff.2 hmem
    have hne : k' ≠ ip := by
      rintro rfl
      rw [AList.lookup_erase] at hl
      cases hl
    rw [AList.lookup_erase_ne hne] at hl
    refine ⟨hne, ?_, ?_⟩
    · exact AList.mem_keys.1 (AList.lookup_isSome.1 (by rw [hl]; rfl))
    · rw [hl]; exact hrec
  · rintro ⟨hne, _, hany⟩
    cases hl : seen.lookup k with
    | none => rw [hl] at hany; cases hany
    | some t =>
      rw [hl] at hany
      refine ⟨⟨k, t⟩, ⟨?_, hany⟩, rfl⟩
      apply AList.mem_lookup_iff.1
      rw [AList.lookup_erase_ne hne]
      exact hl

theorem recent_keys_nodup (seen : IPTimes) (now : GoTime) :
    ((seen.entries.filter (fun e => seenRecently now e.2)).map (fun e => e.1)).Nodup := by
  have h : ((seen.entries.filter (fun e => seenRecently now e.2)).map (fun e => e.1)).Sublist
      seen.keys := (List.filter_sublist _).map _
  exact h.nodup seen.keys_nodup

/-- The size of `uniqueIPs` after the loop is the number of recent distinct addresses. -/
theorem uniqueIPs_length (seen : IPTimes) (now : GoTime) (ip : String) :
    (((seen.insert ip now).entries.filter
        (fun e => e.2.After (now.Add (-10 * Minute)))).map (fun e => e.1)).length
      = (recentAddresses seen now ip).card := by
  have hf : (fun e : (_ : String) × GoTime => e.2.After (now.Add (-10 * Minute)))
      = (fun e => seenRecently now e.2) := by
    funext e
    exact after_tenMinutesAgo now e.2
  rw [hf, AList.insert_entries, List.filter_cons]
  have hnow : seenRecently now now = true := by
    unfold seenRecently
    rw [decide_eq_true_eq]
    have : (0 : Int) < 10 * Minute := by decide
    linarith
  rw [if_pos hnow, List.map_cons, List.length_cons]
  have he : List.kerase ip seen.entries = (seen.erase ip).entries := rfl
  rw [he, ← List.toFinset_card_of_nodup (recent_keys_nodup (seen.erase ip) now),
    recent_keys_erase]
  unfold recentAddresses
  have hins : ∀ S : Finset String, insert ip S = insert ip (S.erase ip) := by
    intro S
    ext x
    simp only [Finset.mem_insert, Finset.mem_erase]
    tauto
  rw [hins, Finset.card_insert_of_not_mem (Finset.not_mem_erase _ _)]

theorem checkHighIPSwitching_eq (ra : RiskAnalyzer) (env : Env) (fingerprint : UserFingerprint)
    (hcookie : fingerprint.Cookie ≠ "") (hip : fingerprint.IP ≠ "") :
    ra.checkHighIPSwitching env fingerprint =
      ({ ra with cookieIPHistory := fun c =>
            if c = fingerprint.Cookie then
              some (((ra.cookieIPHistory fingerprint.Cookie).getD ∅).insert fingerprint.IP env.now)
            else ra.cookieIPHistory c },
        if 2 < (recentAddresses ((ra.cookieIPHistory fingerprint.Cookie).getD ∅) env.now
          fingerprint.IP).card then 6 else 0) := by
  unfold RiskAnalyzer.checkHighIPSwitching
  have hg : ¬ (fingerprint.Cookie = "" ∨ fingerprint.IP = "") := by
    rintro (h | h)
    · exact hcookie h
    · exact hip h
  simp only [hg, if_false, uniqueIPs_length]
  split_ifs <;> rfl

/-- C9: for every cookie-address history and every fingerprint with a non-empty cookie and
address, `checkHighIPSwitching` records the address as seen now for the cookie (the other
addresses of the cookie and the other cookies keep their entries) and returns 6 if and only
if the number of distinct addresses last seen with that cookie within the trailing ten
minutes, the current one included, exceeds 2, and returns 0 if and only if it does not. -/
theorem C9_checkHighIPSwitching (ra : RiskAnalyzer) (env : Env) (fingerprint : UserFingerprint)
    (hcookie : fingerprint.Cookie ≠ "") (hip : fingerprint.IP ≠ "") :
    (∃ seen', (ra.checkHighIPSwitching env fingerprint).1.cookieIPHistory fingerprint.Cookie
          = some seen' ∧
        seen'.lookup fingerprint.IP = some env.now ∧
        ∀ ip, ip ≠ fingerprint.IP →
          seen'.lookup ip = ((ra.cookieIPHistory fingerprint.Cookie).getD ∅).lookup ip) ∧
    (∀ c, c ≠ fingerprint.Cookie →
      (ra.checkHighIPSwitching env fingerprint).1.cookieIPHistory c = ra.cookieIPHistory c) ∧
    ((ra.checkHighIPSwitching env fingerprint).2 = 6 ↔
      2 < (recentAddresses ((ra.cookieIPHistory fingerprint.Cookie).getD ∅) env.now
        fingerprint.IP).card) ∧
    ((ra.checkHighIPSwitching env fingerprint).2 = 0 ↔
      (recentAddresses ((ra.cookieIPHistory fingerprint.Cookie).getD ∅) env.now
        fingerprint.IP).card ≤ 2) := by
  rw [checkHighIPSwitching_eq ra env fingerprint hcookie hip]
  refine ⟨⟨_, if_pos rfl, AList.lookup_insert _, fun ip hne => AList.lookup_insert_ne hne⟩,
    fun c hc => if_neg hc, ?_, ?_⟩
  · dsimp only
    split_ifs with h
    · exact ⟨fun _ => h, fun _ => rfl⟩
    · exact ⟨fun h6 => absurd h6 (by norm_num), fun h' => absurd h' h⟩
  · dsimp only
    split_ifs with h
    · exact ⟨fun h6 => absurd h6 (by norm_num), fun h' => absurd h (not_lt.2 h')⟩
    · exact ⟨fun _ => not_lt.1 h, fun _ => rfl⟩

/-- C9 at concrete inputs, the clock at minute 12.  A cookie seen from two other addresses
at minutes 10 and 11: the rule gives 6 and three addresses are recent.  With one of the two
seen at minute 1 instead: the rule gives 0 and two addresses are recent. -/
theorem C9_checkHighIPSwitching_witness :
    ((analyzerWithAddresses [("5.5.5.5", 10 * Minute), ("6.6.6.6", 11 * Minute)]).checkHighIPSwitching
      (sampleEnv (12 * Minute) false) sampleFingerprint).2 = 6 ∧
    2 < (recentAddresses
      (((analyzerWithAddresses [("5.5.5.5", 10 * Minute), ("6.6.6.6", 11 * Minute)]).cookieIPHistory
        "sid=1").getD ∅) (sampleEnv (12 * Minute) false).now "1.2.3.4").card ∧
    ((analyzerWithAddresses [("5.5.5.5", 1 * Minute), ("6.6.6.6", 11 * Minute)]).checkHighIPSwitching
      (sampleEnv (12 * Minute) false) sampleFingerprint).2 = 0 ∧
    (recentAddresses
      (((analyzerWithAddresses [("5.5.5.5", 1 * Minute), ("6.6.6.6", 11 * Minute)]).cookieIPHistory
        "sid=1").getD ∅) (sampleEnv (12 * Minute) false).now "1.2.3.4").card ≤ 2 :=
  ⟨by decide,
   (C9_checkHighIPSwitching
      (analyzerWithAddresses [("5.5.5.5", 10 * Minute), ("6.6.6.6", 11 * Minute)])
      (sampleEnv (12 * Minute) false) sampleFingerprint
      (by decide) (by decide)).2.2.1.1 (by decide),
   by decide,
   (C9_checkHighIPSwitching
      (analyzerWithAddresses [("5.5.5.5", 1 * Minute), ("6.6.6.6", 11 * Minute)])
      (sampleEnv (12 * Minute) false) sampleFingerprint
      (by decide) (by decide)).2.2.2.1 (by decide)⟩

/-! ### The non-mainland rule -/

/-- C10: for every event whose address parses and resolves through the city database,
`checkNonMainlandChina` returns 8 if and only if the resolved country is not CN, or it is CN
and the (first) subdivision is HK, MO or TW, and returns 0 otherwise, that is for CN with no
subdivision or another one. -/
theorem C10_checkNonMainlandChina (ra : RiskAnalyzer) (data : PacketData) (reader : CityReader)
    (ip : IP) (city : City)
    (hreader : ra.geoIP = some reader) (hparse : ParseIP data.ClientIP = some ip)
    (hcity : reader ip = some city) :
    (ra.checkNonMainlandChina data = 8 ↔ city.nonMainland) ∧
    (ra.checkNonMainlandChina data = 0 ↔ ¬ city.nonMainland) := by
  unfold RiskAnalyzer.checkNonMainlandChina City.nonMainland
  simp only [hreader, hparse, hcity]
  by_cases hcn : city.CountryIsoCode = "CN"
  · cases hs : city.Subdivisions with
    | nil => simp [hcn]
    | cons x xs =>
      by_cases hx : x = "HK" ∨ x = "MO" ∨ x = "TW"
      · simp [hcn, hx]
      · simp [hcn, hx]
  · simp [hcn]

/-- C10 at concrete inputs: CN with HK gives 8, CN alone gives 0, US gives 8, and CN with
another subdivision gives 0. -/
theorem C10_checkNonMainlandChina_witness :
    analyzerWithGeo.checkNonMainlandChina (eventFrom "1.1.1.1") = 8 ∧
    analyzerWithGeo.checkNonMainlandChina (eventFrom "2.2.2.2") = 0 ∧
    analyzerWithGeo.checkNonMainlandChina (eventFrom "3.3.3.3") = 8 ∧
    analyzerWithGeo.checkNonMainlandChina (eventFrom "4.4.4.4") = 0 :=
  ⟨(C10_checkNonMainlandChina analyzerWithGeo (eventFrom "1.1.1.1") sampleCityReader
      (v4InV6Prefix ++ [1, 1, 1, 1]) ⟨"CN", ["HK"]⟩ rfl (by decide) (by decide)).1.2
      (by unfold City.nonMainland; decide),
   (C10_checkNonMainlandChina analyzerWithGeo (eventFrom "2.2.2.2") sampleCityReader
      (v4InV6Prefix ++ [2, 2, 2, 2]) ⟨"CN", []⟩ rfl (by decide) (by decide)).2.2
      (by unfold City.nonMainland; decide),
   (C10_checkNonMainlandChina analyzerWithGeo (eventFrom "3.3.3.3") sampleCityReader
      (v4InV6Prefix ++ [3, 3, 3, 3]) ⟨"US", []⟩ rfl (by decide) (by decide)).1.2
      (by unfold City.nonMainland; decide),
   (C10_checkNonMainlandChina analyzerWithGeo (eventFrom "4.4.4.4") sampleCityReader
      (v4InV6Prefix ++ [4, 4, 4, 4]) ⟨"CN", ["BJ"]⟩ rfl (by decide) (by decide)).2.2
      (by unfold City.nonMainland; decide)⟩

/-! ### The passes of `ProcessPacket` -/

/-- `ProcessPacket` on an event that is not whitelisted, in terms of its stages. -/
theorem ProcessPacket_eq (ra : RiskAnalyzer) (env : Env) (data : PacketData)
    (hwl : ra.whitelist.ContainsIP data.ClientIP = false) :
    ra.ProcessPacket env data = (ra.beforeCleanup env data).cleanupOldData env := by
  unfold RiskAnalyzer.ProcessPacket
  simp only [hwl, Bool.false_eq_true, if_false]
  rfl

theorem sameCore_refl (ra : RiskAnalyzer) : ra.sameCore ra :=
  ⟨rfl, rfl, rfl, rfl, rfl, rfl⟩

theorem sameCore_trans {ra ra' ra'' : RiskAnalyzer} (h1 : ra.sameCore ra')
    (h2 : ra'.sameCore ra'') : ra.sameCore ra'' :=
  ⟨h2.1.trans h1.1, h2.2.1.trans h1.2.1, h2.2.2.1.trans h1.2.2.1,
    h2.2.2.2.1.trans h1.2.2.2.1, h2.2.2.2.2.1.trans h1.2.2.2.2.1,
    h2.2.2.2.2.2.trans h1.2.2.2.2.2⟩

theorem getSensitiveDataAvg_sameCore (ra : RiskAnalyzer) (env : Env) (userID : String) :
    ra.sameCore (ra.getSensitiveDataAvg env userID).1 := by
  unfold RiskAnalyzer.getSensitiveDataAvg
  dsimp only
  repeat' split
  all_goals exact ⟨rfl, rfl, rfl, rfl, rfl, rfl⟩

theorem checkOperationTimeEnhanced_sameCore (ra : RiskAnalyzer) (env : Env) (data : PacketData) :
    ra.sameCore (ra.checkOperationTimeEnhanced env data).1 := by
  unfold RiskAnalyzer.checkOperationTimeEnhanced
  dsimp only
  split_ifs
  all_goals first
    | exact getSensitiveDataAvg_sameCore ra env _
    | exact sameCore_refl ra

theorem checkHighIPSwitching_sameCore (ra : RiskAnalyzer) (env : Env) (fp : UserFingerprint) :
    ra.sameCore (ra.checkHighIPSwitching env fp).1 := by
  unfold RiskAnalyzer.checkHighIPSwitching
  dsimp only
  split_ifs
  all_goals exact ⟨rfl, rfl, rfl, rfl, rfl, rfl⟩

/-- The eight rule calls change the cookie-address history and the baseline cache only. -/
theorem ruleScores_sameCore (ra : RiskAnalyzer) (env : Env) (data : PacketData)
    (fp : UserFingerprint) : ra.sameCore (ra.ruleScores env data fp).1 :=
  sameCore_trans (checkOperationTimeEnhanced_sameCore ra env data)
    (checkHighIPSwitching_sameCore _ env fp)

theorem getAlertRules_sameCore (ra : RiskAnalyzer) (env : Env) (data : PacketData) (s : ℚ) :
    ra.sameCore (ra.getAlertRules env data s).1 :=
  sameCore_trans (checkOperationTimeEnhanced_sameCore ra env data)
    (checkHighIPSwitching_sameCore _ env _)

/-! ### The operation-time rule -/

theorem offHoursScore_ne_six (t : GoTime) : offHoursScore t ≠ 6 := by
  unfold offHoursScore
  split_ifs <;> norm_num

/-- The value of the rule: 6 when the anomaly triggers, the off-hours score otherwise. -/
theorem checkOperationTimeEnhanced_value (ra : RiskAnalyzer) (env : Env) (data : PacketData) :
    (ra.anomalyTriggers env data → (ra.checkOperationTimeEnhanced env data).2 = 6) ∧
    (¬ ra.anomalyTriggers env data →
      (ra.checkOperationTimeEnhanced env data).2 = offHoursScore data.Timestamp) := by
  unfold RiskAnalyzer.anomalyTriggers exceedsBaseline RiskAnalyzer.checkOperationTimeEnhanced
    offHoursScore isNightTime isWeekend
  dsimp only
  by_cases hc : data.HeaderCookie ≠ "" ∧ isSensitiveDataAccess data = true
  · rw [if_pos hc]
    by_cases hw : data.Timestamp.Weekday = Saturday ∨ data.Timestamp.Weekday = Sunday
    · by_cases h : 0 < (ra.getSensitiveDataAvg env data.HeaderCookie).2 ∧
          (getTodaySensitiveAccessCount env data.HeaderCookie : ℚ)
            > (ra.getSensitiveDataAvg env data.HeaderCookie).2 * (5 / 2)
      · simp [hc.1, hc.2, hw, h.1, h.2]
      · have h' := not_and.1 h
        constructor
        · rintro ⟨_, _, h1, h2⟩
          rw [if_pos hw] at h2
          exact absurd h2 (h' h1)
        · intro _
          by_cases h1 : 0 < (ra.getSensitiveDataAvg env data.HeaderCookie).2
          · simp [hw, h1, h' h1]
          · simp [hw, h1]
    · by_cases h : 0 < (ra.getSensitiveDataAvg env data.HeaderCookie).2 ∧
          (getTodaySensitiveAccessCount env data.HeaderCookie : ℚ)
            > (ra.getSensitiveDataAvg env data.HeaderCookie).2 * 3
      · simp [hc.1, hc.2, hw, h.1, h.2]
      · have h' := not_and.1 h
        constructor
        · rintro ⟨_, _, h1, h2⟩
          rw [if_neg hw] at h2
          exact absurd h2 (h' h1)
        · intro _
          by_cases h1 : 0 < (ra.getSensitiveDataAvg env data.HeaderCookie).2
          · simp [hw, h1, h' h1]
          · simp [hw, h1]
  · rw [if_neg hc]
    constructor
    · rintro ⟨h1, h2, _⟩
      exact absurd ⟨h1, h2⟩ hc
    · intro _
      simp

/-- C11 as stated fails, at two inputs with the clock at instant 5 and a live cache entry.
First, the cookie `sid=1` has a baseline average of 0 and one sensitive access today: the
path is sensitive and the count 1 exceeds 3 times 0, yet the rule returns the night score 3,
because the code asks for a positive average.  Second, an event without a cookie, the
average of the empty identity being 1 and its count today 4: the path is sensitive and 4
exceeds 3, yet the rule returns 3, because the code skips the anomaly test for an empty
cookie. -/
theorem C11_anomaly_needs_cookie_and_positive_average :
    (analyzerWithBaseline "sid=1" 0).anomalyAsStated (envWithHistory 5 [sensitiveEvent])
      sensitiveEvent ∧
    ((analyzerWithBaseline "sid=1" 0).checkOperationTimeEnhanced
      (envWithHistory 5 [sensitiveEvent]) sensitiveEvent).2 = 3 ∧
    (analyzerWithBaseline "" 1).anomalyAsStated
      (envWithHistory 5 [sensitiveEvent, sensitiveEvent, sensitiveEvent, sensitiveEvent])
      anonymousSensitiveEvent ∧
    ((analyzerWithBaseline "" 1).checkOperationTimeEnhanced
      (envWithHistory 5 [sensitiveEvent, sensitiveEvent, sensitiveEvent, sensitiveEvent])
      anonymousSensitiveEvent).2 = 3 := by
  unfold RiskAnalyzer.anomalyAsStated exceedsBaseline
  decide!

/-- C11, amended: for every event, `checkOperationTimeEnhanced` returns 6, whatever the
hour and the weekday, if and only if the event's cookie is not empty, its URL contains a
sensitive path, the baseline average served for the cookie is positive, and today's
sensitive-access count for the cookie exceeds 3 times that average when the event falls on
a weekday, or 2.5 times when it falls on Saturday or Sunday. -/
theorem C11_anomaly_score (ra : RiskAnalyzer) (env : Env) (data : PacketData) :
    (ra.checkOperationTimeEnhanced env data).2 = 6 ↔
      (data.HeaderCookie ≠ "" ∧ isSensitiveDataAccess data = true ∧
        0 < (ra.getSensitiveDataAvg env data.HeaderCookie).2 ∧
        exceedsBaseline data.Timestamp (ra.getSensitiveDataAvg env data.HeaderCookie).2
          (getTodaySensitiveAccessCount env data.HeaderCookie)) := by
  have hv := checkOperationTimeEnhanced_value ra env data
  constructor
  · intro h6
    by_contra hn
    rw [hv.2 hn] at h6
    exact offHoursScore_ne_six _ h6
  · exact hv.1

/-- C11 at a concrete input: with an average of 1 served for the cookie and four sensitive
accesses today, a Thursday, the rule returns 6. -/
theorem C11_anomaly_score_witness :
    ((analyzerWithBaseline "sid=1" 1).checkOperationTimeEnhanced
      (envWithHistory 5 [sensitiveEvent, sensitiveEvent, sensitiveEvent, sensitiveEvent])
      sensitiveEvent).2 = 6 :=
  (C11_anomaly_score (analyzerWithBaseline "sid=1" 1)
    (envWithHistory 5 [sensitiveEvent, sensitiveEvent, sensitiveEvent, sensitiveEvent])
    sensitiveEvent).2 (by unfold exceedsBaseline; decide!)

/-- C12: for every event on which the sensitive-access anomaly does not trigger,
`checkOperationTimeEnhanced` returns 3 when the hour of the event timestamp is at least 22
or below 7, also on a weekend day, otherwise 2 when the weekday is Saturday or Sunday,
otherwise 0. -/
theorem C12_off_hours_score (ra : RiskAnalyzer) (env : Env) (data : PacketData)
    (hno : ¬ ra.anomalyTriggers env data) :
    (isNightTime data.Timestamp → (ra.checkOperationTimeEnhanced env data).2 = 3) ∧
    (¬ isNightTime data.Timestamp → isWeekend data.Timestamp →
      (ra.checkOperationTimeEnhanced env data).2 = 2) ∧
    (¬ isNightTime data.Timestamp → ¬ isWeekend data.Timestamp →
      (ra.checkOperationTimeEnhanced env data).2 = 0) := by
  rw [(checkOperationTimeEnhanced_value ra env data).2 hno]
  unfold offHoursScore
  refine ⟨fun hn => if_pos hn, fun hn hw => ?_, fun hn hw => ?_⟩
  · rw [if_neg hn, if_pos hw]
  · rw [if_neg hn, if_neg hw]

/-- C12 at concrete inputs, events not on a sensitive path: Saturday 23:30 gives 3,
Monday 23:00 gives 3, Saturday 12:00 gives 2 and Monday 12:00 gives 0. -/
theorem C12_off_hours_score_witness :
    (sampleAnalyzer.checkOperationTimeEnhanced (sampleEnv 5 false)
      (eventAtSecond 1704583800)).2 = 3 ∧
    (sampleAnalyzer.checkOperationTimeEnhanced (sampleEnv 5 false)
      (eventAtSecond 1704754800)).2 = 3 ∧
    (sampleAnalyzer.checkOperationTimeEnhanced (sampleEnv 5 false)
      (eventAtSecond 1704542400)).2 = 2 ∧
    (sampleAnalyzer.checkOperationTimeEnhanced (sampleEnv 5 false)
      (eventAtSecond 1704715200)).2 = 0 :=
  ⟨(C12_off_hours_score sampleAnalyzer (sampleEnv 5 false) (eventAtSecond 1704583800)
      (fun h => absurd h.2.1 (by decide))).1 (by decide),
   (C12_off_hours_score sampleAnalyzer (sampleEnv 5 false) (eventAtSecond 1704754800)
      (fun h => absurd h.2.1 (by decide))).1 (by decide),
   (C12_off_hours_score sampleAnalyzer (sampleEnv 5 false) (eventAtSecond 1704542400)
      (fun h => absurd h.2.1 (by decide))).2.1 (by decide) (by decide),
   (C12_off_hours_score sampleAnalyzer (sampleEnv 5 false) (eventAtSecond 1704715200)
      (fun h => absurd h.2.1 (by decide))).2.2 (by decide) (by decide)⟩

/-! ### The historical-risk rule -/

theorem recentRisks_cons (now : GoTime) (e : RiskEvent) (events : List RiskEvent) :
    recentRisks now (e :: events) =
      if e.Timestamp.After (now.Add (-24 * Hour)) then e :: recentRisks now events
      else recentRisks now events := by
  unfold recentRisks GoTime.After GoTime.Add
  rw [List.filter_cons]
  have h : (now.unixNano + -24 * Hour < e.Timestamp.unixNano) ↔
      (now.unixNano - 24 * Hour < e.Timestamp.unixNano) := by
    constructor <;> intro h <;> linarith
  simp only [decide_eq_true_eq, h]

/-- The loop of the rule adds a tenth of each recent score and counts the recent events. -/
theorem historicalRisks_foldl (now : GoTime) (events : List RiskEvent) (a : ℚ) (n : Nat) :
    events.foldl
      (fun (acc : ℚ × Nat) event =>
        if event.Timestamp.After (now.Add (-24 * Hour))
        then (acc.1 + event.RiskScore * (1 / 10), acc.2 + 1) else acc)
      (a, n) =
    (a + weightedRisk (recentRisks now events), n + (recentRisks now events).length) := by
  induction events generalizing a n with
  | nil => simp [recentRisks, weightedRisk]
  | cons e es ih =>
    rw [List.foldl_cons, recentRisks_cons]
    by_cases h : e.Timestamp.After (now.Add (-24 * Hour)) = true
    · rw [if_pos h, if_pos h, ih]
      refine Prod.ext ?_ ?_
      · simp only [weightedRisk, List.map_cons, List.sum_cons]
        ring
      · simp only [List.length_cons]
        omega
    · rw [if_neg h, if_neg h, ih]

/-- What the rule computes: a tenth of the summed scores of the events of the address within
the trailing 24 hours, plus 2 when there are at least three such events, whatever their
scores. -/
theorem checkHistoricalRisksEnhanced_eq (ra : RiskAnalyzer) (env : Env) (data : PacketData) :
    ra.checkHistoricalRisksEnhanced env data =
      weightedRisk (recentRisks env.now ((ra.ipRiskHistory data.ClientIP).getD [])) +
        (if 3 ≤ (recentRisks env.now ((ra.ipRiskHistory data.ClientIP).getD [])).length
          then 2 else 0) := by
  unfold RiskAnalyzer.checkHistoricalRisksEnhanced
  cases hh : ra.ipRiskHistory data.ClientIP with
  | none => simp [recentRisks, weightedRisk]
  | some events =>
    cases events with
    | nil => simp [recentRisks, weightedRisk]
    | cons e es =>
      simp only [List.length_cons, Nat.succ_ne_zero, if_false, Option.getD_some,
        historicalRisks_foldl, zero_add, ge_iff_le]
      split_ifs <;> simp

/-- C13 on the code: the address has three prior events within the last 24 hours, each with
score 1, none of them high-scoring.  A tenth of the summed scores is 3/10, and the rule
returns 23/10: the flat 2 is added because three events are recent, although none has a
score of 8 or more. -/
theorem C13_bonus_counts_all_recent_events :
    recentRisks (sampleEnv 5 false).now [riskEventAt 1 0, riskEventAt 1 1, riskEventAt 1 2]
      = [riskEventAt 1 0, riskEventAt 1 1, riskEventAt 1 2] ∧
    highScoring [riskEventAt 1 0, riskEventAt 1 1, riskEventAt 1 2] = [] ∧
    weightedRisk [riskEventAt 1 0, riskEventAt 1 1, riskEventAt 1 2] = 3 / 10 ∧
    (analyzerWithRisks [riskEventAt 1 0, riskEventAt 1 1, riskEventAt 1 2]).checkHistoricalRisksEnhanced
      (sampleEnv 5 false) sampleEvent = 23 / 10 := by
  decide!

/-! ### The cleanup -/

theorem keptAt_iff (env : Env) (t : GoTime) :
    keptAt env t = true ↔ env.now.unixNano - Hour < t.unixNano := by
  unfold keptAt GoTime.After GoTime.Add
  rw [decide_eq_true_eq]
  dsimp only
  constructor <;> intro h <;> linarith

theorem some_if_nonempty {α : Type} [DecidableEq α] (l : List α) :
    (if l.length > 0 then some l else none) = if l = [] then none else some l := by
  cases l <;> simp

/-- The access history of a fingerprint after the cleanup: the kept events in their order,
and no entry when none is kept. -/
theorem cleanupOldData_userAccessHistory (ra : RiskAnalyzer) (env : Env) (fp : UserFingerprint) :
    (ra.cleanupOldData env).userAccessHistory fp =
      if ((ra.userAccessHistory fp).getD []).filter (fun d => keptAt env d.Timestamp) = []
      then none
      else some (((ra.userAccessHistory fp).getD []).filter (fun d => keptAt env d.Timestamp)) := by
  unfold RiskAnalyzer.cleanupOldData
  dsimp only
  cases h : ra.userAccessHistory fp with
  | none => simp
  | some history =>
    simp only [Option.getD_some]
    rw [some_if_nonempty]
    rfl

/-- The risk history of an address after the cleanup. -/
theorem cleanupOldData_ipRiskHistory (ra : RiskAnalyzer) (env : Env) (ip : String) :
    (ra.cleanupOldData env).ipRiskHistory ip =
      if ((ra.ipRiskHistory ip).getD []).filter (fun e => keptAt env e.Timestamp) = []
      then none
      else some (((ra.ipRiskHistory ip).getD []).filter (fun e => keptAt env e.Timestamp)) := by
  unfold RiskAnalyzer.cleanupOldData
  dsimp only
  cases h : ra.ipRiskHistory ip with
  | none => simp
  | some events =>
    simp only [Option.getD_some]
    rw [some_if_nonempty]
    rfl

/-- The cleanup touches the two histories only. -/
theorem cleanupOldData_rest (ra : RiskAnalyzer) (env : Env) :
    (ra.cleanupOldData env).cookieIPHistory = ra.cookieIPHistory ∧
    (ra.cleanupOldData env).sensitiveDataAvg = ra.sensitiveDataAvg ∧
    (ra.cleanupOldData env).sensitiveDataExpiry = ra.sensitiveDataExpiry ∧
    (ra.cleanupOldData env).geoIP = ra.geoIP ∧ (ra.cleanupOldData env).asnDB = ra.asnDB ∧
    (ra.cleanupOldData env).whitelist = ra.whitelist ∧
    (ra.cleanupOldData env).alerter = ra.alerter :=
  ⟨rfl, rfl, rfl, rfl, rfl, rfl, rfl⟩

/-- C18: after `cleanupOldData` runs at time `now`, every sequence left in the access
history and in the risk history is not empty, holds only entries with a timestamp strictly
after `now` minus one hour, and is the sequence it was before with exactly the entries
outside the horizon removed, so the order is kept and every entry within the horizon stays;
an entry is removed altogether exactly when none of its items is within the horizon.  The
same bounds hold after every `ProcessPacket` pass on an event that is not whitelisted. -/
theorem C18_cleanup_retention (ra : RiskAnalyzer) (env : Env) :
    (∀ fp h', (ra.cleanupOldData env).userAccessHistory fp = some h' →
      h' ≠ [] ∧ (∀ d ∈ h', env.now.unixNano - Hour < d.Timestamp.unixNano) ∧
      ∃ h, ra.userAccessHistory fp = some h ∧
        h' = h.filter (fun d => decide (env.now.unixNano - Hour < d.Timestamp.unixNano))) ∧
    (∀ fp h d, ra.userAccessHistory fp = some h → d ∈ h →
      env.now.unixNano - Hour < d.Timestamp.unixNano →
      ∃ h', (ra.cleanupOldData env).userAccessHistory fp = some h' ∧ d ∈ h') ∧
    (∀ ip es', (ra.cleanupOldData env).ipRiskHistory ip = some es' →
      es' ≠ [] ∧ (∀ e ∈ es', env.now.unixNano - Hour < e.Timestamp.unixNano) ∧
      ∃ es, ra.ipRiskHistory ip = some es ∧
        es' = es.filter (fun e => decide (env.now.unixNano - Hour < e.Timestamp.unixNano))) ∧
    (∀ ip es e, ra.ipRiskHistory ip = some es → e ∈ es →
      env.now.unixNano - Hour < e.Timestamp.unixNano →
      ∃ es', (ra.cleanupOldData env).ipRiskHistory ip = some es' ∧ e ∈ es') ∧
    (∀ data, ra.whitelist.ContainsIP data.ClientIP = false →
      (∀ fp h', (ra.ProcessPacket env data).userAccessHistory fp = some h' →
        h' ≠ [] ∧ ∀ d ∈ h', env.now.unixNano - Hour < d.Timestamp.unixNano) ∧
      (∀ ip es', (ra.ProcessPacket env data).ipRiskHistory ip = some es' →
        es' ≠ [] ∧ ∀ e ∈ es', env.now.unixNano - Hour < e.Timestamp.unixNano)) := by
  have hk1 : (fun d : PacketData => keptAt env d.Timestamp)
      = (fun d => decide (env.now.unixNano - Hour < d.Timestamp.unixNano)) := by
    funext d
    rw [Bool.eq_iff_iff, keptAt_iff, decide_eq_true_eq]
  have hk2 : (fun e : RiskEvent => keptAt env e.Timestamp)
      = (fun e => decide (env.now.unixNano - Hour < e.Timestamp.unixNano)) := by
    funext e
    rw [Bool.eq_iff_iff, keptAt_iff, decide_eq_true_eq]
  have huser : ∀ (r : RiskAnalyzer) fp h', (r.cleanupOldData env).userAccessHistory fp = some h' →
      h' ≠ [] ∧ (∀ d ∈ h', env.now.unixNano - Hour < d.Timestamp.unixNano) ∧
      h' = ((r.userAccessHistory fp).getD []).filter
        (fun d => decide (env.now.unixNano - Hour < d.Timestamp.unixNano)) := by
    intro r fp h' hh
    rw [cleanupOldData_userAccessHistory, hk1] at hh
    split_ifs at hh with he
    cases hh
    refine ⟨he, fun d hd => ?_, rfl⟩
    simpa using (List.mem_filter.1 hd).2
  have hrisk : ∀ (r : RiskAnalyzer) ip es', (r.cleanupOldData env).ipRiskHistory ip = some es' →
      es' ≠ [] ∧ (∀ e ∈ es', env.now.unixNano - Hour < e.Timestamp.unixNano) ∧
      es' = ((r.ipRiskHistory ip).getD []).filter
        (fun e => decide (env.now.unixNano - Hour < e.Timestamp.unixNano)) := by
    intro r ip es' hh
    rw [cleanupOldData_ipRiskHistory, hk2] at hh
    split_ifs at hh with he
    cases hh
    refine ⟨he, fun e hd => ?_, rfl⟩
    simpa using (List.mem_filter.1 hd).2
  refine ⟨?_, ?_, ?_, ?_, ?_⟩
  · intro fp h' hh
    obtain ⟨h1, h2, h3⟩ := huser ra fp h' hh
    refine ⟨h1, h2, ?_⟩
    cases ho : ra.userAccessHistory fp with
    | none =>
      rw [ho] at h3
      exact absurd h3 h1
    | some h =>
      rw [ho] at h3
      exact ⟨h, rfl, h3⟩
  · intro fp h d ho hd hin
    have hmem : d ∈ h.filter (fun d => decide (env.now.unixNano - Hour < d.Timestamp.unixNano)) :=
      List.mem_filter.2 ⟨hd, by simpa using hin⟩
    rw [cleanupOldData_userAccessHistory, hk1, ho]
    simp only [Option.getD_some]
    rw [if_neg (List.ne_nil_of_mem hmem)]
    exact ⟨_, rfl, hmem⟩
  · intro ip es' hh
    obtain ⟨h1, h2, h3⟩ := hrisk ra ip es' hh
    refine ⟨h1, h2, ?_⟩
    cases ho : ra.ipRiskHistory ip with
    | none =>
      rw [ho] at h3
      exact absurd h3 h1
    | some es =>
      rw [ho] at h3
      exact ⟨es, rfl, h3⟩
  · intro ip es e ho hd hin
    have hmem : e ∈ es.filter (fun e => decide (env.now.unixNano - Hour < e.Timestamp.unixNano)) :=
      List.mem_filter.2 ⟨hd, by simpa using hin⟩
    rw [cleanupOldData_ipRiskHistory, hk2, ho]
    simp only [Option.getD_some]
    rw [if_neg (List.ne_nil_of_mem hmem)]
    exact ⟨_, rfl, hmem⟩
  · intro data hwl
    rw [ProcessPacket_eq ra env data hwl]
    exact ⟨fun fp h' hh => ⟨(huser _ fp h' hh).1, (huser _ fp h' hh).2.1⟩,
      fun ip es' hh => ⟨(hrisk _ ip es' hh).1, (hrisk _ ip es' hh).2.1⟩⟩

/-- C18 at a concrete input: an entry five nanoseconds old is still in the history of its
fingerprint after the cleanup. -/
theorem C18_cleanup_retention_witness :
    ∃ h', ((analyzerWithBody 3).cleanupOldData (sampleEnv 5 false)).userAccessHistory
        sampleFingerprint = some h' ∧ eventOfSize 3 ∈ h' :=
  (C18_cleanup_retention (analyzerWithBody 3) (sampleEnv 5 false)).2.1 sampleFingerprint
    [eventOfSize 3] (eventOfSize 3) rfl (List.mem_singleton_self _) (by decide)

/-! ### The baseline -/

theorem workdaySensitive_cons (d : PacketData) (h : List PacketData) :
    workdaySensitive (d :: h) =
      if isSensitiveDataAccess d = true ∧
          ¬ (d.Timestamp.Weekday = Saturday ∨ d.Timestamp.Weekday = Sunday)
      then d :: workdaySensitive h else workdaySensitive h := by
  unfold workdaySensitive
  rw [List.filter_cons]
  simp only [decide_eq_true_eq]

/-- The loop of `calculateSensitiveDataAvg`: it counts the workday accesses to sensitive
paths and collects their days without repetition. -/
theorem calculateLoop_spec (history : List PacketData) :
    ∀ (n k : Nat) (days : List Int), days.Nodup → k = days.length →
      (history.foldl
        (fun (acc : Nat × Nat × List Int) data =>
          if ¬ isSensitiveDataAccess data then acc
          else
            let weekday := data.Timestamp.Weekday
            if weekday = Saturday ∨ weekday = Sunday then acc
            else
              let dateStr := data.Timestamp.dayNumber
              if dateStr ∈ acc.2.2 then (acc.1 + 1, acc.2.1, acc.2.2)
              else (acc.1 + 1, acc.2.1 + 1, dateStr :: acc.2.2))
        (n, k, days)).1 = n + (workdaySensitive history).length ∧
      (history.foldl
        (fun (acc : Nat × Nat × List Int) data =>
          if ¬ isSensitiveDataAccess data then acc
          else
            let weekday := data.Timestamp.Weekday
            if weekday = Saturday ∨ weekday = Sunday then acc
            else
              let dateStr := data.Timestamp.dayNumber
              if dateStr ∈ acc.2.2 then (acc.1 + 1, acc.2.1, acc.2.2)
              else (acc.1 + 1, acc.2.1 + 1, dateStr :: acc.2.2))
        (n, k, days)).2.1 = (days.toFinset ∪ distinctDays (workdaySensitive history)).card := by
  induction history with
  | nil =>
    intro n k days hnd hk
    simp [workdaySensitive, distinctDays, hk, List.toFinset_card_of_nodup hnd]
  | cons d h ih =>
    intro n k days hnd hk
    rw [List.foldl_cons, workdaySensitive_cons]
    by_cases hs : isSensitiveDataAccess d = true
    · by_cases hw : d.Timestamp.Weekday = Saturday ∨ d.Timestamp.Weekday = Sunday
      · simp only [hs, hw, not_true_eq_false, if_false, if_true, and_false]
        exact ih n k days hnd hk
      · simp only [hs, hw, not_true_eq_false, not_false_eq_true, if_false, and_self, if_true]
        by_cases hm : d.Timestamp.dayNumber ∈ days
        · rw [if_pos hm]
          obtain ⟨h1, h2⟩ := ih (n + 1) k days hnd hk
          refine ⟨?_, ?_⟩
          · rw [h1, List.length_cons]
            omega
          · rw [h2]
            congr 1
            ext x
            simp only [distinctDays, List.map_cons, List.toFinset_cons, Finset.mem_union,
              List.mem_toFinset, Finset.mem_insert]
            constructor
            · rintro (hx | hx)
              · exact Or.inl hx
              · exact Or.inr (Or.inr hx)
            · rintro (hx | hx | hx)
              · exact Or.inl hx
              · exact Or.inl (hx ▸ hm)
              · exact Or.inr hx
        · rw [if_neg hm]
          obtain ⟨h1, h2⟩ := ih (n + 1) (k + 1) (d.Timestamp.dayNumber :: days)
            (List.nodup_cons.2 ⟨hm, hnd⟩) (by rw [List.length_cons, hk])
          refine ⟨?_, ?_⟩
          · rw [h1, List.length_cons]
            omega
          · rw [h2]
            congr 1
            ext x
            simp only [distinctDays, List.map_cons, List.toFinset_cons, Finset.mem_union,
              List.mem_toFinset, Finset.mem_insert]
            constructor
            · rintro ((hx | hx) | hx)
              · exact Or.inr (Or.inl hx)
              · exact Or.inl hx
              · exact Or.inr (Or.inr hx)
            · rintro (hx | hx | hx)
              · exact Or.inl (Or.inr hx)
              · exact Or.inl (Or.inl hx)
              · exact Or.inr hx
    · simp only [hs, Bool.false_eq_true, not_false_eq_true, if_true, false_and, if_false]
      exact ih n k days hnd hk

/-- C19: for every access-history sequence the store returns for an identity,
`calculateSensitiveDataAvg` returns the number of accesses to a sensitive path that fall on
Monday to Friday divided by the number of distinct calendar days of these accesses, and it
returns 0 when there is no such access or when the store returns an error. -/
theorem C19_calculateSensitiveDataAvg (env : Env) (userID : String) :
    (∀ history, env.GetUserAccessHistory userID (env.now.Add (-30 * 24 * Hour)) = some history →
      (workdaySensitive history ≠ [] →
        calculateSensitiveDataAvg env userID =
          ((workdaySensitive history).length : ℚ) /
            ((distinctDays (workdaySensitive history)).card : ℚ)) ∧
      (workdaySensitive history = [] → calculateSensitiveDataAvg env userID = 0)) ∧
    (env.GetUserAccessHistory userID (env.now.Add (-30 * 24 * Hour)) = none →
      calculateSensitiveDataAvg env userID = 0) := by
  constructor
  · intro history hh
    unfold calculateSensitiveDataAvg
    simp only [hh]
    obtain ⟨h1, h2⟩ := calculateLoop_spec history 0 0 [] List.nodup_nil rfl
    rw [h1, h2]
    simp only [List.toFinset_nil, Finset.empty_union, zero_add]
    constructor
    · intro hne
      have hpos : 0 < (distinctDays (workdaySensitive history)).card := by
        rw [Finset.card_pos]
        obtain ⟨d, hd⟩ := List.exists_mem_of_ne_nil _ hne
        exact ⟨d.Timestamp.dayNumber, by
          unfold distinctDays
          rw [List.mem_toFinset]
          exact List.mem_map_of_mem _ hd⟩
      rw [if_pos hpos]
    · intro he
      rw [he]
      simp [distinctDays]
  · intro hn
    unfold calculateSensitiveDataAvg
    simp only [hn]

/-- C19 at a concrete input: two sensitive accesses on Thursday and one on Friday count, the
one on Saturday and the access to another path do not: three accesses on two days. -/
theorem C19_calculateSensitiveDataAvg_witness :
    calculateSensitiveDataAvg (envWithHistory 5 sampleHistory) "sid=1" = 3 / 2 :=
  (((C19_calculateSensitiveDataAvg (envWithHistory 5 sampleHistory) "sid=1").1 sampleHistory
    rfl).1 (by decide)).trans (by decide!)

theorem baselineBest_mem (rows : List BaselineRow) :
    ∀ (start : Option BaselineRow) (r : BaselineRow),
      rows.foldl
        (fun best r =>
          match best with
          | none => some r
          | some b => if b.expiry.unixNano < r.expiry.unixNano then some r else some b)
        start = some r → start = some r ∨ r ∈ rows := by
  induction rows with
  | nil =>
    intro start r h
    exact Or.inl h
  | cons x xs ih =>
    intro start r h
    rw [List.foldl_cons] at h
    rcases ih _ r h with h1 | h1
    · cases start with
      | none =>
        simp only [Option.some.injEq] at h1
        exact Or.inr (by rw [← h1]; exact List.mem_cons_self _ _)
      | some b =>
        dsimp only at h1
        split_ifs at h1
        · simp only [Option.some.injEq] at h1
          exact Or.inr (by rw [← h1]; exact List.mem_cons_self _ _)
        · exact Or.inl h1
    · exact Or.inr (List.mem_cons_of_mem _ h1)

/-- What `GetSensitiveDataAvg` returns without an error is `(0, time.Time{})` or the value
and expiry of a row of the identity that has not expired. -/
theorem GetSensitiveDataAvg_row (s : Storage) (env : Env) (userID : String)
    (herr : (s.GetSensitiveDataAvg env userID).2.2 = none) :
    ((s.GetSensitiveDataAvg env userID).1 = 0 ∧
      (s.GetSensitiveDataAvg env userID).2.1 = zeroTime) ∨
    ∃ row ∈ s.sensitive_data_avg, row.user_id = userID ∧
      env.now.unixNano < row.expiry.unixNano ∧
      (s.GetSensitiveDataAvg env userID).1 = row.avg_value ∧
      (s.GetSensitiveDataAvg env userID).2.1 = row.expiry := by
  unfold Storage.GetSensitiveDataAvg at herr ⊢
  by_cases hq : env.baselineQueryFails = true
  · rw [if_pos hq] at herr
    cases herr
  · rw [if_neg hq]
    dsimp only
    split
    · exact Or.inl ⟨rfl, rfl⟩
    · rename_i r hr
      rcases baselineBest_mem _ none r hr with h1 | h1
      · cases h1
      · have hm := List.mem_filter.1 h1
        have hp := hm.2
        simp only [decide_eq_true_eq] at hp
        exact Or.inr ⟨r, hm.1, hp.1, hp.2, rfl, rfl⟩

/-- A live entry is served as it is. -/
theorem getSensitiveDataAvg_live (ra : RiskAnalyzer) (env : Env) (userID : String) (avg : ℚ)
    (h : ra.baselineLive env.now userID avg) :
    ra.getSensitiveDataAvg env userID = (ra, avg) := by
  obtain ⟨h1, expiry, h2, h3⟩ := h
  unfold RiskAnalyzer.getSensitiveDataAvg
  simp [h1, h2, h3]

/-- Without a live entry the store decides: its value when it has one that has not
expired, the recomputed average otherwise. -/
theorem getSensitiveDataAvg_miss (ra : RiskAnalyzer) (env : Env) (userID : String)
    (h : ¬ ∃ avg, ra.baselineLive env.now userID avg) :
    ra.getSensitiveDataAvg env userID =
      if (ra.storage.GetSensitiveDataAvg env userID).2.2 = none ∧
          env.now.Before (ra.storage.GetSensitiveDataAvg env userID).2.1 = true
      then
        ({ ra with
            sensitiveDataAvg := fun k =>
              if k = userID then some (ra.storage.GetSensitiveDataAvg env userID).1
              else ra.sensitiveDataAvg k
            sensitiveDataExpiry := fun k =>
              if k = userID then some (ra.storage.GetSensitiveDataAvg env userID).2.1
              else ra.sensitiveDataExpiry k },
          (ra.storage.GetSensitiveDataAvg env userID).1)
      else
        ({ ra with
            sensitiveDataAvg := fun k =>
              if k = userID then some (calculateSensitiveDataAvg env userID)
              else ra.sensitiveDataAvg k
            sensitiveDataExpiry := fun k =>
              if k = userID then some (env.now.Add (24 * Hour))
              else ra.sensitiveDataExpiry k },
          calculateSensitiveDataAvg env userID) := by
  have hdbeq : ((ra.storage.GetSensitiveDataAvg env userID).2.2.isNone = true ∧
      env.now.Before (ra.storage.GetSensitiveDataAvg env userID).2.1 = true) ↔
      ((ra.storage.GetSensitiveDataAvg env userID).2.2 = none ∧
        env.now.Before (ra.storage.GetSensitiveDataAvg env userID).2.1 = true) := by
    rw [Option.isNone_iff_eq_none]
  have hfin : (if (ra.storage.GetSensitiveDataAvg env userID).2.2.isNone = true ∧
        env.now.Before (ra.storage.GetSensitiveDataAvg env userID).2.1 = true
      then
        (({ ra with
            sensitiveDataAvg := fun k =>
              if k = userID then some (ra.storage.GetSensitiveDataAvg env userID).1
              else ra.sensitiveDataAvg k
            sensitiveDataExpiry := fun k =>
              if k = userID then some (ra.storage.GetSensitiveDataAvg env userID).2.1
              else ra.sensitiveDataExpiry k } : RiskAnalyzer),
          (ra.storage.GetSensitiveDataAvg env userID).1)
      else
        (({ ra with
            sensitiveDataAvg := fun k =>
              if k = userID then some (calculateSensitiveDataAvg env userID)
              else ra.sensitiveDataAvg k
            sensitiveDataExpiry := fun k =>
              if k = userID then some (env.now.Add (24 * Hour))
              else ra.sensitiveDataExpiry k } : RiskAnalyzer),
          calculateSensitiveDataAvg env userID)) =
      if (ra.storage.GetSensitiveDataAvg env userID).2.2 = none ∧
          env.now.Before (ra.storage.GetSensitiveDataAvg env userID).2.1 = true
      then
        (({ ra with
            sensitiveDataAvg := fun k =>
              if k = userID then some (ra.storage.GetSensitiveDataAvg env userID).1
              else ra.sensitiveDataAvg k
            sensitiveDataExpiry := fun k =>
              if k = userID then some (ra.storage.GetSensitiveDataAvg env userID).2.1
              else ra.sensitiveDataExpiry k } : RiskAnalyzer),
          (ra.storage.GetSensitiveDataAvg env userID).1)
      else
        (({ ra with
            sensitiveDataAvg := fun k =>
              if k = userID then some (calculateSensitiveDataAvg env userID)
              else ra.sensitiveDataAvg k
            sensitiveDataExpiry := fun k =>
              if k = userID then some (env.now.Add (24 * Hour))
              else ra.sensitiveDataExpiry k } : RiskAnalyzer),
          calculateSensitiveDataAvg env userID) := by
    by_cases hdb : (ra.storage.GetSensitiveDataAvg env userID).2.2 = none ∧
        env.now.Before (ra.storage.GetSensitiveDataAvg env userID).2.1 = true
    · rw [if_pos hdb, if_pos (hdbeq.2 hdb)]
    · rw [if_neg hdb, if_neg (fun hc => hdb (hdbeq.1 hc))]
  rw [← hfin]
  unfold RiskAnalyzer.getSensitiveDataAvg
  dsimp only
  cases h1 : ra.sensitiveDataAvg userID with
  | none => rfl
  | some avg =>
    cases h2 : ra.sensitiveDataExpiry userID with
    | none => rfl
    | some expiry =>
      by_cases h3 : env.now.Before expiry = true
      · exact absurd ⟨avg, h1, expiry, h2, h3⟩ h
      · dsimp only
        rw [if_neg h3]
        rfl

/-- C20: for every cache state, identity and time, when the identity's in-memory entry
exists with `now` before its expiry, `getSensitiveDataAvg` returns its average and the
engine as it was, whatever the store holds.  Otherwise it returns the value the store
serves when that has an expiry after `now` (the value of a stored row of the identity), or
else the freshly recomputed average; in both cases the in-memory entry afterwards holds the
returned value with an expiry after `now`, which is `now` + 24 hours for a recomputation,
and the entries of the other identities are as before. -/
theorem C20_getSensitiveDataAvg (ra : RiskAnalyzer) (env : Env) (userID : String) :
    (∀ avg, ra.baselineLive env.now userID avg →
      ra.getSensitiveDataAvg env userID = (ra, avg)) ∧
    ((¬ ∃ avg, ra.baselineLive env.now userID avg) →
      (((ra.storage.GetSensitiveDataAvg env userID).2.2 = none ∧
          env.now.Before (ra.storage.GetSensitiveDataAvg env userID).2.1 = true ∧
          (ra.getSensitiveDataAvg env userID).2 = (ra.storage.GetSensitiveDataAvg env userID).1 ∧
          (ra.getSensitiveDataAvg env userID).1.sensitiveDataExpiry userID
            = some (ra.storage.GetSensitiveDataAvg env userID).2.1 ∧
          (zeroTime.unixNano ≤ env.now.unixNano →
            ∃ row ∈ ra.storage.sensitive_data_avg, row.user_id = userID ∧
              env.now.unixNano < row.expiry.unixNano ∧
              (ra.getSensitiveDataAvg env userID).2 = row.avg_value)) ∨
        (¬ ((ra.storage.GetSensitiveDataAvg env userID).2.2 = none ∧
            env.now.Before (ra.storage.GetSensitiveDataAvg env userID).2.1 = true) ∧
          (ra.getSensitiveDataAvg env userID).2 = calculateSensitiveDataAvg env userID ∧
          (ra.getSensitiveDataAvg env userID).1.sensitiveDataExpiry userID
            = some (env.now.Add (24 * Hour)))) ∧
      (ra.getSensitiveDataAvg env userID).1.baselineLive env.now userID
        (ra.getSensitiveDataAvg env userID).2 ∧
      (∀ k, k ≠ userID →
        (ra.getSensitiveDataAvg env userID).1.sensitiveDataAvg k = ra.sensitiveDataAvg k ∧
        (ra.getSensitiveDataAvg env userID).1.sensitiveDataExpiry k
          = ra.sensitiveDataExpiry k)) := by
  refine ⟨fun avg h => getSensitiveDataAvg_live ra env userID avg h, fun h => ?_⟩
  rw [getSensitiveDataAvg_miss ra env userID h]
  by_cases hdb : (ra.storage.GetSensitiveDataAvg env userID).2.2 = none ∧
      env.now.Before (ra.storage.GetSensitiveDataAvg env userID).2.1 = true
  · rw [if_pos hdb]
    refine ⟨Or.inl ⟨hdb.1, hdb.2, rfl, if_pos rfl, fun hz => ?_⟩,
      ⟨if_pos rfl, _, if_pos rfl, hdb.2⟩, fun k hk => ⟨if_neg hk, if_neg hk⟩⟩
    rcases GetSensitiveDataAvg_row ra.storage env userID hdb.1 with ⟨_, h2⟩ | ⟨row, hm, hu, he, hv, _⟩
    · have hb := hdb.2
      rw [h2] at hb
      unfold GoTime.Before at hb
      rw [decide_eq_true_eq] at hb
      exact absurd hb (not_lt.2 hz)
    · exact ⟨row, hm, hu, he, hv⟩
  · rw [if_neg hdb]
    refine ⟨Or.inr ⟨hdb, rfl, if_pos rfl⟩, ⟨if_pos rfl, _, if_pos rfl, ?_⟩,
      fun k hk => ⟨if_neg hk, if_neg hk⟩⟩
    unfold GoTime.Before GoTime.Add
    rw [decide_eq_true_eq]
    dsimp only
    have : (0 : Int) < 24 * Hour := by decide
    linarith

/-- C20 at concrete inputs: before the expiry the cached 7 is served and the engine is as it
was; after the expiry the entry is renewed and is live with the value returned. -/
theorem C20_getSensitiveDataAvg_witness :
    (analyzerWithBaseline "sid=1" 7).getSensitiveDataAvg (sampleEnv 5 false) "sid=1"
      = (analyzerWithBaseline "sid=1" 7, 7) ∧
    ((analyzerWithBaseline "sid=1" 7).getSensitiveDataAvg (sampleEnv 2000 false)
      "sid=1").1.baselineLive (sampleEnv 2000 false).now "sid=1"
        ((analyzerWithBaseline "sid=1" 7).getSensitiveDataAvg (sampleEnv 2000 false) "sid=1").2 :=
  ⟨(C20_getSensitiveDataAvg (analyzerWithBaseline "sid=1" 7) (sampleEnv 5 false) "sid=1").1 7
      ⟨rfl, ⟨1000, 0⟩, rfl, by decide⟩,
    ((C20_getSensitiveDataAvg (analyzerWithBaseline "sid=1" 7) (sampleEnv 2000 false) "sid=1").2
      (fun ⟨_, _, expiry, he, hb⟩ => by
        have he' : some (⟨1000, 0⟩ : GoTime) = some expiry := he
        cases he'
        exact absurd hb (by decide))).2.1⟩

/-! ### What each rule depends on -/

theorem baselineLive_congr {ra ra' : RiskAnalyzer}
    (h1 : ra'.sensitiveDataAvg = ra.sensitiveDataAvg)
    (h2 : ra'.sensitiveDataExpiry = ra.sensitiveDataExpiry) (now : GoTime) (userID : String)
    (avg : ℚ) : ra'.baselineLive now userID avg ↔ ra.baselineLive now userID avg := by
  unfold RiskAnalyzer.baselineLive
  rw [h1, h2]

/-- The average served depends on the baseline cache and the store only. -/
theorem getSensitiveDataAvg_congr {ra ra' : RiskAnalyzer}
    (h1 : ra'.sensitiveDataAvg = ra.sensitiveDataAvg)
    (h2 : ra'.sensitiveDataExpiry = ra.sensitiveDataExpiry) (h3 : ra'.alerter = ra.alerter)
    (env : Env) (userID : String) :
    (ra'.getSensitiveDataAvg env userID).2 = (ra.getSensitiveDataAvg env userID).2 ∧
    (ra'.getSensitiveDataAvg env userID).1.sensitiveDataAvg
      = (ra.getSensitiveDataAvg env userID).1.sensitiveDataAvg ∧
    (ra'.getSensitiveDataAvg env userID).1.sensitiveDataExpiry
      = (ra.getSensitiveDataAvg env userID).1.sensitiveDataExpiry := by
  have hs : ra'.storage = ra.storage := by
    unfold RiskAnalyzer.storage
    rw [h3]
  by_cases hl : ∃ avg, ra.baselineLive env.now userID avg
  · obtain ⟨avg, ha⟩ := hl
    rw [getSensitiveDataAvg_live ra env userID avg ha,
      getSensitiveDataAvg_live ra' env userID avg ((baselineLive_congr h1 h2 _ _ _).2 ha)]
    exact ⟨rfl, h1, h2⟩
  · have hl' : ¬ ∃ avg, ra'.baselineLive env.now userID avg := by
      rintro ⟨avg, ha⟩
      exact hl ⟨avg, (baselineLive_congr h1 h2 _ _ _).1 ha⟩
    rw [getSensitiveDataAvg_miss ra env userID hl, getSensitiveDataAvg_miss ra' env userID hl',
      hs]
    split_ifs
    · exact ⟨rfl, by dsimp only; rw [h1], by dsimp only; rw [h2]⟩
    · exact ⟨rfl, by dsimp only; rw [h1], by dsimp only; rw [h2]⟩

/-- After a call the entry of the identity is live with the value served. -/
theorem getSensitiveDataAvg_then_live (ra : RiskAnalyzer) (env : Env) (userID : String) :
    (ra.getSensitiveDataAvg env userID).1.baselineLive env.now userID
      (ra.getSensitiveDataAvg env userID).2 := by
  by_cases hl : ∃ avg, ra.baselineLive env.now userID avg
  · obtain ⟨avg, ha⟩ := hl
    rw [getSensitiveDataAvg_live ra env userID avg ha]
    exact ha
  · rw [getSensitiveDataAvg_miss ra env userID hl]
    split_ifs with hdb
    · exact ⟨if_pos rfl, _, if_pos rfl, hdb.2⟩
    · refine ⟨if_pos rfl, _, if_pos rfl, ?_⟩
      unfold GoTime.Before GoTime.Add
      rw [decide_eq_true_eq]
      dsimp only
      have : (0 : Int) < 24 * Hour := by decide
      linarith

/-- The value of the operation-time rule as a function of the average served. -/
theorem checkOperationTimeEnhanced_snd (ra : RiskAnalyzer) (env : Env) (data : PacketData) :
    (ra.checkOperationTimeEnhanced env data).2 =
      if data.HeaderCookie ≠ "" ∧ isSensitiveDataAccess data = true then
        if ¬ isWeekend data.Timestamp ∧ (ra.getSensitiveDataAvg env data.HeaderCookie).2 > 0 ∧
            (getTodaySensitiveAccessCount env data.HeaderCookie : ℚ)
              > (ra.getSensitiveDataAvg env data.HeaderCookie).2 * 3 then 6
        else if isWeekend data.Timestamp ∧
            (ra.getSensitiveDataAvg env data.HeaderCookie).2 > 0 ∧
            (getTodaySensitiveAccessCount env data.HeaderCookie : ℚ)
              > (ra.getSensitiveDataAvg env data.HeaderCookie).2 * (5 / 2) then 6
        else offHoursScore data.Timestamp
      else offHoursScore data.Timestamp := by
  unfold RiskAnalyzer.checkOperationTimeEnhanced offHoursScore isNightTime isWeekend
  dsimp only
  simp only [decide_eq_true_eq]
  split_ifs <;> rfl

/-- The state after the operation-time rule. -/
theorem checkOperationTimeEnhanced_fst (ra : RiskAnalyzer) (env : Env) (data : PacketData) :
    (ra.checkOperationTimeEnhanced env data).1 =
      if data.HeaderCookie ≠ "" ∧ isSensitiveDataAccess data = true
      then (ra.getSensitiveDataAvg env data.HeaderCookie).1 else ra := by
  unfold RiskAnalyzer.checkOperationTimeEnhanced
  dsimp only
  split_ifs <;> rfl

/-- The operation-time rule depends on the baseline cache and the store only. -/
theorem checkOperationTimeEnhanced_congr {ra ra' : RiskAnalyzer}
    (h1 : ra'.sensitiveDataAvg = ra.sensitiveDataAvg)
    (h2 : ra'.sensitiveDataExpiry = ra.sensitiveDataExpiry) (h3 : ra'.alerter = ra.alerter)
    (env : Env) (data : PacketData) :
    (ra'.checkOperationTimeEnhanced env data).2 = (ra.checkOperationTimeEnhanced env data).2 ∧
    (ra'.checkOperationTimeEnhanced env data).1.sensitiveDataAvg
      = (ra.checkOperationTimeEnhanced env data).1.sensitiveDataAvg ∧
    (ra'.checkOperationTimeEnhanced env data).1.sensitiveDataExpiry
      = (ra.checkOperationTimeEnhanced env data).1.sensitiveDataExpiry := by
  obtain ⟨g1, g2, g3⟩ := getSensitiveDataAvg_congr h1 h2 h3 env data.HeaderCookie
  rw [checkOperationTimeEnhanced_snd, checkOperationTimeEnhanced_snd,
    checkOperationTimeEnhanced_fst, checkOperationTimeEnhanced_fst, g1]
  refine ⟨rfl, ?_, ?_⟩
  · split_ifs
    · exact g2
    · exact h1
  · split_ifs
    · exact g3
    · exact h2

/-- The cookie-address history is not touched by the operation-time rule. -/
theorem checkOperationTimeEnhanced_cookieIPHistory (ra : RiskAnalyzer) (env : Env)
    (data : PacketData) :
    (ra.checkOperationTimeEnhanced env data).1.cookieIPHistory = ra.cookieIPHistory := by
  rw [checkOperationTimeEnhanced_fst]
  split_ifs
  · by_cases hl : ∃ avg, ra.baselineLive env.now data.HeaderCookie avg
    · obtain ⟨avg, ha⟩ := hl
      rw [getSensitiveDataAvg_live ra env _ avg ha]
    · rw [getSensitiveDataAvg_miss ra env _ hl]
      split_ifs <;> rfl
  · rfl

/-- The baseline cache is not touched by the address-switching rule. -/
theorem checkHighIPSwitching_cache (ra : RiskAnalyzer) (env : Env) (fp : UserFingerprint) :
    (ra.checkHighIPSwitching env fp).1.sensitiveDataAvg = ra.sensitiveDataAvg ∧
    (ra.checkHighIPSwitching env fp).1.sensitiveDataExpiry = ra.sensitiveDataExpiry := by
  unfold RiskAnalyzer.checkHighIPSwitching
  dsimp only
  split_ifs
  all_goals exact ⟨rfl, rfl⟩

/-- The address-switching rule depends on the cookie-address history only. -/
theorem checkHighIPSwitching_congr {ra ra' : RiskAnalyzer}
    (h : ra'.cookieIPHistory = ra.cookieIPHistory) (env : Env) (fp : UserFingerprint) :
    (ra'.checkHighIPSwitching env fp).2 = (ra.checkHighIPSwitching env fp).2 ∧
    (ra'.checkHighIPSwitching env fp).1.cookieIPHistory
      = (ra.checkHighIPSwitching env fp).1.cookieIPHistory := by
  unfold RiskAnalyzer.checkHighIPSwitching
  dsimp only
  rw [h]
  split_ifs
  all_goals first | exact ⟨rfl, rfl⟩ | exact ⟨rfl, h⟩

theorem checkDataDownloadVolumeFromHistory_congr {ra ra' : RiskAnalyzer}
    (h : ra'.userAccessHistory = ra.userAccessHistory) (env : Env) (fp : UserFingerprint) :
    ra'.checkDataDownloadVolumeFromHistory env fp = ra.checkDataDownloadVolumeFromHistory env fp := by
  unfold RiskAnalyzer.checkDataDownloadVolumeFromHistory
  rw [h]

theorem checkLoginIPLocation_congr {ra ra' : RiskAnalyzer} (h : ra'.geoIP = ra.geoIP)
    (data : PacketData) : ra'.checkLoginIPLocation data = ra.checkLoginIPLocation data := by
  unfold RiskAnalyzer.checkLoginIPLocation
  rw [h]

theorem checkNonMainlandChina_congr {ra ra' : RiskAnalyzer} (h : ra'.geoIP = ra.geoIP)
    (data : PacketData) : ra'.checkNonMainlandChina data = ra.checkNonMainlandChina data := by
  unfold RiskAnalyzer.checkNonMainlandChina
  rw [h]

theorem checkDataCenterIP_congr {ra ra' : RiskAnalyzer} (h : ra'.asnDB = ra.asnDB)
    (data : PacketData) : ra'.checkDataCenterIP data = ra.checkDataCenterIP data := by
  unfold RiskAnalyzer.checkDataCenterIP
  rw [h]

theorem checkProxyFeatures_congr {ra ra' : RiskAnalyzer} (h : ra'.asnDB = ra.asnDB)
    (data : PacketData) : ra'.checkProxyFeatures data = ra.checkProxyFeatures data := by
  unfold RiskAnalyzer.checkProxyFeatures
  rw [checkDataCenterIP_congr h]

theorem checkHistoricalRisksEnhanced_congr {ra ra' : RiskAnalyzer}
    (h : ra'.ipRiskHistory = ra.ipRiskHistory) (env : Env) (data : PacketData) :
    ra'.checkHistoricalRisksEnhanced env data = ra.checkHistoricalRisksEnhanced env data := by
  unfold RiskAnalyzer.checkHistoricalRisksEnhanced
  rw [h]

/-- The eight values of `ruleScores` are the eight rules evaluated on the engine it starts
from: the two calls that write do not change what a later rule reads. -/
theorem ruleScores_values (ra : RiskAnalyzer) (env : Env) (data : PacketData)
    (fp : UserFingerprint) :
    (ra.ruleScores env data fp).2 =
      [ra.checkDataDownloadVolumeFromHistory env fp, (ra.checkOperationTimeEnhanced env data).2,
        (ra.checkHighIPSwitching env fp).2, ra.checkLoginIPLocation data,
        ra.checkProxyFeatures data, ra.checkHistoricalRisksEnhanced env data,
        ra.checkNonMainlandChina data, ra.checkDataCenterIP data] := by
  have hc := ruleScores_sameCore ra env data fp
  have h3 := (checkHighIPSwitching_congr
    (checkOperationTimeEnhanced_cookieIPHistory ra env data) env fp).1
  rw [← checkLoginIPLocation_congr hc.2.2.1 data, ← checkProxyFeatures_congr hc.2.2.2.1 data,
    ← checkHistoricalRisksEnhanced_congr hc.2.1 env data,
    ← checkNonMainlandChina_congr hc.2.2.1 data, ← checkDataCenterIP_congr hc.2.2.2.1 data,
    ← h3]
  rfl

theorem namesOfPositive_eight (s1 s2 s3 s4 s5 s6 s7 s8 : ℚ) :
    namesOfPositive [s1, s2, s3, s4, s5, s6, s7, s8] =
      (if 0 < s1 then ["数据下载量异常"] else []) ++ ((if 0 < s2 then ["非常规操作时间"] else []) ++
      ((if 0 < s3 then ["IP高频切换"] else []) ++ ((if 0 < s4 then ["地理位置异常"] else []) ++
      ((if 0 < s5 then ["代理IP访问"] else []) ++ ((if 0 < s6 then ["历史高风险"] else []) ++
      ((if 0 < s7 then ["非中国大陆IP"] else []) ++
        (if 0 < s8 then ["数据中心IP"] else []))))))) := by
  have hcons : ∀ (n : String) (s : ℚ) (l : List (String × ℚ)),
      (((n, s) :: l).filter (fun p => decide (0 < p.2))).map (fun p => p.1) =
        (if 0 < s then [n] else []) ++ (l.filter (fun p => decide (0 < p.2))).map (fun p => p.1) := by
    intro n s l
    rw [List.filter_cons]
    by_cases h : 0 < s
    · simp [h]
    · simp [h]
  unfold namesOfPositive ruleNames
  simp only [List.zip_cons_cons, List.zip_nil_right, hcons]
  simp

theorem ite_append_single (c : Prop) [Decidable c] (l : List String) (n : String) :
    (if c then l ++ [n] else l) = l ++ (if c then [n] else []) := by
  split_ifs
  · rfl
  · exact (List.append_nil l).symm

theorem rules_chain (s1 s2 s3 s4 s5 s6 s7 s8 : ℚ) :
    (let rules : List String := []
     let rules := if s1 > 0 then rules ++ ["数据下载量异常"] else rules
     let rules := if s2 > 0 then rules ++ ["非常规操作时间"] else rules
     let rules := if s3 > 0 then rules ++ ["IP高频切换"] else rules
     let rules := if s4 > 0 then rules ++ ["地理位置异常"] else rules
     let rules := if s5 > 0 then rules ++ ["代理IP访问"] else rules
     let rules := if s6 > 0 then rules ++ ["历史高风险"] else rules
     let rules := if s7 > 0 then rules ++ ["非中国大陆IP"] else rules
     let rules := if s8 > 0 then rules ++ ["数据中心IP"] else rules
     rules) = namesOfPositive [s1, s2, s3, s4, s5, s6, s7, s8] := by
  rw [namesOfPositive_eight]
  simp only [ite_append_single, gt_iff_lt]
  simp only [List.nil_append, List.append_assoc]

/-- `getAlertRules` threads the engine as `ruleScores` does and lists the names of the rules
whose value is positive. -/
theorem getAlertRules_eq (ra : RiskAnalyzer) (env : Env) (data : PacketData) (s : ℚ) :
    ra.getAlertRules env data s =
      ((ra.ruleScores env data (fingerprintOf data)).1,
        namesOfPositive (ra.ruleScores env data (fingerprintOf data)).2) :=
  Prod.ext rfl (rules_chain (ra.checkDataDownloadVolumeFromHistory env (fingerprintOf data))
    (ra.checkOperationTimeEnhanced env data).2
    ((ra.checkOperationTimeEnhanced env data).1.checkHighIPSwitching env (fingerprintOf data)).2
    _ _ _ _ _)

/-! ### The engine through one pass -/

/-- The histories and the fixed parts of the engine right before the cleanup of a pass. -/
theorem beforeCleanup_fields (ra : RiskAnalyzer) (env : Env) (data : PacketData) :
    (ra.beforeCleanup env data).userAccessHistory = (ra.withAccess data).userAccessHistory ∧
    (ra.beforeCleanup env data).ipRiskHistory =
      (fun ip => if ip = data.ClientIP
        then some ((ra.ipRiskHistory data.ClientIP).getD [] ++ [ra.recordedEvent env data])
        else ra.ipRiskHistory ip) ∧
    (ra.beforeCleanup env data).geoIP = ra.geoIP ∧
    (ra.beforeCleanup env data).asnDB = ra.asnDB ∧
    (ra.beforeCleanup env data).whitelist = ra.whitelist := by
  have h1 := ruleScores_sameCore (ra.withAccess data) env data (fingerprintOf data)
  have h2 := getAlertRules_sameCore
    ((ra.withAccess data).ruleScores env data (fingerprintOf data)).1 env data
    (ra.aggregateScore env data)
  have h12 := sameCore_trans h1 h2
  have hd : (ra.atAlertDecision env data).userAccessHistory
        = (ra.withAccess data).userAccessHistory ∧
      (ra.atAlertDecision env data).ipRiskHistory =
        (fun ip => if ip = data.ClientIP
          then some ((ra.ipRiskHistory data.ClientIP).getD [] ++ [ra.recordedEvent env data])
          else ra.ipRiskHistory ip) ∧
      (ra.atAlertDecision env data).geoIP = ra.geoIP ∧
      (ra.atAlertDecision env data).asnDB = ra.asnDB ∧
      (ra.atAlertDecision env data).whitelist = ra.whitelist := by
    refine ⟨h12.1, ?_, h12.2.2.1, h12.2.2.2.1, h12.2.2.2.2.1⟩
    have hr : (((ra.withAccess data).ruleScores env data (fingerprintOf data)).1.getAlertRules
        env data (ra.aggregateScore env data)).1.ipRiskHistory = ra.ipRiskHistory := h12.2.1
    show (fun ip => if ip = data.ClientIP
          then some (((((ra.withAccess data).ruleScores env data
            (fingerprintOf data)).1.getAlertRules env data
            (ra.aggregateScore env data)).1.ipRiskHistory data.ClientIP).getD [] ++
              [ra.recordedEvent env data])
          else (((ra.withAccess data).ruleScores env data
            (fingerprintOf data)).1.getAlertRules env data
            (ra.aggregateScore env data)).1.ipRiskHistory ip) = _
    rw [hr]
  unfold RiskAnalyzer.beforeCleanup
  split_ifs
  · have h3 := getAlertRules_sameCore (ra.atAlertDecision env data) env data
      (ra.aggregateScore env data)
    dsimp only
    exact ⟨h3.1.trans hd.1, h3.2.1.trans hd.2.1, h3.2.2.1.trans hd.2.2.1,
      h3.2.2.2.1.trans hd.2.2.2.1, h3.2.2.2.2.1.trans hd.2.2.2.2⟩
  · exact hd

/-- The risk history of an address after a pass on an event that is not whitelisted. -/
theorem ProcessPacket_ipRiskHistory (ra : RiskAnalyzer) (env : Env) (data : PacketData)
    (hwl : ra.whitelist.ContainsIP data.ClientIP = false) (ip : String) :
    ((ra.ProcessPacket env data).ipRiskHistory ip).getD [] =
      ((ra.ipRiskHistory ip).getD [] ++
        (if ip = data.ClientIP then [ra.recordedEvent env data] else [])).filter
          (fun e => keptAt env e.Timestamp) := by
  rw [ProcessPacket_eq ra env data hwl, cleanupOldData_ipRiskHistory,
    (beforeCleanup_fields ra env data).2.1]
  dsimp only
  by_cases h : ip = data.ClientIP
  · rw [if_pos h, if_pos h, h]
    split_ifs with he
    · rw [Option.getD_some] at he
      rw [he]
      rfl
    · rfl
  · rw [if_neg h, if_neg h, List.append_nil]
    split_ifs with he
    · rw [he]
      rfl
    · rfl

/-- The access history of a fingerprint after a pass on an event that is not whitelisted. -/
theorem ProcessPacket_historyOf (ra : RiskAnalyzer) (env : Env) (data : PacketData)
    (hwl : ra.whitelist.ContainsIP data.ClientIP = false) (fp : UserFingerprint) :
    (ra.ProcessPacket env data).historyOf fp =
      (ra.historyOf fp ++ (if fingerprintOf data = fp then [data] else [])).filter
        (fun d => keptAt env d.Timestamp) := by
  unfold RiskAnalyzer.historyOf
  rw [ProcessPacket_eq ra env data hwl, cleanupOldData_userAccessHistory,
    (beforeCleanup_fields ra env data).1]
  unfold RiskAnalyzer.withAccess
  dsimp only
  by_cases h : fp = fingerprintOf data
  · rw [if_pos h, if_pos h.symm, h]
    split_ifs with he
    · rw [Option.getD_some] at he
      rw [he]
      rfl
    · rfl
  · have h' : ¬ fingerprintOf data = fp := fun e => h e.symm
    rw [if_neg h, if_neg h', List.append_nil]
    split_ifs with he
    · rw [he]
      rfl
    · rfl

/-- No pass leaves an empty sequence in the access history. -/
theorem ProcessPacket_userAccessHistory (ra : RiskAnalyzer) (env : Env) (data : PacketData)
    (hwl : ra.whitelist.ContainsIP data.ClientIP = false) (fp : UserFingerprint) :
    (ra.ProcessPacket env data).userAccessHistory fp =
      if (ra.ProcessPacket env data).historyOf fp = [] then none
      else some ((ra.ProcessPacket env data).historyOf fp) := by
  unfold RiskAnalyzer.historyOf
  rw [ProcessPacket_eq ra env data hwl, cleanupOldData_userAccessHistory]
  split_ifs with h1 h2 h2
  · rfl
  · exact absurd rfl h2
  · rw [Option.getD_some] at h2
    exact absurd h2 h1
  · rfl

/-- A pass keeps the whitelist. -/
theorem ProcessPacket_whitelist (ra : RiskAnalyzer) (env : Env) (data : PacketData) :
    (ra.ProcessPacket env data).whitelist = ra.whitelist := by
  cases hwl : ra.whitelist.ContainsIP data.ClientIP with
  | true =>
    unfold RiskAnalyzer.ProcessPacket
    rw [if_pos hwl]
  | false =>
    rw [ProcessPacket_eq ra env data hwl]
    exact (beforeCleanup_fields ra env data).2.2.2.2

/-! ### The eight rules are never negative -/

theorem checkDataDownloadVolumeFromHistory_nonneg (ra : RiskAnalyzer) (env : Env)
    (fp : UserFingerprint) : 0 ≤ ra.checkDataDownloadVolumeFromHistory env fp := by
  rw [checkDataDownloadVolumeFromHistory_eq]
  split_ifs <;> norm_num

theorem offHoursScore_nonneg (t : GoTime) : 0 ≤ offHoursScore t := by
  unfold offHoursScore
  split_ifs <;> norm_num

theorem checkOperationTimeEnhanced_nonneg (ra : RiskAnalyzer) (env : Env) (data : PacketData) :
    0 ≤ (ra.checkOperationTimeEnhanced env data).2 := by
  rw [checkOperationTimeEnhanced_snd]
  split_ifs
  all_goals first | exact offHoursScore_nonneg _ | norm_num

theorem checkHighIPSwitching_nonneg (ra : RiskAnalyzer) (env : Env) (fp : UserFingerprint) :
    0 ≤ (ra.checkHighIPSwitching env fp).2 := by
  unfold RiskAnalyzer.checkHighIPSwitching
  dsimp only
  split_ifs <;> norm_num

theorem checkLoginIPLocation_nonneg (ra : RiskAnalyzer) (data : PacketData) :
    0 ≤ ra.checkLoginIPLocation data := by
  unfold RiskAnalyzer.checkLoginIPLocation
  repeat' split
  all_goals norm_num

theorem checkDataCenterIP_nonneg (ra : RiskAnalyzer) (data : PacketData) :
    0 ≤ ra.checkDataCenterIP data := by
  unfold RiskAnalyzer.checkDataCenterIP
  repeat' split
  all_goals norm_num

theorem checkProxyFeatures_nonneg (ra : RiskAnalyzer) (data : PacketData) :
    0 ≤ ra.checkProxyFeatures data := by
  unfold RiskAnalyzer.checkProxyFeatures
  split_ifs
  · norm_num
  · exact checkDataCenterIP_nonneg ra data

theorem checkNonMainlandChina_nonneg (ra : RiskAnalyzer) (data : PacketData) :
    0 ≤ ra.checkNonMainlandChina data := by
  unfold RiskAnalyzer.checkNonMainlandChina
  repeat' split
  all_goals norm_num

theorem weightedRisk_nonneg (events : List RiskEvent) (h : ∀ e ∈ events, 0 ≤ e.RiskScore) :
    0 ≤ weightedRisk events := by
  unfold weightedRisk
  apply mul_nonneg _ (by norm_num)
  apply List.sum_nonneg
  intro x hx
  obtain ⟨e, he, rfl⟩ := List.mem_map.1 hx
  exact h e he

theorem checkHistoricalRisksEnhanced_nonneg (ra : RiskAnalyzer) (env : Env) (data : PacketData)
    (h : ra.riskScoresNonneg) : 0 ≤ ra.checkHistoricalRisksEnhanced env data := by
  rw [checkHistoricalRisksEnhanced_eq]
  apply add_nonneg
  · apply weightedRisk_nonneg
    intro e he
    have hmem : e ∈ (ra.ipRiskHistory data.ClientIP).getD [] := (List.mem_filter.1 he).1
    cases hh : ra.ipRiskHistory data.ClientIP with
    | none =>
      rw [hh] at hmem
      exact absurd hmem (List.not_mem_nil e)
    | some events =>
      rw [hh] at hmem
      exact h _ _ hh e hmem
  · split_ifs <;> norm_num

/-- The eight contributions of a pass are the eight rules, evaluated on the engine that holds
the event in its access history. -/
theorem contributions_eq (ra : RiskAnalyzer) (env : Env) (data : PacketData) :
    ra.contributions env data =
      [(ra.withAccess data).checkDataDownloadVolumeFromHistory env (fingerprintOf data),
        (ra.checkOperationTimeEnhanced env data).2,
        (ra.checkHighIPSwitching env (fingerprintOf data)).2, ra.checkLoginIPLocation data,
        ra.checkProxyFeatures data, ra.checkHistoricalRisksEnhanced env data,
        ra.checkNonMainlandChina data, ra.checkDataCenterIP data] := by
  unfold RiskAnalyzer.contributions
  rw [ruleScores_values]
  have h2 := (@checkOperationTimeEnhanced_congr ra (ra.withAccess data) rfl rfl rfl env data).1
  have h3 := (@checkHighIPSwitching_congr ra (ra.withAccess data) rfl env (fingerprintOf data)).1
  rw [h2, h3]
  rfl

theorem contributions_nonneg (ra : RiskAnalyzer) (env : Env) (data : PacketData)
    (h : ra.riskScoresNonneg) : ∀ s ∈ ra.contributions env data, 0 ≤ s := by
  rw [contributions_eq]
  intro s hs
  simp only [List.mem_cons, List.mem_singleton, List.not_mem_nil, or_false] at hs
  rcases hs with rfl | rfl | rfl | rfl | rfl | rfl | rfl | rfl
  · exact checkDataDownloadVolumeFromHistory_nonneg _ env _
  · exact checkOperationTimeEnhanced_nonneg ra env data
  · exact checkHighIPSwitching_nonneg ra env _
  · exact checkLoginIPLocation_nonneg ra data
  · exact checkProxyFeatures_nonneg ra data
  · exact checkHistoricalRisksEnhanced_nonneg ra env data h
  · exact checkNonMainlandChina_nonneg ra data
  · exact checkDataCenterIP_nonneg ra data

theorem aggregateScore_nonneg (ra : RiskAnalyzer) (env : Env) (data : PacketData)
    (h : ra.riskScoresNonneg) : 0 ≤ ra.aggregateScore env data :=
  List.sum_nonneg (contributions_nonneg ra env data h)

/-- A pass keeps every stored score non-negative. -/
theorem ProcessPacket_riskScoresNonneg (ra : RiskAnalyzer) (env : Env) (data : PacketData)
    (h : ra.riskScoresNonneg) : (ra.ProcessPacket env data).riskScoresNonneg := by
  cases hwl : ra.whitelist.ContainsIP data.ClientIP with
  | true =>
    unfold RiskAnalyzer.ProcessPacket
    rw [if_pos hwl]
    exact h
  | false =>
    intro ip events hev e he
    have hp := ProcessPacket_ipRiskHistory ra env data hwl ip
    rw [hev, Option.getD_some] at hp
    rw [hp] at he
    have hmem := (List.mem_filter.1 he).1
    rcases List.mem_append.1 hmem with hold | hnew
    · cases hh : ra.ipRiskHistory ip with
      | none =>
        rw [hh] at hold
        exact absurd hold (List.not_mem_nil e)
      | some old =>
        rw [hh] at hold
        exact h ip old hh e hold
    · split_ifs at hnew
      · rw [List.mem_singleton.1 hnew]
        exact aggregateScore_nonneg ra env data h
      · exact absurd hnew (List.not_mem_nil e)

theorem Reachable.riskScoresNonneg {ra : RiskAnalyzer} (h : Reachable ra) :
    ra.riskScoresNonneg := by
  induction h with
  | init storage geoIP asnDB webhookURL whitelistIPs env =>
    intro ip events hev
    exact absurd hev (by simp [NewRiskAnalyzer])
  | step env data _ ih => exact ProcessPacket_riskScoresNonneg _ env data ih

/-- C16: on every engine reachable from a freshly built one, each of the eight rules returns
a non-negative value, the aggregate score of an event is the sum of all eight contributions
(each rule is evaluated whatever the running total is) and is non-negative, and the pass on
an event that is not whitelisted stores that sum as the score of the recorded `RiskEvent`;
every score stored in the risk history is non-negative, before the pass and after it. -/
theorem C16_aggregate_is_nonnegative_sum (ra : RiskAnalyzer) (hreach : Reachable ra) (env : Env)
    (data : PacketData) :
    ra.contributions env data =
      [(ra.withAccess data).checkDataDownloadVolumeFromHistory env (fingerprintOf data),
        (ra.checkOperationTimeEnhanced env data).2,
        (ra.checkHighIPSwitching env (fingerprintOf data)).2, ra.checkLoginIPLocation data,
        ra.checkProxyFeatures data, ra.checkHistoricalRisksEnhanced env data,
        ra.checkNonMainlandChina data, ra.checkDataCenterIP data] ∧
    (∀ s ∈ ra.contributions env data, 0 ≤ s) ∧
    ra.aggregateScore env data = (ra.contributions env data).sum ∧
    0 ≤ ra.aggregateScore env data ∧
    (ra.recordedEvent env data).RiskScore = ra.aggregateScore env data ∧
    (ra.whitelist.ContainsIP data.ClientIP = false →
      ((ra.ProcessPacket env data).ipRiskHistory data.ClientIP).getD [] =
        ((ra.ipRiskHistory data.ClientIP).getD [] ++ [ra.recordedEvent env data]).filter
          (fun e => keptAt env e.Timestamp)) ∧
    ra.riskScoresNonneg ∧ (ra.ProcessPacket env data).riskScoresNonneg := by
  have hn := hreach.riskScoresNonneg
  refine ⟨contributions_eq ra env data, contributions_nonneg ra env data hn, rfl,
    aggregateScore_nonneg ra env data hn, rfl, ?_, hn,
    ProcessPacket_riskScoresNonneg ra env data hn⟩
  intro hwl
  rw [ProcessPacket_ipRiskHistory ra env data hwl, if_pos rfl]

/-- C16 at a concrete input: the engine after one pass is reachable, the score of a second
event is non-negative and so is every stored score. -/
theorem C16_aggregate_is_nonnegative_sum_witness :
    Reachable (sampleAnalyzer.ProcessPacket (sampleEnv 5 false) sampleEvent) ∧
    0 ≤ (sampleAnalyzer.ProcessPacket (sampleEnv 5 false) sampleEvent).aggregateScore
      (sampleEnv 6 false) sampleEvent ∧
    (sampleAnalyzer.ProcessPacket (sampleEnv 5 false) sampleEvent).riskScoresNonneg :=
  have hr : Reachable (sampleAnalyzer.ProcessPacket (sampleEnv 5 false) sampleEvent) :=
    Reachable.step (sampleEnv 5 false) sampleEvent
      (Reachable.init emptyStorage none none "http://hook" ["10.0.0.5"] (sampleEnv 0 false))
  have h := C16_aggregate_is_nonnegative_sum _ hr (sampleEnv 6 false) sampleEvent
  ⟨hr, h.2.2.2.1, h.2.2.2.2.2.2.1⟩

/-! ### The access history through a sequence of passes -/

theorem run_append (ra : RiskAnalyzer) (front back : List (Env × PacketData)) :
    ra.run (front ++ back) = (ra.run front).run back := by
  induction front generalizing ra with
  | nil => rfl
  | cons s rest ih => exact ih (ra.ProcessPacket s.1 s.2)

theorem run_whitelist (ra : RiskAnalyzer) (steps : List (Env × PacketData)) :
    (ra.run steps).whitelist = ra.whitelist := by
  induction steps generalizing ra with
  | nil => rfl
  | cons s rest ih => exact (ih (ra.ProcessPacket s.1 s.2)).trans (ProcessPacket_whitelist ra s.1 s.2)

theorem keptThrough_cons (s : Env × PacketData) (rest : List (Env × PacketData)) (t : GoTime) :
    keptThrough (s :: rest) t = (keptAt s.1 t && keptThrough rest t) := rfl

/-- The access history of a fingerprint after a sequence of passes on events that are not
whitelisted: what is left of the history before, then the retained events of the sequence. -/
theorem run_historyOf (fp : UserFingerprint) (steps : List (Env × PacketData)) :
    ∀ ra : RiskAnalyzer, (∀ s ∈ steps, ra.whitelist.ContainsIP s.2.ClientIP = false) →
      (ra.run steps).historyOf fp =
        (ra.historyOf fp).filter (fun d => keptThrough steps d.Timestamp) ++ retained fp steps := by
  induction steps with
  | nil =>
    intro ra _
    show ra.historyOf fp = (ra.historyOf fp).filter (fun _ => true) ++ []
    rw [List.filter_true, List.append_nil]
  | cons s rest ih =>
    intro ra hwl
    have hs : ra.whitelist.ContainsIP s.2.ClientIP = false := hwl s (List.mem_cons_self _ _)
    have hrest : ∀ s' ∈ rest,
        (ra.ProcessPacket s.1 s.2).whitelist.ContainsIP s'.2.ClientIP = false := by
      intro s' hs'
      rw [ProcessPacket_whitelist]
      exact hwl s' (List.mem_cons_of_mem _ hs')
    show ((ra.ProcessPacket s.1 s.2).run rest).historyOf fp = _
    rw [ih _ hrest, ProcessPacket_historyOf ra s.1 s.2 hs, List.filter_filter, List.filter_append,
      List.append_assoc]
    have hf : (fun d : PacketData => (keptThrough rest d.Timestamp && keptAt s.1 d.Timestamp))
        = (fun d => keptThrough (s :: rest) d.Timestamp) := by
      funext d
      rw [keptThrough_cons, Bool.and_comm]
    rw [hf]
    congr 1
    show _ = (if fingerprintOf s.2 = fp ∧ keptThrough (s :: rest) s.2.Timestamp = true
      then [s.2] else []) ++ retained fp rest
    congr 1
    by_cases h1 : fingerprintOf s.2 = fp
    · by_cases h2 : keptThrough (s :: rest) s.2.Timestamp = true
      · rw [if_pos h1, if_pos ⟨h1, h2⟩, List.filter_cons, if_pos h2]
        rfl
      · rw [if_pos h1, if_neg (fun h => h2 h.2), List.filter_cons, if_neg h2]
        rfl
    · rw [if_neg h1, if_neg (fun h => h1 h.1)]
      rfl

/-- No sequence of passes leaves an empty sequence in the access history. -/
theorem run_no_empty_entry (steps : List (Env × PacketData)) :
    ∀ ra : RiskAnalyzer, (∀ fp, ra.userAccessHistory fp ≠ some []) →
      (∀ s ∈ steps, ra.whitelist.ContainsIP s.2.ClientIP = false) →
      ∀ fp, (ra.run steps).userAccessHistory fp ≠ some [] := by
  induction steps with
  | nil =>
    intro ra h _
    exact h
  | cons s rest ih =>
    intro ra _ hwl
    have hs : ra.whitelist.ContainsIP s.2.ClientIP = false := hwl s (List.mem_cons_self _ _)
    apply ih (ra.ProcessPacket s.1 s.2)
    · intro fp
      rw [ProcessPacket_userAccessHistory ra s.1 s.2 hs]
      split_ifs with h
      · exact fun e => Option.noConfusion e
      · exact fun e => h (Option.some.inj e)
    · intro s' hs'
      rw [ProcessPacket_whitelist]
      exact hwl s' (List.mem_cons_of_mem _ hs')

theorem retained_fingerprint (fp : UserFingerprint) (steps : List (Env × PacketData)) :
    ∀ d ∈ retained fp steps, fingerprintOf d = fp := by
  induction steps with
  | nil =>
    intro d hd
    exact absurd hd (List.not_mem_nil d)
  | cons s rest ih =>
    intro d hd
    unfold retained at hd
    rcases List.mem_append.1 hd with h | h
    · split_ifs at h with hc
      · rw [List.mem_singleton.1 h]
        exact hc.1
      · exact absurd h (List.not_mem_nil d)
    · exact ih d h

theorem retained_sublist (fp : UserFingerprint) (steps : List (Env × PacketData)) :
    (retained fp steps).Sublist
      ((steps.map (fun s => s.2)).filter (fun d => decide (fingerprintOf d = fp))) := by
  induction steps with
  | nil => exact List.Sublist.refl _
  | cons s rest ih =>
    unfold retained
    rw [List.map_cons, List.filter_cons]
    by_cases h1 : fingerprintOf s.2 = fp
    · rw [if_pos (decide_eq_true h1)]
      split_ifs
      · exact List.Sublist.cons₂ _ ih
      · exact List.Sublist.cons _ ih
    · rw [if_neg (fun h => h1 (of_decide_eq_true h)), if_neg (fun h => h1 h.1)]
      exact ih

theorem retained_all (fp : UserFingerprint) (steps : List (Env × PacketData))
    (h : ∀ s ∈ steps, ∀ s' ∈ steps, keptAt s'.1 s.2.Timestamp = true) :
    retained fp steps =
      (steps.map (fun s => s.2)).filter (fun d => decide (fingerprintOf d = fp)) := by
  induction steps with
  | nil => rfl
  | cons s rest ih =>
    have hk : keptThrough (s :: rest) s.2.Timestamp = true := by
      unfold keptThrough
      rw [List.all_eq_true]
      intro s' hs'
      exact h s (List.mem_cons_self _ _) s' hs'
    have ih' := ih (fun a ha b hb => h a (List.mem_cons_of_mem _ ha) b (List.mem_cons_of_mem _ hb))
    unfold retained
    rw [List.map_cons, List.filter_cons, ih']
    by_cases h1 : fingerprintOf s.2 = fp
    · rw [if_pos (decide_eq_true h1), if_pos ⟨h1, hk⟩]
      rfl
    · rw [if_neg (fun h => h1 (of_decide_eq_true h)), if_neg (fun h => h1 h.1)]
      rfl

/-- C17 as stated fails: an event stamped two hours before the pass that processes it is not
in the history of its fingerprint once the pass completes. -/
theorem C17_old_event_is_not_recorded :
    sampleAnalyzer.whitelist.ContainsIP sampleEvent.ClientIP = false ∧
    fingerprintOf sampleEvent = sampleFingerprint ∧
    (∀ fp, sampleAnalyzer.userAccessHistory fp = none) ∧
    (sampleAnalyzer.run [(sampleEnv (2 * Hour) false, sampleEvent)]).userAccessHistory
      sampleFingerprint = none := by
  refine ⟨by decide, by decide, fun _ => rfl, ?_⟩
  decide!

/-- C17 (amended): starting from an engine with an empty access history, after every sequence
of passes on events that are not whitelisted, the access history of a fingerprint holds
exactly the processed events of that tuple whose timestamp was strictly after `now` minus one
hour at their own pass and at every later pass, in arrival order, and no entry at all when
none is left; it holds no event of another tuple; when every event is within one hour of
every pass it is exactly the processed events of the tuple; and an event processed next is in
the history of its fingerprint once its pass completes exactly when its timestamp is
strictly after `now` minus one hour. -/
theorem C17_access_history_after_run (ra : RiskAnalyzer)
    (hempty : ∀ fp, ra.userAccessHistory fp = none) (steps : List (Env × PacketData))
    (hwl : ∀ s ∈ steps, ra.whitelist.ContainsIP s.2.ClientIP = false) (fp : UserFingerprint) :
    (ra.run steps).userAccessHistory fp
      = (if retained fp steps = [] then none else some (retained fp steps)) ∧
    (∀ d ∈ (ra.run steps).historyOf fp, fingerprintOf d = fp) ∧
    (retained fp steps).Sublist
      ((steps.map (fun s => s.2)).filter (fun d => decide (fingerprintOf d = fp))) ∧
    ((∀ s ∈ steps, ∀ s' ∈ steps, keptAt s'.1 s.2.Timestamp = true) →
      (ra.run steps).historyOf fp =
        (steps.map (fun s => s.2)).filter (fun d => decide (fingerprintOf d = fp))) ∧
    (∀ (env : Env) (data : PacketData), ra.whitelist.ContainsIP data.ClientIP = false →
      (data ∈ ((ra.run steps).ProcessPacket env data).historyOf (fingerprintOf data) ↔
        keptAt env data.Timestamp = true)) := by
  have hh : (ra.run steps).historyOf fp = retained fp steps := by
    rw [run_historyOf fp steps ra hwl]
    unfold RiskAnalyzer.historyOf
    rw [hempty fp]
    rfl
  have hne := run_no_empty_entry steps ra (fun fp' => by rw [hempty fp']; exact fun e => Option.noConfusion e) hwl fp
  refine ⟨?_, ?_, retained_sublist fp steps, ?_, ?_⟩
  · unfold RiskAnalyzer.historyOf at hh
    cases hu : (ra.run steps).userAccessHistory fp with
    | none =>
      rw [hu] at hh
      rw [← hh]
      rfl
    | some l =>
      rw [hu, Option.getD_some] at hh
      rw [← hh]
      have : l ≠ [] := fun e => hne (by rw [hu, e])
      rw [if_neg this]
  · rw [hh]
    exact retained_fingerprint fp steps
  · intro hall
    rw [hh]
    exact retained_all fp steps hall
  · intro env data hd
    have hd' : (ra.run steps).whitelist.ContainsIP data.ClientIP = false := by
      rw [run_whitelist]
      exact hd
    rw [ProcessPacket_historyOf _ env data hd', if_pos rfl, List.mem_filter]
    constructor
    · exact fun h => h.2
    · exact fun h => ⟨List.mem_append_right _ (List.mem_singleton_self _), h⟩

/-- C17 at a concrete input: two events of one fingerprint, five and six nanoseconds old at
their passes, are both in its history, in arrival order. -/
theorem C17_access_history_after_run_witness :
    (sampleAnalyzer.run
      [(sampleEnv 5 false, sampleEvent), (sampleEnv 6 false, eventOfSize 3)]).userAccessHistory
        sampleFingerprint = some [sampleEvent, eventOfSize 3] :=
  (C17_access_history_after_run sampleAnalyzer (fun _ => rfl)
    [(sampleEnv 5 false, sampleEvent), (sampleEnv 6 false, eventOfSize 3)]
    (by decide) sampleFingerprint).1.trans (by decide)

/-! ### The second and third evaluation of the battery -/

/-- Once the operation-time rule has run, every engine holding the baseline cache it left
gives the same value again and leaves the cache as it is. -/
theorem checkOperationTimeEnhanced_again (ra y : RiskAnalyzer) (env : Env) (data : PacketData)
    (h1 : y.sensitiveDataAvg = (ra.checkOperationTimeEnhanced env data).1.sensitiveDataAvg)
    (h2 : y.sensitiveDataExpiry = (ra.checkOperationTimeEnhanced env data).1.sensitiveDataExpiry) :
    (y.checkOperationTimeEnhanced env data).2 = (ra.checkOperationTimeEnhanced env data).2 ∧
    (y.checkOperationTimeEnhanced env data).1.sensitiveDataAvg = y.sensitiveDataAvg ∧
    (y.checkOperationTimeEnhanced env data).1.sensitiveDataExpiry = y.sensitiveDataExpiry := by
  rw [checkOperationTimeEnhanced_snd y, checkOperationTimeEnhanced_snd ra,
    checkOperationTimeEnhanced_fst y]
  rw [checkOperationTimeEnhanced_fst ra] at h1 h2
  by_cases hg : data.HeaderCookie ≠ "" ∧ isSensitiveDataAccess data = true
  · rw [if_pos hg] at h1 h2
    have hlive := (baselineLive_congr h1 h2 env.now data.HeaderCookie _).2
      (getSensitiveDataAvg_then_live ra env data.HeaderCookie)
    rw [if_pos hg, if_pos hg, if_pos hg, getSensitiveDataAvg_live y env _ _ hlive]
    exact ⟨rfl, rfl, rfl⟩
  · rw [if_neg hg, if_neg hg, if_neg hg]
    exact ⟨rfl, rfl, rfl⟩

/-- Once the address-switching rule has run, every engine holding the cookie-address history
it left gives the same value again and leaves the history as it is. -/
theorem checkHighIPSwitching_again (ra y : RiskAnalyzer) (env : Env) (fp : UserFingerprint)
    (h : y.cookieIPHistory = (ra.checkHighIPSwitching env fp).1.cookieIPHistory) :
    (y.checkHighIPSwitching env fp).2 = (ra.checkHighIPSwitching env fp).2 ∧
    (y.checkHighIPSwitching env fp).1.cookieIPHistory = y.cookieIPHistory := by
  by_cases hg : fp.Cookie = "" ∨ fp.IP = ""
  · unfold RiskAnalyzer.checkHighIPSwitching
    rw [if_pos hg, if_pos hg]
    exact ⟨rfl, rfl⟩
  · have hc : fp.Cookie ≠ "" := fun e => hg (Or.inl e)
    have hi : fp.IP ≠ "" := fun e => hg (Or.inr e)
    rw [checkHighIPSwitching_eq ra env fp hc hi] at h
    dsimp only at h
    have hy : (y.cookieIPHistory fp.Cookie).getD ∅
        = ((ra.cookieIPHistory fp.Cookie).getD ∅).insert fp.IP env.now := by
      rw [h]
      dsimp only
      rw [if_pos rfl]
      rfl
    rw [checkHighIPSwitching_eq y env fp hc hi, checkHighIPSwitching_eq ra env fp hc hi]
    dsimp only
    rw [hy, ← uniqueIPs_length, ← uniqueIPs_length, AList.insert_insert]
    refine ⟨rfl, ?_⟩
    funext c
    by_cases hcc : c = fp.Cookie
    · rw [if_pos hcc, h]
      dsimp only
      rw [if_pos hcc]
    · rw [if_neg hcc]

/-- The engine after the battery has run once on the engine holding the event. -/
theorem ruleScores_state (ra : RiskAnalyzer) (env : Env) (data : PacketData)
    (fp : UserFingerprint) :
    (ra.ruleScores env data fp).1.sensitiveDataAvg
      = (ra.checkOperationTimeEnhanced env data).1.sensitiveDataAvg ∧
    (ra.ruleScores env data fp).1.sensitiveDataExpiry
      = (ra.checkOperationTimeEnhanced env data).1.sensitiveDataExpiry ∧
    (ra.ruleScores env data fp).1.cookieIPHistory
      = (ra.checkHighIPSwitching env fp).1.cookieIPHistory := by
  have hc := checkHighIPSwitching_cache (ra.checkOperationTimeEnhanced env data).1 env fp
  exact ⟨hc.1, hc.2, (checkHighIPSwitching_congr
    (checkOperationTimeEnhanced_cookieIPHistory ra env data) env fp).2⟩

/-- A further run of the battery on an engine that holds the caches the first run left:
the operation-time and address-switching values repeat and the caches stay. -/
theorem ruleScores_again (ra y : RiskAnalyzer) (env : Env) (data : PacketData)
    (fp : UserFingerprint)
    (h1 : y.sensitiveDataAvg = (ra.checkOperationTimeEnhanced env data).1.sensitiveDataAvg)
    (h2 : y.sensitiveDataExpiry = (ra.checkOperationTimeEnhanced env data).1.sensitiveDataExpiry)
    (h3 : y.cookieIPHistory = (ra.checkHighIPSwitching env fp).1.cookieIPHistory) :
    (y.ruleScores env data fp).2 =
      [y.checkDataDownloadVolumeFromHistory env fp, (ra.checkOperationTimeEnhanced env data).2,
        (ra.checkHighIPSwitching env fp).2, y.checkLoginIPLocation data,
        y.checkProxyFeatures data, y.checkHistoricalRisksEnhanced env data,
        y.checkNonMainlandChina data, y.checkDataCenterIP data] ∧
    (y.ruleScores env data fp).1.sensitiveDataAvg = y.sensitiveDataAvg ∧
    (y.ruleScores env data fp).1.sensitiveDataExpiry = y.sensitiveDataExpiry ∧
    (y.ruleScores env data fp).1.cookieIPHistory = y.cookieIPHistory := by
  have ho := checkOperationTimeEnhanced_again ra y env data h1 h2
  have hs := checkHighIPSwitching_again ra y env fp h3
  have hst := ruleScores_state y env data fp
  refine ⟨?_, hst.1.trans ho.2.1, hst.2.1.trans ho.2.2, hst.2.2.trans hs.2⟩
  rw [ruleScores_values, ho.1, hs.1]

/-- The caches at the three evaluations of a pass. -/
theorem pass_states (ra : RiskAnalyzer) (env : Env) (data : PacketData) :
    let y1 := ((ra.withAccess data).ruleScores env data (fingerprintOf data)).1
    (y1.sensitiveDataAvg = (ra.checkOperationTimeEnhanced env data).1.sensitiveDataAvg ∧
      y1.sensitiveDataExpiry = (ra.checkOperationTimeEnhanced env data).1.sensitiveDataExpiry ∧
      y1.cookieIPHistory = (ra.checkHighIPSwitching env (fingerprintOf data)).1.cookieIPHistory) ∧
    ((ra.atAlertDecision env data).sensitiveDataAvg
        = (ra.checkOperationTimeEnhanced env data).1.sensitiveDataAvg ∧
      (ra.atAlertDecision env data).sensitiveDataExpiry
        = (ra.checkOperationTimeEnhanced env data).1.sensitiveDataExpiry ∧
      (ra.atAlertDecision env data).cookieIPHistory
        = (ra.checkHighIPSwitching env (fingerprintOf data)).1.cookieIPHistory) := by
  intro y1
  have hst := ruleScores_state (ra.withAccess data) env data (fingerprintOf data)
  have ho := @checkOperationTimeEnhanced_congr ra (ra.withAccess data) rfl rfl rfl env data
  have hs := @checkHighIPSwitching_congr ra (ra.withAccess data) rfl env (fingerprintOf data)
  have hy1 : y1.sensitiveDataAvg = (ra.checkOperationTimeEnhanced env data).1.sensitiveDataAvg ∧
      y1.sensitiveDataExpiry = (ra.checkOperationTimeEnhanced env data).1.sensitiveDataExpiry ∧
      y1.cookieIPHistory = (ra.checkHighIPSwitching env (fingerprintOf data)).1.cookieIPHistory :=
    ⟨hst.1.trans ho.2.1, hst.2.1.trans ho.2.2, hst.2.2.trans hs.2⟩
  refine ⟨hy1, ?_⟩
  have h2 := ruleScores_again ra y1 env data (fingerprintOf data) hy1.1 hy1.2.1 hy1.2.2
  have hg := getAlertRules_eq y1 env data (ra.aggregateScore env data)
  have hfst : (y1.getAlertRules env data (ra.aggregateScore env data)).1
      = (y1.ruleScores env data (fingerprintOf data)).1 := by rw [hg]
  have e1 : (ra.atAlertDecision env data).sensitiveDataAvg
      = (y1.getAlertRules env data (ra.aggregateScore env data)).1.sensitiveDataAvg := rfl
  have e2 : (ra.atAlertDecision env data).sensitiveDataExpiry
      = (y1.getAlertRules env data (ra.aggregateScore env data)).1.sensitiveDataExpiry := rfl
  have e3 : (ra.atAlertDecision env data).cookieIPHistory
      = (y1.getAlertRules env data (ra.aggregateScore env data)).1.cookieIPHistory := rfl
  rw [e1, e2, e3, hfst]
  exact ⟨h2.2.1.trans hy1.1, h2.2.2.1.trans hy1.2.1, h2.2.2.2.trans hy1.2.2⟩

/-- The rule list stored in the `RiskEvent` names exactly the rules whose contribution to the
aggregate score of the event is positive, in the order of the battery. -/
theorem eventRules_eq (ra : RiskAnalyzer) (env : Env) (data : PacketData) :
    ra.eventRules env data = namesOfPositive (ra.contributions env data) := by
  have hp := (pass_states ra env data).1
  have h2 := (ruleScores_again ra _ env data (fingerprintOf data) hp.1 hp.2.1 hp.2.2).1
  have hc := ruleScores_sameCore (ra.withAccess data) env data (fingerprintOf data)
  unfold RiskAnalyzer.eventRules
  rw [getAlertRules_eq, h2, contributions_eq,
    checkDataDownloadVolumeFromHistory_congr hc.1, checkLoginIPLocation_congr hc.2.2.1,
    checkProxyFeatures_congr hc.2.2.2.1, checkHistoricalRisksEnhanced_congr hc.2.1,
    checkNonMainlandChina_congr hc.2.2.1, checkDataCenterIP_congr hc.2.2.2.1]
  rfl

/-- The rule list handed to the alerter names the rules with a positive value when the
battery is run on the engine that already holds the `RiskEvent` of the pass: seven values
are the contributions to the score, the historical-risk value is taken anew. -/
theorem alertRulesHanded_eq (ra : RiskAnalyzer) (env : Env) (data : PacketData) :
    ra.alertRulesHanded env data =
      namesOfPositive
        [(ra.withAccess data).checkDataDownloadVolumeFromHistory env (fingerprintOf data),
          (ra.checkOperationTimeEnhanced env data).2,
          (ra.checkHighIPSwitching env (fingerprintOf data)).2, ra.checkLoginIPLocation data,
          ra.checkProxyFeatures data,
          (ra.atAlertDecision env data).checkHistoricalRisksEnhanced env data,
          ra.checkNonMainlandChina data, ra.checkDataCenterIP data] := by
  have hp := (pass_states ra env data).2
  have h2 := (ruleScores_again ra _ env data (fingerprintOf data) hp.1 hp.2.1 hp.2.2).1
  have hc1 := ruleScores_sameCore (ra.withAccess data) env data (fingerprintOf data)
  have hc2 := getAlertRules_sameCore
    ((ra.withAccess data).ruleScores env data (fingerprintOf data)).1 env data
    (ra.aggregateScore env data)
  have hc := sameCore_trans hc1 hc2
  have hu : (ra.atAlertDecision env data).userAccessHistory
      = (ra.withAccess data).userAccessHistory := hc.1
  have hgeo : (ra.atAlertDecision env data).geoIP = ra.geoIP := hc.2.2.1
  have hasn : (ra.atAlertDecision env data).asnDB = ra.asnDB := hc.2.2.2.1
  unfold RiskAnalyzer.alertRulesHanded
  rw [getAlertRules_eq, h2, checkDataDownloadVolumeFromHistory_congr hu,
    checkLoginIPLocation_congr hgeo, checkProxyFeatures_congr hasn,
    checkNonMainlandChina_congr hgeo, checkDataCenterIP_congr hasn]

/-- The risk history read by the evaluation that feeds the alerter holds the event of the
pass. -/
theorem atAlertDecision_ipRiskHistory (ra : RiskAnalyzer) (env : Env) (data : PacketData) :
    (ra.atAlertDecision env data).ipRiskHistory data.ClientIP =
      some ((ra.ipRiskHistory data.ClientIP).getD [] ++ [ra.recordedEvent env data]) := by
  have hc1 := ruleScores_sameCore (ra.withAccess data) env data (fingerprintOf data)
  have hc2 := getAlertRules_sameCore
    ((ra.withAccess data).ruleScores env data (fingerprintOf data)).1 env data
    (ra.aggregateScore env data)
  have hr : (((ra.withAccess data).ruleScores env data (fingerprintOf data)).1.getAlertRules
      env data (ra.aggregateScore env data)).1.ipRiskHistory = ra.ipRiskHistory :=
    (sameCore_trans hc1 hc2).2.1
  show (if data.ClientIP = data.ClientIP
      then some (((((ra.withAccess data).ruleScores env data
        (fingerprintOf data)).1.getAlertRules env data
        (ra.aggregateScore env data)).1.ipRiskHistory data.ClientIP).getD [] ++
          [ra.recordedEvent env data])
      else _) = _
  rw [if_pos rfl, hr]

/-- C14 fails on the list handed to the alerter: for the first event of an address of the
United States, stamped at midnight, the contributions are 3 for the operation time and 8 for
the address outside mainland China and 0 for the other six rules; the `RiskEvent` lists
these two rules, but the alert that is stored lists "历史高风险" as well, although the
historical-risk rule contributed 0 to the score of the event. -/
theorem C14_alert_names_a_rule_that_contributed_nothing :
    analyzerWithGeo.whitelist.ContainsIP (eventFrom "3.3.3.3").ClientIP = false ∧
    analyzerWithGeo.contributions (sampleEnv 5 false) (eventFrom "3.3.3.3")
      = [0, 3, 0, 0, 0, 0, 8, 0] ∧
    analyzerWithGeo.eventRules (sampleEnv 5 false) (eventFrom "3.3.3.3")
      = ["非常规操作时间", "非中国大陆IP"] ∧
    analyzerWithGeo.alertRulesHanded (sampleEnv 5 false) (eventFrom "3.3.3.3")
      = ["非常规操作时间", "历史高风险", "非中国大陆IP"] ∧
    ((analyzerWithGeo.ProcessPacket (sampleEnv 5 false) (eventFrom "3.3.3.3")).storage.alert_events.map
      (fun row => row.rules)) = [["非常规操作时间", "历史高风险", "非中国大陆IP"]] := by
  refine ⟨by decide, ?_, ?_, ?_, ?_⟩
  · decide!
  · decide!
  · decide!
  · decide!

/-! ### The first event of a fresh engine -/

theorem NewWhitelist_nil_ContainsIP (ipStr : String) :
    (NewWhitelist []).ContainsIP ipStr = false := rfl

/-- Built over an empty alert table the alerter has no cooldown entry. -/
theorem NewAlerter_alertHistory (storage : Storage) (webhookURL : String) (env : Env)
    (hrows : storage.alert_events = []) :
    (NewAlerter storage webhookURL env).alertHistory = (fun _ => none) ∧
    (NewAlerter storage webhookURL env).storage = storage := by
  unfold NewAlerter Alerter.loadRecentAlerts
  dsimp only
  split_ifs
  · exact ⟨rfl, rfl⟩
  · refine ⟨?_, rfl⟩
    dsimp only
    unfold recentAlertRows
    rw [hrows]
    rfl

/-- The first event of a fingerprint within ten minutes with a body of 11 MiB. -/
theorem checkDataDownloadVolumeFromHistory_first (ra : RiskAnalyzer) (env : Env)
    (data : PacketData) (hacc : ra.userAccessHistory (fingerprintOf data) = none)
    (hrecent : env.now.unixNano - data.Timestamp.unixNano ≤ 10 * Minute)
    (hbody : strLen data.Content = 11 * 1024 * 1024) :
    (ra.withAccess data).checkDataDownloadVolumeFromHistory env (fingerprintOf data) = 4 := by
  have hh : ((ra.withAccess data).userAccessHistory (fingerprintOf data)).getD [] = [data] := by
    unfold RiskAnalyzer.withAccess
    dsimp only
    rw [if_pos rfl, hacc]
    rfl
  rw [checkDataDownloadVolumeFromHistory_eq, hh]
  apply if_pos
  left
  rw [windowBytes_cons, windowBytes_nil, if_pos hrecent, hbody]
  norm_num

theorem checkOperationTimeEnhanced_night (ra : RiskAnalyzer) (env : Env) (data : PacketData)
    (hnight : isNightTime data.Timestamp) :
    (ra.checkOperationTimeEnhanced env data).2 = 3 ∨
      (ra.checkOperationTimeEnhanced env data).2 = 6 := by
  have h3 : offHoursScore data.Timestamp = 3 := by
    unfold offHoursScore
    rw [if_pos hnight]
  rw [checkOperationTimeEnhanced_snd, h3]
  split_ifs
  all_goals first | exact Or.inl rfl | exact Or.inr rfl

/-- A cookie not seen before has one recent address: the rule gives 0. -/
theorem checkHighIPSwitching_first (ra : RiskAnalyzer) (env : Env) (fp : UserFingerprint)
    (hcook : ra.cookieIPHistory fp.Cookie = none) : (ra.checkHighIPSwitching env fp).2 = 0 := by
  by_cases hg : fp.Cookie = "" ∨ fp.IP = ""
  · unfold RiskAnalyzer.checkHighIPSwitching
    rw [if_pos hg]
  · have hc : fp.Cookie ≠ "" := fun e => hg (Or.inl e)
    have hi : fp.IP ≠ "" := fun e => hg (Or.inr e)
    rw [checkHighIPSwitching_eq ra env fp hc hi, hcook]
    dsimp only
    apply if_neg
    have hcard : (recentAddresses (Option.getD none ∅) env.now fp.IP).card = 1 := by
      unfold recentAddresses
      simp
    rw [hcard]
    decide

theorem checkLoginIPLocation_highRisk (ra : RiskAnalyzer) (data : PacketData)
    (reader : CityReader) (ip : Xiaotianquan.IP) (city : City) (hgeo : ra.geoIP = some reader)
    (hip : ParseIP data.ClientIP = some ip) (hcity : reader ip = some city)
    (hcountry : city.CountryIsoCode ∈ ["RU", "KP", "IR"]) :
    ra.checkLoginIPLocation data = 2 := by
  unfold RiskAnalyzer.checkLoginIPLocation
  rw [hgeo]
  dsimp only
  rw [hip]
  dsimp only
  rw [hcity]
  dsimp only
  rw [if_pos hcountry]

theorem checkNonMainlandChina_highRisk (ra : RiskAnalyzer) (data : PacketData)
    (reader : CityReader) (ip : Xiaotianquan.IP) (city : City) (hgeo : ra.geoIP = some reader)
    (hip : ParseIP data.ClientIP = some ip) (hcity : reader ip = some city)
    (hcountry : city.CountryIsoCode ∈ ["RU", "KP", "IR"]) :
    ra.checkNonMainlandChina data = 8 := by
  have hne : city.CountryIsoCode ≠ "CN" := by
    intro e
    rw [e] at hcountry
    exact absurd hcountry (by decide)
  unfold RiskAnalyzer.checkNonMainlandChina
  rw [hgeo]
  dsimp only
  rw [hip]
  dsimp only
  rw [hcity]
  dsimp only
  rw [if_neg hne]

theorem checkDataCenterIP_of_proxy_zero (ra : RiskAnalyzer) (data : PacketData)
    (hproxy : ra.checkProxyFeatures data = 0) : ra.checkDataCenterIP data = 0 := by
  unfold RiskAnalyzer.checkProxyFeatures at hproxy
  split_ifs at hproxy
  · norm_num at hproxy
  · exact hproxy

theorem checkHistoricalRisksEnhanced_first (ra : RiskAnalyzer) (env : Env) (data : PacketData)
    (hrisk : ra.ipRiskHistory data.ClientIP = none) :
    ra.checkHistoricalRisksEnhanced env data = 0 := by
  rw [checkHistoricalRisksEnhanced_eq, hrisk]
  simp [recentRisks, weightedRisk]

/-- Once the event of the pass is in the risk history, the historical-risk rule is positive
whenever the score of the event is. -/
theorem historical_after_event_pos (ra : RiskAnalyzer) (env : Env) (data : PacketData)
    (hn : ∀ e ∈ (ra.ipRiskHistory data.ClientIP).getD [], 0 ≤ e.RiskScore)
    (hpos : 0 < ra.aggregateScore env data) :
    0 < (ra.atAlertDecision env data).checkHistoricalRisksEnhanced env data := by
  rw [checkHistoricalRisksEnhanced_eq, atAlertDecision_ipRiskHistory, Option.getD_some]
  have hrec : recentRisks env.now ((ra.ipRiskHistory data.ClientIP).getD [] ++
        [ra.recordedEvent env data])
      = recentRisks env.now ((ra.ipRiskHistory data.ClientIP).getD []) ++
        [ra.recordedEvent env data] := by
    unfold recentRisks
    rw [List.filter_append, List.filter_cons, if_pos, List.filter_nil]
    rw [decide_eq_true_eq]
    show env.now.unixNano - 24 * Hour < env.now.unixNano
    have : (0 : Int) < 24 * Hour := by decide
    linarith
  have hold : 0 ≤ weightedRisk (recentRisks env.now ((ra.ipRiskHistory data.ClientIP).getD [])) := by
    apply weightedRisk_nonneg
    intro e he
    exact hn e (List.mem_filter.1 he).1
  have hw : weightedRisk (recentRisks env.now ((ra.ipRiskHistory data.ClientIP).getD []) ++
        [ra.recordedEvent env data])
      = weightedRisk (recentRisks env.now ((ra.ipRiskHistory data.ClientIP).getD [])) +
        ra.aggregateScore env data * (1 / 10) := by
    unfold weightedRisk
    rw [List.map_append, List.sum_append, add_mul]
    simp [RiskAnalyzer.recordedEvent]
  rw [hrec, hw]
  have hb : (0 : ℚ) ≤ (if 3 ≤ (recentRisks env.now ((ra.ipRiskHistory data.ClientIP).getD []) ++
      [ra.recordedEvent env data]).length then 2 else 0) := by
    split_ifs <;> norm_num
  have hq : 0 < ra.aggregateScore env data * (1 / 10) := by
    apply mul_pos hpos
    norm_num
  linarith

/-- The alerter at the alert decision of a pass: the one before with the analysis result
saved. -/
theorem atAlertDecision_alerter (ra : RiskAnalyzer) (env : Env) (data : PacketData) :
    (ra.atAlertDecision env data).alerter =
      { ra.alerter with
        storage := (ra.alerter.storage.SaveAnalysisResult env data
          (ra.aggregateScore env data)).1 } := by
  have hc1 := ruleScores_sameCore (ra.withAccess data) env data (fingerprintOf data)
  have hc2 := getAlertRules_sameCore
    ((ra.withAccess data).ruleScores env data (fingerprintOf data)).1 env data
    (ra.aggregateScore env data)
  have ha : (((ra.withAccess data).ruleScores env data (fingerprintOf data)).1.getAlertRules
      env data (ra.aggregateScore env data)).1.alerter = ra.alerter :=
    (sameCore_trans hc1 hc2).2.2.2.2.2
  unfold RiskAnalyzer.atAlertDecision RiskAnalyzer.setStorage RiskAnalyzer.storage
  dsimp only
  rw [ha]

theorem SaveAnalysisResult_alert_events (s : Storage) (env : Env) (data : PacketData) (x : ℚ) :
    (s.SaveAnalysisResult env data x).1.alert_events = s.alert_events := by
  unfold Storage.SaveAnalysisResult
  split_ifs <;> rfl

/-- A pass whose score reaches 8, outside the cooldown and with the insert succeeding,
appends one alert row that carries the score and the list handed to the alerter. -/
theorem ProcessPacket_alert_stored (ra : RiskAnalyzer) (env : Env) (data : PacketData)
    (hwl : ra.whitelist.ContainsIP data.ClientIP = false)
    (hscore : 8 ≤ ra.aggregateScore env data) (hcool : ¬ ra.alerter.inCooldown env data)
    (hsave : env.saveAlertFails = false) :
    (ra.ProcessPacket env data).storage.alert_events =
      ra.storage.alert_events ++
        [alertRow env data (ra.aggregateScore env data) (ra.alertRulesHanded env data)] := by
  rw [ProcessPacket_eq ra env data hwl]
  show (ra.beforeCleanup env data).alerter.storage.alert_events = _
  unfold RiskAnalyzer.beforeCleanup
  rw [if_pos hscore]
  dsimp only
  have ha : ((ra.atAlertDecision env data).getAlertRules env data
      (ra.aggregateScore env data)).1.alerter = (ra.atAlertDecision env data).alerter :=
    (getAlertRules_sameCore (ra.atAlertDecision env data) env data _).2.2.2.2.2
  rw [ha, atAlertDecision_alerter]
  have hcool' : ¬ Alerter.inCooldown { ra.alerter with
      storage := (ra.alerter.storage.SaveAnalysisResult env data
        (ra.aggregateScore env data)).1 } env data := hcool
  cases hpost : env.postFails with
  | true =>
    rw [Alerter.TriggerAlert_undelivered _ env data _ _ hcool' hsave hpost]
    unfold Alerter.withAlert
    dsimp only
    rw [SaveAnalysisResult_alert_events]
    rfl
  | false =>
    rw [Alerter.TriggerAlert_delivered _ env data _ _ hcool' hsave hpost]
    unfold Alerter.withAlert
    dsimp only
    rw [SaveAnalysisResult_alert_events]
    rfl

/-- The first event of an engine that has seen neither its fingerprint, its address nor its
cookie, from a high-risk country, at night, within ten minutes, with a body of 11 MiB and no
sign of a proxy: the contributions and the list handed to the alerter. -/
theorem first_event_scores (ra : RiskAnalyzer) (env : Env) (data : PacketData)
    (reader : CityReader) (ip : Xiaotianquan.IP) (city : City)
    (hacc : ra.userAccessHistory (fingerprintOf data) = none)
    (hrisk : ra.ipRiskHistory data.ClientIP = none)
    (hcook : ra.cookieIPHistory data.HeaderCookie = none)
    (hgeo : ra.geoIP = some reader) (hip : ParseIP data.ClientIP = some ip)
    (hcity : reader ip = some city) (hcountry : city.CountryIsoCode ∈ ["RU", "KP", "IR"])
    (hnight : isNightTime data.Timestamp)
    (hrecent : env.now.unixNano - data.Timestamp.unixNano ≤ 10 * Minute)
    (hbody : strLen data.Content = 11 * 1024 * 1024)
    (hproxy : ra.checkProxyFeatures data = 0) :
    (ra.contributions env data = [4, 3, 0, 2, 0, 0, 8, 0] ∨
      ra.contributions env data = [4, 6, 0, 2, 0, 0, 8, 0]) ∧
    17 ≤ ra.aggregateScore env data ∧
    ra.alertRulesHanded env data =
      ["数据下载量异常", "非常规操作时间", "地理位置异常", "历史高风险", "非中国大陆IP"] := by
  have h1 := checkDataDownloadVolumeFromHistory_first ra env data hacc hrecent hbody
  have h2 := checkOperationTimeEnhanced_night ra env data hnight
  have h3 : (ra.checkHighIPSwitching env (fingerprintOf data)).2 = 0 :=
    checkHighIPSwitching_first ra env (fingerprintOf data) hcook
  have h4 := checkLoginIPLocation_highRisk ra data reader ip city hgeo hip hcity hcountry
  have h6 := checkHistoricalRisksEnhanced_first ra env data hrisk
  have h7 := checkNonMainlandChina_highRisk ra data reader ip city hgeo hip hcity hcountry
  have h8 := checkDataCenterIP_of_proxy_zero ra data hproxy
  have hc : ra.contributions env data
      = [4, (ra.checkOperationTimeEnhanced env data).2, 0, 2, 0, 0, 8, 0] := by
    rw [contributions_eq, h1, h3, h4, hproxy, h6, h7, h8]
  have hsum : ra.aggregateScore env data
      = 14 + (ra.checkOperationTimeEnhanced env data).2 := by
    unfold RiskAnalyzer.aggregateScore
    rw [hc]
    simp only [List.sum_cons, List.sum_nil]
    ring
  have hs2 : 0 < (ra.checkOperationTimeEnhanced env data).2 := by
    rcases h2 with h | h <;> rw [h] <;> norm_num
  have hpos : 0 < ra.aggregateScore env data := by
    rw [hsum]
    linarith
  have h6' := historical_after_event_pos ra env data
    (by rw [hrisk]; exact fun e he => absurd he (List.not_mem_nil e)) hpos
  refine ⟨?_, ?_, ?_⟩
  · rcases h2 with h | h
    · exact Or.inl (by rw [hc, h])
    · exact Or.inr (by rw [hc, h])
  · rw [hsum]
    rcases h2 with h | h <;> rw [h] <;> norm_num
  · rw [alertRulesHanded_eq, namesOfPositive_eight, h1, h3, h4, hproxy, h7, h8,
      if_pos hs2, if_pos h6']
    simp

/-- The pass of a freshly built engine over an empty alert table on its first event, as in
`first_event_scores`: the score is at least 17 and one alert row is stored. -/
theorem fresh_engine_first_event (storage : Storage) (reader : CityReader)
    (asnDB : Option ASNReader) (webhookURL : String) (env0 env : Env) (data : PacketData)
    (ip : Xiaotianquan.IP) (city : City) (hrows : storage.alert_events = [])
    (hip : ParseIP data.ClientIP = some ip) (hcity : reader ip = some city)
    (hcountry : city.CountryIsoCode ∈ ["RU", "KP", "IR"]) (hnight : isNightTime data.Timestamp)
    (hrecent : env.now.unixNano - data.Timestamp.unixNano ≤ 10 * Minute)
    (hbody : strLen data.Content = 11 * 1024 * 1024)
    (hproxy : (NewRiskAnalyzer storage (some reader) asnDB webhookURL [] env0).checkProxyFeatures
      data = 0)
    (hsave : env.saveAlertFails = false) :
    17 ≤ (NewRiskAnalyzer storage (some reader) asnDB webhookURL [] env0).aggregateScore env data ∧
    (NewRiskAnalyzer storage (some reader) asnDB webhookURL [] env0).alertRulesHanded env data =
      ["数据下载量异常", "非常规操作时间", "地理位置异常", "历史高风险", "非中国大陆IP"] ∧
    ((NewRiskAnalyzer storage (some reader) asnDB webhookURL [] env0).ProcessPacket env
        data).storage.alert_events =
      [alertRow env data
        ((NewRiskAnalyzer storage (some reader) asnDB webhookURL [] env0).aggregateScore env data)
        ((NewRiskAnalyzer storage (some reader) asnDB webhookURL [] env0).alertRulesHanded env
          data)] := by
  have hA := NewAlerter_alertHistory storage webhookURL env0 hrows
  have hs := first_event_scores (NewRiskAnalyzer storage (some reader) asnDB webhookURL [] env0)
    env data reader ip city rfl rfl rfl rfl hip hcity hcountry hnight hrecent hbody hproxy
  have hcool : ¬ (NewRiskAnalyzer storage (some reader) asnDB webhookURL [] env0).alerter.inCooldown
      env data := by
    rintro ⟨last, hl, _⟩
    have hl' : (NewAlerter storage webhookURL env0).alertHistory (generateUserFingerprint data)
        = some last := hl
    rw [hA.1] at hl'
    exact Option.noConfusion hl'
  have hst := ProcessPacket_alert_stored
    (NewRiskAnalyzer storage (some reader) asnDB webhookURL [] env0) env data
    (NewWhitelist_nil_ContainsIP _) (by linarith [hs.2.1]) hcool hsave
  have h0 : (NewRiskAnalyzer storage (some reader) asnDB webhookURL [] env0).storage.alert_events
      = [] := by
    show (NewAlerter storage webhookURL env0).storage.alert_events = []
    rw [hA.2, hrows]
  rw [h0, List.nil_append] at hst
  exact ⟨hs.2.1, hs.2.2, hst⟩

/-- C15 as stated fails: the freshly built engine, on one event from an address of Russia
stamped at midnight, five nanoseconds old, with a body of 11 MiB, stores one alert whose
rule list has five names, "非中国大陆IP" among them, and not the three names stated. -/
theorem C15_alert_lists_the_non_mainland_rule_too :
    ((freshAnalyzer.ProcessPacket (sampleEnv 5 false) nightDownload).storage.alert_events.map
      (fun row => row.rules)) =
      [["数据下载量异常", "非常规操作时间", "地理位置异常", "历史高风险", "非中国大陆IP"]] ∧
    ((freshAnalyzer.ProcessPacket (sampleEnv 5 false) nightDownload).storage.alert_events.map
      (fun row => row.rules)) ≠ [["数据下载量异常", "非常规操作时间", "地理位置异常"]] := by
  have h := fresh_engine_first_event emptyStorage highRiskCityReader none "http://hook"
    (sampleEnv 0 false) (sampleEnv 5 false) nightDownload (v4InV6Prefix ++ [5, 5, 5, 5])
    ⟨"RU", []⟩ rfl (by decide) (by decide) (by decide) (by decide) (by decide)
    (strLen_bodyOfSize _) (by decide!) rfl
  have hl : ((freshAnalyzer.ProcessPacket (sampleEnv 5 false) nightDownload).storage.alert_events.map
      (fun row => row.rules)) =
      [["数据下载量异常", "非常规操作时间", "地理位置异常", "历史高风险", "非中国大陆IP"]] := by
    unfold freshAnalyzer
    rw [h.2.2, h.2.1]
    rfl
  refine ⟨hl, ?_⟩
  rw [hl]
  decide

/-- C15 (amended): a freshly built engine with an empty whitelist over an empty alert table
processes one event whose address the city database resolves to RU, KP or IR, stamped at
night and at most ten minutes old, with a body of 11 MiB and no sign of a proxy or a
data-center network, while the alert insert succeeds.  The aggregate score is at least 9
(at least 17: 4 + 3 + 2 + 8), exactly one alert row is stored, it carries that score, and its
rule list, the entry "历史高风险" set aside, is exactly "数据下载量异常", "非常规操作时间",
"地理位置异常", "非中国大陆IP". -/
theorem C15_first_night_download_alert (storage : Storage) (reader : CityReader)
    (asnDB : Option ASNReader) (webhookURL : String) (env0 env : Env) (data : PacketData)
    (ip : Xiaotianquan.IP) (city : City) (hrows : storage.alert_events = [])
    (hip : ParseIP data.ClientIP = some ip) (hcity : reader ip = some city)
    (hcountry : city.CountryIsoCode ∈ ["RU", "KP", "IR"]) (hnight : isNightTime data.Timestamp)
    (hrecent : env.now.unixNano - data.Timestamp.unixNano ≤ 10 * Minute)
    (hbody : strLen data.Content = 11 * 1024 * 1024)
    (hproxy : (NewRiskAnalyzer storage (some reader) asnDB webhookURL [] env0).checkProxyFeatures
      data = 0)
    (hsave : env.saveAlertFails = false) :
    9 ≤ (NewRiskAnalyzer storage (some reader) asnDB webhookURL [] env0).aggregateScore env data ∧
    17 ≤ (NewRiskAnalyzer storage (some reader) asnDB webhookURL [] env0).aggregateScore env data ∧
    (∃ row, ((NewRiskAnalyzer storage (some reader) asnDB webhookURL [] env0).ProcessPacket env
        data).storage.alert_events = [row] ∧
      row.risk_score
        = (NewRiskAnalyzer storage (some reader) asnDB webhookURL [] env0).aggregateScore env data ∧
      row.rules.filter (fun r => decide (r ≠ "历史高风险")) =
        ["数据下载量异常", "非常规操作时间", "地理位置异常", "非中国大陆IP"]) := by
  have h := fresh_engine_first_event storage reader asnDB webhookURL env0 env data ip city hrows
    hip hcity hcountry hnight hrecent hbody hproxy hsave
  refine ⟨by linarith [h.1], h.1, _, h.2.2, rfl, ?_⟩
  show ((NewRiskAnalyzer storage (some reader) asnDB webhookURL [] env0).alertRulesHanded env
    data).filter (fun r => decide (r ≠ "历史高风险")) = _
  rw [h.2.1]
  decide

/-- C15 at a concrete input: the event `nightDownload` on the engine `freshAnalyzer`. -/
theorem C15_first_night_download_alert_witness :
    17 ≤ freshAnalyzer.aggregateScore (sampleEnv 5 false) nightDownload ∧
    ∃ row, (freshAnalyzer.ProcessPacket (sampleEnv 5 false) nightDownload).storage.alert_events
        = [row] ∧
      row.rules.filter (fun r => decide (r ≠ "历史高风险")) =
        ["数据下载量异常", "非常规操作时间", "地理位置异常", "非中国大陆IP"] :=
  have h := C15_first_night_download_alert emptyStorage highRiskCityReader none "http://hook"
    (sampleEnv 0 false) (sampleEnv 5 false) nightDownload (v4InV6Prefix ++ [5, 5, 5, 5])
    ⟨"RU", []⟩ rfl (by decide) (by decide) (by decide) (by decide) (by decide)
    (strLen_bodyOfSize _) (by decide!) rfl
  ⟨h.2.1, h.2.2.elim fun row hr => ⟨row, hr.1, hr.2.2⟩⟩

/-! ### The proxy rule and the data-center rule -/

theorem checkDataCenterIP_known (ra : RiskAnalyzer) (data : PacketData) (reader : ASNReader)
    (ip : Xiaotianquan.IP) (asn : Nat) (hdb : ra.asnDB = some reader)
    (hip : ParseIP data.ClientIP = some ip) (hasn : reader ip = some asn)
    (hmem : asn ∈ dataCenterASNs) : ra.checkDataCenterIP data = 1 := by
  unfold RiskAnalyzer.checkDataCenterIP
  rw [hdb]
  dsimp only
  rw [hip]
  dsimp only
  rw [hasn]
  dsimp only
  rw [if_pos hmem]

theorem mem_namesOfPositive_proxy (s1 s2 s3 s4 s5 s6 s7 s8 : ℚ) (h : 0 < s5) :
    "代理IP访问" ∈ namesOfPositive [s1, s2, s3, s4, s5, s6, s7, s8] := by
  rw [namesOfPositive_eight, if_pos h]
  simp

theorem mem_namesOfPositive_dataCenter (s1 s2 s3 s4 s5 s6 s7 s8 : ℚ) (h : 0 < s8) :
    "数据中心IP" ∈ namesOfPositive [s1, s2, s3, s4, s5, s6, s7, s8] := by
  rw [namesOfPositive_eight, if_pos h]
  simp

/-- C23: for every event, `checkProxyFeatures` returns 1.5 when the X-Forwarded-For value
is not empty and differs from the source address, and otherwise the value of
`checkDataCenterIP` for the event.  So for every event without a differing X-Forwarded-For
whose autonomous-system number is in the hosting-provider set, the proxy rule and the
data-center rule each contribute 1 to the aggregate score, 2 in total on top of the six
other rules, and both names are in the rule list of the `RiskEvent` and in the list handed
to the alerter. -/
theorem C23_checkProxyFeatures (ra : RiskAnalyzer) (env : Env) (data : PacketData) :
    (data.XForwardedFor ≠ "" ∧ data.XForwardedFor ≠ data.ClientIP →
      ra.checkProxyFeatures data = 3 / 2) ∧
    (¬ (data.XForwardedFor ≠ "" ∧ data.XForwardedFor ≠ data.ClientIP) →
      ra.checkProxyFeatures data = ra.checkDataCenterIP data) ∧
    (¬ (data.XForwardedFor ≠ "" ∧ data.XForwardedFor ≠ data.ClientIP) →
      ∀ (reader : ASNReader) (ip : Xiaotianquan.IP) (asn : Nat), ra.asnDB = some reader →
        ParseIP data.ClientIP = some ip → reader ip = some asn → asn ∈ dataCenterASNs →
        ra.checkProxyFeatures data = 1 ∧ ra.checkDataCenterIP data = 1 ∧
        (ra.contributions env data).get? 4 = some 1 ∧
        (ra.contributions env data).get? 7 = some 1 ∧
        ra.aggregateScore env data =
          (ra.withAccess data).checkDataDownloadVolumeFromHistory env (fingerprintOf data) +
            (ra.checkOperationTimeEnhanced env data).2 +
            (ra.checkHighIPSwitching env (fingerprintOf data)).2 +
            ra.checkLoginIPLocation data + ra.checkHistoricalRisksEnhanced env data +
            ra.checkNonMainlandChina data + 2 ∧
        "代理IP访问" ∈ ra.eventRules env data ∧ "数据中心IP" ∈ ra.eventRules env data ∧
        "代理IP访问" ∈ ra.alertRulesHanded env data ∧
        "数据中心IP" ∈ ra.alertRulesHanded env data) := by
  refine ⟨fun h => ?_, fun h => ?_, fun h reader ip asn hdb hip hasn hmem => ?_⟩
  · unfold RiskAnalyzer.checkProxyFeatures
    rw [if_pos h]
  · unfold RiskAnalyzer.checkProxyFeatures
    rw [if_neg h]
  · have h8 := checkDataCenterIP_known ra data reader ip asn hdb hip hasn hmem
    have h5 : ra.checkProxyFeatures data = 1 := by
      unfold RiskAnalyzer.checkProxyFeatures
      rw [if_neg h, h8]
    have hc := contributions_eq ra env data
    rw [h5, h8] at hc
    refine ⟨h5, h8, ?_, ?_, ?_, ?_, ?_, ?_, ?_⟩
    · rw [hc]
      rfl
    · rw [hc]
      rfl
    · unfold RiskAnalyzer.aggregateScore
      rw [hc]
      simp only [List.sum_cons, List.sum_nil]
      ring
    · rw [eventRules_eq, hc]
      exact mem_namesOfPositive_proxy _ _ _ _ _ _ _ _ (by norm_num)
    · rw [eventRules_eq, hc]
      exact mem_namesOfPositive_dataCenter _ _ _ _ _ _ _ _ (by norm_num)
    · rw [alertRulesHanded_eq, h5, h8]
      exact mem_namesOfPositive_proxy _ _ _ _ _ _ _ _ (by norm_num)
    · rw [alertRulesHanded_eq, h5, h8]
      exact mem_namesOfPositive_dataCenter _ _ _ _ _ _ _ _ (by norm_num)

/-! ### The cleanup of the cooldown map -/

theorem CleanupOldHistory_entry (a : Alerter) (env : Env) (k : String) :
    (a.CleanupOldHistory env).alertHistory k =
      match a.alertHistory k with
      | some lastAlert =>
        if env.now.Sub lastAlert > a.alertCooldownTime then none else some lastAlert
      | none => none := rfl

theorem CleanupOldHistory_inCooldown (a : Alerter) (env : Env) (data : PacketData) :
    (a.CleanupOldHistory env).inCooldown env data ↔ a.inCooldown env data := by
  unfold Alerter.inCooldown
  rw [CleanupOldHistory_entry]
  have hc : (a.CleanupOldHistory env).alertCooldownTime = a.alertCooldownTime := rfl
  rw [hc]
  cases h : a.alertHistory (generateUserFingerprint data) with
  | none =>
    constructor
    · rintro ⟨t, ht, _⟩
      exact Option.noConfusion ht
    · rintro ⟨t, ht, _⟩
      exact Option.noConfusion ht
  | some last =>
    dsimp only
    constructor
    · rintro ⟨t, ht, hlt⟩
      split_ifs at ht with hgt
      cases ht
      exact ⟨last, rfl, hlt⟩
    · rintro ⟨t, ht, hlt⟩
      have ht' : last = t := Option.some.inj ht
      rw [← ht'] at hlt
      have hng : ¬ env.now.Sub last > a.alertCooldownTime := not_lt.2 (le_of_lt hlt)
      exact ⟨last, by rw [if_neg hng], hlt⟩

/-- C22: for every cooldown map and time `now`, `CleanupOldHistory` removes exactly the
entries with `now.Sub(lastAlert)` greater than the cooldown duration and leaves every other
entry, and every other part of the alerter, as it was.  So an entry that is still live, with
`now.Sub(lastAlert)` below the cooldown, is never removed, and for every event `TriggerAlert`
at that instant decides the same before and after the cleanup: it suppresses in both or in
neither, and it returns the same error, stores the same rows and posts the same requests. -/
theorem C22_cleanup_keeps_decision (a : Alerter) (env : Env) :
    (∀ k lastAlert, a.alertHistory k = some lastAlert →
      (env.now.Sub lastAlert > a.alertCooldownTime →
        (a.CleanupOldHistory env).alertHistory k = none) ∧
      (¬ env.now.Sub lastAlert > a.alertCooldownTime →
        (a.CleanupOldHistory env).alertHistory k = some lastAlert) ∧
      (env.now.Sub lastAlert < a.alertCooldownTime →
        (a.CleanupOldHistory env).alertHistory k = some lastAlert)) ∧
    (∀ k, a.alertHistory k = none → (a.CleanupOldHistory env).alertHistory k = none) ∧
    ((a.CleanupOldHistory env).storage = a.storage ∧
      (a.CleanupOldHistory env).posted = a.posted ∧
      (a.CleanupOldHistory env).alertCooldownTime = a.alertCooldownTime ∧
      (a.CleanupOldHistory env).webhookURL = a.webhookURL) ∧
    (∀ data, (a.CleanupOldHistory env).inCooldown env data ↔ a.inCooldown env data) ∧
    (∀ data riskScore alertRules,
      ((a.CleanupOldHistory env).TriggerAlert env data riskScore alertRules).2
        = (a.TriggerAlert env data riskScore alertRules).2 ∧
      ((a.CleanupOldHistory env).TriggerAlert env data riskScore alertRules).1.storage
        = (a.TriggerAlert env data riskScore alertRules).1.storage ∧
      ((a.CleanupOldHistory env).TriggerAlert env data riskScore alertRules).1.posted
        = (a.TriggerAlert env data riskScore alertRules).1.posted) := by
  refine ⟨fun k lastAlert hk => ?_, fun k hk => ?_, ⟨rfl, rfl, rfl, rfl⟩,
    CleanupOldHistory_inCooldown a env, fun data riskScore alertRules => ?_⟩
  · rw [CleanupOldHistory_entry, hk]
    dsimp only
    refine ⟨fun h => if_pos h, fun h => if_neg h, fun h => if_neg (not_lt.2 (le_of_lt h))⟩
  · rw [CleanupOldHistory_entry, hk]
  · by_cases hc : a.inCooldown env data
    · rw [Alerter.TriggerAlert_inCooldown a env data _ _ hc,
        Alerter.TriggerAlert_inCooldown _ env data _ _
          ((CleanupOldHistory_inCooldown a env data).2 hc)]
      exact ⟨rfl, rfl, rfl⟩
    · have hc' : ¬ (a.CleanupOldHistory env).inCooldown env data :=
        fun h => hc ((CleanupOldHistory_inCooldown a env data).1 h)
      have hg := (not_congr (Alerter.guard_iff_inCooldown a env data)).2 hc
      have hg' := (not_congr (Alerter.guard_iff_inCooldown (a.CleanupOldHistory env) env
        data)).2 hc'
      unfold Alerter.TriggerAlert
      simp only [hg, hg', if_false]
      have hs : (a.CleanupOldHistory env).storage = a.storage := rfl
      rw [hs]
      unfold Storage.SaveAlertEvent Alerter.sendAlertNotification
      have hp : (a.CleanupOldHistory env).posted = a.posted := rfl
      cases env.saveAlertFails <;> cases env.postFails <;> simp [hp]

/-- C22 at a concrete input: at eleven hours and one nanosecond the entry of instant 0 is
removed and the entry of eleven hours is kept. -/
theorem C22_cleanup_keeps_decision_witness :
    (alerterWithHistory.CleanupOldHistory (sampleEnv (11 * Hour + 1) false)).alertHistory
      "old:1.2.3.4" = none ∧
    (alerterWithHistory.CleanupOldHistory (sampleEnv (11 * Hour + 1) false)).alertHistory
      "new:1.2.3.4" = some ⟨11 * Hour, 0⟩ :=
  ⟨((C22_cleanup_keeps_decision alerterWithHistory (sampleEnv (11 * Hour + 1) false)).1
      "old:1.2.3.4" ⟨0, 0⟩ rfl).1 (by decide),
    ((C22_cleanup_keeps_decision alerterWithHistory (sampleEnv (11 * Hour + 1) false)).1
      "new:1.2.3.4" ⟨11 * Hour, 0⟩ rfl).2.2 (by decide)⟩

/-- C23 at concrete inputs: an event forwarded for another address gives 1.5; an event from
an address of AS 16509 gives 1 for the proxy rule and 1 for the data-center rule, and the
`RiskEvent` lists both names. -/
theorem C23_checkProxyFeatures_witness :
    sampleAnalyzer.checkProxyFeatures forwardedEvent = 3 / 2 ∧
    analyzerWithASN.checkProxyFeatures (eventFrom "6.6.6.6") = 1 ∧
    analyzerWithASN.checkDataCenterIP (eventFrom "6.6.6.6") = 1 ∧
    "代理IP访问" ∈ analyzerWithASN.eventRules (sampleEnv 5 false) (eventFrom "6.6.6.6") ∧
    "数据中心IP" ∈ analyzerWithASN.eventRules (sampleEnv 5 false) (eventFrom "6.6.6.6") :=
  have h := (C23_checkProxyFeatures analyzerWithASN (sampleEnv 5 false) (eventFrom "6.6.6.6")).2.2
    (by decide) sampleASNReader (v4InV6Prefix ++ [6, 6, 6, 6]) 16509 rfl (by decide)
    (by decide) (by decide)
  ⟨(C23_checkProxyFeatures sampleAnalyzer (sampleEnv 5 false) forwardedEvent).1 (by decide),
    h.1, h.2.1, h.2.2.2.2.2.1, h.2.2.2.2.2.2.1⟩

/-! ### Two goroutines in `getSensitiveDataAvg` -/

theorem cachedAvg_eq_some_iff (ra : RiskAnalyzer) (now : GoTime) (userID : String) (avg : ℚ) :
    ra.cachedAvg now userID = some avg ↔ ra.baselineLive now userID avg := by
  unfold RiskAnalyzer.cachedAvg RiskAnalyzer.baselineLive
  cases h1 : ra.sensitiveDataAvg userID with
  | none => simp
  | some a =>
    cases h2 : ra.sensitiveDataExpiry userID with
    | none => simp
    | some e =>
      by_cases h3 : now.Before e = true
      · simp [h3]
      · simp [h3]

theorem cachedAvg_eq_none_iff (ra : RiskAnalyzer) (now : GoTime) (userID : String) :
    ra.cachedAvg now userID = none ↔ ¬ ∃ avg, ra.baselineLive now userID avg := by
  constructor
  · rintro h ⟨avg, ha⟩
    rw [(cachedAvg_eq_some_iff ra now userID avg).2 ha] at h
    exact Option.noConfusion h
  · intro h
    cases hc : ra.cachedAvg now userID with
    | none => rfl
    | some avg => exact absurd ⟨avg, (cachedAvg_eq_some_iff ra now userID avg).1 hc⟩ h

theorem cachedAvg_congr {ra ra' : RiskAnalyzer}
    (h1 : ra'.sensitiveDataAvg = ra.sensitiveDataAvg)
    (h2 : ra'.sensitiveDataExpiry = ra.sensitiveDataExpiry) (now : GoTime) (userID : String) :
    ra'.cachedAvg now userID = ra.cachedAvg now userID := by
  unfold RiskAnalyzer.cachedAvg
  rw [h1, h2]

theorem setStage_stage (s : ReadSystem) (i : Bool) (st : ReadStage) (j : Bool) :
    (s.setStage i st).stage j = if j = i then st else s.stage j := rfl

theorem forall_setStage (P : Bool → ReadStage → Prop) (s : ReadSystem) (i : Bool)
    (st : ReadStage) (h : ∀ j, P j (s.stage j)) (hst : P i st) :
    ∀ j, P j ((s.setStage i st).stage j) := by
  intro j
  rw [setStage_stage]
  split_ifs with hj
  · rw [hj]
    exact hst
  · exact h j

theorem late_of_early (v : ℚ) (st : ReadStage) (h1 : st.early) (h2 : ¬ st.holds) :
    st.late v := by
  cases st with
  | start => trivial
  | waiting => trivial
  | locked => trivial
  | query => exact absurd trivial h2
  | compute => exact absurd trivial h2
  | unlock a sv => exact absurd h1 (fun h => h)
  | spawn a e => exact absurd h1 (fun h => h)
  | returned a => exact absurd h1 (fun h => h)

/-- A step that keeps the holder of the lock and moves the goroutine between two stages
that both hold the lock, or both do not, keeps the lock discipline. -/
theorem lock_keep (s t : ReadSystem) (i : Bool) (st : ReadStage)
    (h : ∀ j, (s.stage j).holds ↔ s.writer = some j) (hw : t.writer = s.writer)
    (hs : t.stage = s.stage) (hst : st.holds ↔ (s.stage i).holds) :
    ∀ j, ((t.setStage i st).stage j).holds ↔ (t.setStage i st).writer = some j := by
  intro j
  have hw' : (t.setStage i st).writer = s.writer := hw
  rw [setStage_stage, hw', hs]
  split_ifs with hj
  · rw [hj, hst]
    exact h i
  · exact h j

theorem lock_acquire (s : ReadSystem) (i : Bool)
    (h : ∀ j, (s.stage j).holds ↔ s.writer = some j) (hw : s.writer = none) :
    ∀ j, ((({ s with writer := some i } : ReadSystem).setStage i ReadStage.locked).stage j).holds ↔
      (({ s with writer := some i } : ReadSystem).setStage i ReadStage.locked).writer = some j := by
  intro j
  show (if j = i then ReadStage.locked else s.stage j).holds ↔ some i = some j
  split_ifs with hj
  · rw [hj]
    exact ⟨fun _ => rfl, fun _ => trivial⟩
  · constructor
    · intro hh
      have := (h j).1 hh
      rw [hw] at this
      exact Option.noConfusion this
    · intro he
      exact absurd (Option.some.inj he).symm hj

theorem lock_release (s : ReadSystem) (i : Bool) (st : ReadStage)
    (h : ∀ j, (s.stage j).holds ↔ s.writer = some j) (hi : (s.stage i).holds)
    (hst : ¬ st.holds) :
    ∀ j, ((({ s with writer := none } : ReadSystem).setStage i st).stage j).holds ↔
      (({ s with writer := none } : ReadSystem).setStage i st).writer = some j := by
  intro j
  show (if j = i then st else s.stage j).holds ↔ none = some j
  have hwi := (h i).1 hi
  split_ifs with hj
  · exact ⟨fun hh => absurd hh hst, fun he => by cases he⟩
  · constructor
    · intro hh
      have := (h j).1 hh
      rw [hwi] at this
      exact absurd (Option.some.inj this).symm hj
    · exact fun he => by cases he

/-- The state a goroutine leaves when it is the first to write: that of the call run alone
on the engine the two started from. -/
theorem first_write (ra0 : RiskAnalyzer) (envs : Bool → Env) (userID : String) (s t : ReadSystem)
    (i : Bool) (v : ℚ) (sv : Option GoTime)
    (hlock : ∀ j, (s.stage j).holds ↔ s.writer = some j) (halert : s.ra.alerter = ra0.alerter)
    (hearly : ∀ j, (s.stage j).early) (hi : (s.stage i).holds)
    (hw : t.writer = s.writer) (hs : t.stage = s.stage) (hta : t.ra.alerter = s.ra.alerter)
    (h1 : t.ra.sensitiveDataAvg = (ra0.getSensitiveDataAvg (envs i) userID).1.sensitiveDataAvg)
    (h2 : t.ra.sensitiveDataExpiry
      = (ra0.getSensitiveDataAvg (envs i) userID).1.sensitiveDataExpiry)
    (h3 : t.recomputations = if ra0.storeServes (envs i) userID then 0 else 1)
    (hv : v = (ra0.getSensitiveDataAvg (envs i) userID).2) :
    (t.setStage i (ReadStage.unlock v sv)).coherent ra0 envs userID := by
  refine ⟨lock_keep s t i _ hlock hw hs ⟨fun _ => hi, fun _ => trivial⟩, hta.trans halert,
    Or.inr ⟨i, h1, h2, h3, ?_⟩⟩
  intro j
  rw [setStage_stage, hs]
  split_ifs with hj
  · exact hv
  · apply late_of_early _ _ (hearly j)
    intro hh
    have hwj := (hlock j).1 hh
    rw [(hlock i).1 hi] at hwj
    exact hj (Option.some.inj hwj).symm

/-- Every step keeps the two goroutines coherent, when neither finds a live entry in the
engine they start from and what either call writes is live at the clock of the other. -/
theorem step_coherent (ra0 : RiskAnalyzer) (envs : Bool → Env) (userID : String)
    (hmiss : ∀ i, ¬ ∃ avg, ra0.baselineLive (envs i).now userID avg)
    (hhand : ∀ i j, (ra0.getSensitiveDataAvg (envs i) userID).1.baselineLive (envs j).now userID
      (ra0.getSensitiveDataAvg (envs i) userID).2)
    (s s' : ReadSystem) (i : Bool) (hc : s.coherent ra0 envs userID)
    (hstep : s.step envs userID i = some s') : s'.coherent ra0 envs userID := by
  obtain ⟨hlock, halert, hphase⟩ := hc
  have hcacheA : s.ra.sensitiveDataAvg = ra0.sensitiveDataAvg →
      s.ra.sensitiveDataExpiry = ra0.sensitiveDataExpiry →
      s.ra.cachedAvg (envs i).now userID = none := by
    intro h1 h2
    rw [cachedAvg_congr h1 h2]
    exact (cachedAvg_eq_none_iff _ _ _).2 (hmiss i)
  have hcacheB : ∀ w,
      s.ra.sensitiveDataAvg = (ra0.getSensitiveDataAvg (envs w) userID).1.sensitiveDataAvg →
      s.ra.sensitiveDataExpiry = (ra0.getSensitiveDataAvg (envs w) userID).1.sensitiveDataExpiry →
      s.ra.cachedAvg (envs i).now userID = some (ra0.getSensitiveDataAvg (envs w) userID).2 := by
    intro w h1 h2
    rw [cachedAvg_congr h1 h2]
    exact (cachedAvg_eq_some_iff _ _ _ _).2 (hhand w i)
  have hstore : s.ra.storage = ra0.storage := by
    unfold RiskAnalyzer.storage
    rw [halert]
  unfold ReadSystem.step at hstep
  cases hst : s.stage i with
  | start =>
    simp only [hst] at hstep
    split_ifs at hstep with hw
    rcases hphase with ⟨h1, h2, h3, h4, h5⟩ | ⟨w, h1, h2, h3, h4⟩
    · rw [hcacheA h1 h2] at hstep
      have hs' := Option.some.inj hstep
      subst hs'
      refine ⟨lock_keep s s i _ hlock rfl rfl (by rw [hst]; exact Iff.rfl), halert,
        Or.inl ⟨h1, h2, h3, forall_setStage (fun _ st => st.early) s i _ h4 trivial,
          forall_setStage (fun j st => st = ReadStage.compute → ¬ ra0.storeServes (envs j) userID)
            s i _ h5 (fun h => ReadStage.noConfusion h)⟩⟩
    · rw [hcacheB w h1 h2] at hstep
      have hs' := Option.some.inj hstep
      subst hs'
      refine ⟨lock_keep s s i _ hlock rfl rfl (by rw [hst]; exact Iff.rfl), halert,
        Or.inr ⟨w, h1, h2, h3, forall_setStage (fun _ st => st.late _) s i _ h4 rfl⟩⟩
  | waiting =>
    simp only [hst] at hstep
    split_ifs at hstep with hw
    have hs' := Option.some.inj hstep
    subst hs'
    have hwn : s.writer = none := by
      cases hx : s.writer with
      | none => rfl
      | some x =>
        rw [hx] at hw
        exact absurd rfl hw
    refine ⟨lock_acquire s i hlock hwn, halert, ?_⟩
    rcases hphase with ⟨h1, h2, h3, h4, h5⟩ | ⟨w, h1, h2, h3, h4⟩
    · exact Or.inl ⟨h1, h2, h3, forall_setStage (fun _ st => st.early) _ i _ h4 trivial,
        forall_setStage (fun j st => st = ReadStage.compute → ¬ ra0.storeServes (envs j) userID)
          _ i _ h5 (fun h => ReadStage.noConfusion h)⟩
    · exact Or.inr ⟨w, h1, h2, h3, forall_setStage (fun _ st => st.late _) _ i _ h4 trivial⟩
  | locked =>
    simp only [hst] at hstep
    rcases hphase with ⟨h1, h2, h3, h4, h5⟩ | ⟨w, h1, h2, h3, h4⟩
    · rw [hcacheA h1 h2] at hstep
      have hs' := Option.some.inj hstep
      subst hs'
      refine ⟨lock_keep s s i _ hlock rfl rfl (by rw [hst]; exact Iff.rfl), halert,
        Or.inl ⟨h1, h2, h3, forall_setStage (fun _ st => st.early) s i _ h4 trivial,
          forall_setStage (fun j st => st = ReadStage.compute → ¬ ra0.storeServes (envs j) userID)
            s i _ h5 (fun h => ReadStage.noConfusion h)⟩⟩
    · rw [hcacheB w h1 h2] at hstep
      have hs' := Option.some.inj hstep
      subst hs'
      refine ⟨lock_keep s s i _ hlock rfl rfl (by rw [hst]; exact Iff.rfl), halert,
        Or.inr ⟨w, h1, h2, h3, forall_setStage (fun _ st => st.late _) s i _ h4 rfl⟩⟩
  | query =>
    simp only [hst] at hstep
    rcases hphase with ⟨h1, h2, h3, h4, h5⟩ | ⟨w, h1, h2, h3, h4⟩
    · have hi : (s.stage i).holds := by rw [hst]; trivial
      rw [hstore] at hstep
      have hout := getSensitiveDataAvg_miss ra0 (envs i) userID (hmiss i)
      by_cases hsv : ra0.storeServes (envs i) userID
      · have hsv' : (ra0.storage.GetSensitiveDataAvg (envs i) userID).2.2.isNone = true ∧
            (envs i).now.Before (ra0.storage.GetSensitiveDataAvg (envs i) userID).2.1 = true :=
          ⟨by rw [hsv.1]; rfl, hsv.2⟩
        rw [if_pos hsv'] at hstep
        have hs' := Option.some.inj hstep
        subst hs'
        have hsvu : (ra0.storage.GetSensitiveDataAvg (envs i) userID).2.2 = none ∧
            (envs i).now.Before (ra0.storage.GetSensitiveDataAvg (envs i) userID).2.1 = true := hsv
        rw [if_pos hsvu] at hout
        refine first_write ra0 envs userID s _ i _ _ hlock halert h4 hi rfl rfl rfl ?_ ?_ ?_ ?_
        · rw [hout]
          show (fun k => if k = userID then _ else s.ra.sensitiveDataAvg k) = _
          rw [h1]
        · rw [hout]
          show (fun k => if k = userID then _ else s.ra.sensitiveDataExpiry k) = _
          rw [h2]
        · rw [if_pos hsv]
          exact h3
        · rw [hout]
      · have hsv' : ¬ ((ra0.storage.GetSensitiveDataAvg (envs i) userID).2.2.isNone = true ∧
            (envs i).now.Before (ra0.storage.GetSensitiveDataAvg (envs i) userID).2.1 = true) := by
          rintro ⟨ha, hb⟩
          exact hsv ⟨Option.isNone_iff_eq_none.1 ha, hb⟩
        rw [if_neg hsv'] at hstep
        have hs' := Option.some.inj hstep
        subst hs'
        refine ⟨lock_keep s s i _ hlock rfl rfl (by rw [hst]; exact Iff.rfl), halert,
          Or.inl ⟨h1, h2, h3, forall_setStage (fun _ st => st.early) s i _ h4 trivial,
            forall_setStage
              (fun j st => st = ReadStage.compute → ¬ ra0.storeServes (envs j) userID)
              s i _ h5 (fun _ => hsv)⟩⟩
    · have := h4 i
      rw [hst] at this
      exact absurd this (fun h => h)
  | compute =>
    simp only [hst] at hstep
    rcases hphase with ⟨h1, h2, h3, h4, h5⟩ | ⟨w, h1, h2, h3, h4⟩
    · have hi : (s.stage i).holds := by rw [hst]; trivial
      have hsv := h5 i hst
      have hout := getSensitiveDataAvg_miss ra0 (envs i) userID (hmiss i)
      have hsvu : ¬ ((ra0.storage.GetSensitiveDataAvg (envs i) userID).2.2 = none ∧
          (envs i).now.Before (ra0.storage.GetSensitiveDataAvg (envs i) userID).2.1 = true) := hsv
      rw [if_neg hsvu] at hout
      have hs' := Option.some.inj hstep
      subst hs'
      refine first_write ra0 envs userID s _ i _ _ hlock halert h4 hi rfl rfl rfl ?_ ?_ ?_ ?_
      · rw [hout]
        show (fun k => if k = userID then _ else s.ra.sensitiveDataAvg k) = _
        rw [h1]
      · rw [hout]
        show (fun k => if k = userID then _ else s.ra.sensitiveDataExpiry k) = _
        rw [h2]
      · rw [if_neg hsv]
        show s.recomputations + 1 = 1
        rw [h3]
      · rw [hout]
    · have := h4 i
      rw [hst] at this
      exact absurd this (fun h => h)
  | unlock avg save =>
    simp only [hst] at hstep
    have hi : (s.stage i).holds := by rw [hst]; trivial
    rcases hphase with ⟨h1, h2, h3, h4, h5⟩ | ⟨w, h1, h2, h3, h4⟩
    · have := h4 i
      rw [hst] at this
      exact absurd this (fun h => h)
    · have hv : avg = (ra0.getSensitiveDataAvg (envs w) userID).2 := by
        have := h4 i
        rw [hst] at this
        exact this
      cases save with
      | none =>
        have hs' := Option.some.inj hstep
        subst hs'
        exact ⟨lock_release s i _ hlock hi (fun h => h), halert,
          Or.inr ⟨w, h1, h2, h3, forall_setStage (fun _ st => st.late _) _ i _ h4 hv⟩⟩
      | some expiry =>
        have hs' := Option.some.inj hstep
        subst hs'
        exact ⟨lock_release s i _ hlock hi (fun h => h), halert,
          Or.inr ⟨w, h1, h2, h3, forall_setStage (fun _ st => st.late _) _ i _ h4 hv⟩⟩
  | spawn avg expiry =>
    simp only [hst] at hstep
    rcases hphase with ⟨h1, h2, h3, h4, h5⟩ | ⟨w, h1, h2, h3, h4⟩
    · have := h4 i
      rw [hst] at this
      exact absurd this (fun h => h)
    · have hv : avg = (ra0.getSensitiveDataAvg (envs w) userID).2 := by
        have := h4 i
        rw [hst] at this
        exact this
      have hs' := Option.some.inj hstep
      subst hs'
      exact ⟨lock_keep s _ i _ hlock rfl rfl (by rw [hst]; exact Iff.rfl), halert,
        Or.inr ⟨w, h1, h2, h3, forall_setStage (fun _ st => st.late _) _ i _ h4 hv⟩⟩
  | returned avg =>
    simp only [hst] at hstep
    exact Option.noConfusion hstep

theorem init_coherent (ra0 : RiskAnalyzer) (envs : Bool → Env) (userID : String) :
    (ReadSystem.init ra0).coherent ra0 envs userID :=
  ⟨fun _ => ⟨fun h => absurd h (fun h => h), fun h => Option.noConfusion h⟩, rfl,
    Or.inl ⟨rfl, rfl, rfl, fun _ => trivial, fun _ h => ReadStage.noConfusion h⟩⟩

theorem run_coherent (ra0 : RiskAnalyzer) (envs : Bool → Env) (userID : String)
    (hmiss : ∀ i, ¬ ∃ avg, ra0.baselineLive (envs i).now userID avg)
    (hhand : ∀ i j, (ra0.getSensitiveDataAvg (envs i) userID).1.baselineLive (envs j).now userID
      (ra0.getSensitiveDataAvg (envs i) userID).2)
    (sched : List Bool) :
    ∀ s : ReadSystem, s.coherent ra0 envs userID →
      (ReadSystem.run envs userID s sched).coherent ra0 envs userID := by
  induction sched with
  | nil => exact fun s h => h
  | cons i rest ih =>
    intro s h
    unfold ReadSystem.run
    cases hs : s.step envs userID i with
    | none => exact ih s h
    | some s' => exact ih s' (step_coherent ra0 envs userID hmiss hhand s s' i h hs)

/-- Every step moves the goroutine to a stage of lower rank and leaves the other where
it is. -/
theorem step_shape (s s' : ReadSystem) (envs : Bool → Env) (userID : String) (i : Bool)
    (h : s.step envs userID i = some s') :
    ∃ (t : ReadSystem) (st : ReadStage), s' = t.setStage i st ∧ t.stage = s.stage ∧
      st.rank < (s.stage i).rank := by
  unfold ReadSystem.step at h
  cases hst : s.stage i with
  | start =>
    simp only [hst] at h
    split_ifs at h
    cases hc : s.ra.cachedAvg (envs i).now userID with
    | none =>
      rw [hc] at h
      exact ⟨_, _, (Option.some.inj h).symm, rfl, by simp [ReadStage.rank]⟩
    | some avg =>
      rw [hc] at h
      exact ⟨_, _, (Option.some.inj h).symm, rfl, by simp [ReadStage.rank]⟩
  | waiting =>
    simp only [hst] at h
    split_ifs at h
    exact ⟨_, _, (Option.some.inj h).symm, rfl, by simp [ReadStage.rank]⟩
  | locked =>
    simp only [hst] at h
    cases hc : s.ra.cachedAvg (envs i).now userID with
    | none =>
      rw [hc] at h
      exact ⟨_, _, (Option.some.inj h).symm, rfl, by simp [ReadStage.rank]⟩
    | some avg =>
      rw [hc] at h
      exact ⟨_, _, (Option.some.inj h).symm, rfl, by simp [ReadStage.rank]⟩
  | query =>
    simp only [hst] at h
    split_ifs at h
    · exact ⟨_, _, (Option.some.inj h).symm, rfl, by simp [ReadStage.rank]⟩
    · exact ⟨_, _, (Option.some.inj h).symm, rfl, by simp [ReadStage.rank]⟩
  | compute =>
    simp only [hst] at h
    exact ⟨_, _, (Option.some.inj h).symm, rfl, by simp [ReadStage.rank]⟩
  | unlock avg save =>
    simp only [hst] at h
    cases save with
    | none => exact ⟨_, _, (Option.some.inj h).symm, rfl, by simp [ReadStage.rank]⟩
    | some e => exact ⟨_, _, (Option.some.inj h).symm, rfl, by simp [ReadStage.rank]⟩
  | spawn avg e =>
    simp only [hst] at h
    exact ⟨_, _, (Option.some.inj h).symm, rfl, by simp [ReadStage.rank]⟩
  | returned avg =>
    simp only [hst] at h
    exact Option.noConfusion h

/-- Every step lowers the number of steps that remain. -/
theorem step_remaining (s s' : ReadSystem) (envs : Bool → Env) (userID : String) (i : Bool)
    (h : s.step envs userID i = some s') : s'.remaining < s.remaining := by
  obtain ⟨t, st, rfl, hs, hr⟩ := step_shape s s' envs userID i h
  unfold ReadSystem.remaining
  rw [setStage_stage, setStage_stage, hs]
  cases i
  · simp only [if_true, Bool.true_eq_false, if_false]
    omega
  · simp only [if_true, Bool.false_eq_true, if_false]
    omega

/-- While a goroutine has not returned, one of the two can take a step: the holder of the
lock if there is one, any goroutine that has not returned otherwise. -/
theorem step_enabled (s : ReadSystem) (envs : Bool → Env) (userID : String)
    (hlock : ∀ j, (s.stage j).holds ↔ s.writer = some j) (hn : ¬ s.finished) :
    ∃ i, (s.step envs userID i).isSome = true := by
  cases hw : s.writer with
  | some w =>
    have hh := (hlock w).2 hw
    refine ⟨w, ?_⟩
    unfold ReadSystem.step
    cases hst : s.stage w with
    | start => rw [hst] at hh; exact absurd hh (fun h => h)
    | waiting => rw [hst] at hh; exact absurd hh (fun h => h)
    | locked =>
      simp only []
      cases s.ra.cachedAvg (envs w).now userID <;> rfl
    | query =>
      simp only []
      split_ifs <;> rfl
    | compute => rfl
    | unlock avg save => cases save <;> rfl
    | spawn avg e => rw [hst] at hh; exact absurd hh (fun h => h)
    | returned avg => rw [hst] at hh; exact absurd hh (fun h => h)
  | none =>
    unfold ReadSystem.finished at hn
    push_neg at hn
    obtain ⟨i, hi⟩ := hn
    have hnh : ¬ (s.stage i).holds := by
      intro hh
      have := (hlock i).1 hh
      rw [hw] at this
      exact Option.noConfusion this
    refine ⟨i, ?_⟩
    unfold ReadSystem.step
    cases hst : s.stage i with
    | start =>
      simp only [hw, Option.isSome_none, Bool.false_eq_true, if_false]
      cases s.ra.cachedAvg (envs i).now userID <;> rfl
    | waiting =>
      simp only [hw, Option.isSome_none, Bool.false_eq_true, if_false]
      rfl
    | locked => rw [hst] at hnh; exact absurd trivial hnh
    | query => rw [hst] at hnh; exact absurd trivial hnh
    | compute => rw [hst] at hnh; exact absurd trivial hnh
    | unlock avg save => rw [hst] at hnh; exact absurd trivial hnh
    | spawn avg e => rfl
    | returned avg => exact absurd hst (hi avg)

/-- From every coherent state some schedule lets both goroutines return. -/
theorem exists_finishing_schedule (ra0 : RiskAnalyzer) (envs : Bool → Env) (userID : String)
    (hmiss : ∀ i, ¬ ∃ avg, ra0.baselineLive (envs i).now userID avg)
    (hhand : ∀ i j, (ra0.getSensitiveDataAvg (envs i) userID).1.baselineLive (envs j).now userID
      (ra0.getSensitiveDataAvg (envs i) userID).2) :
    ∀ (n : Nat) (s : ReadSystem), s.remaining ≤ n → s.coherent ra0 envs userID →
      ∃ sched, (ReadSystem.run envs userID s sched).finished := by
  intro n
  induction n with
  | zero =>
    intro s hn hc
    by_cases hf : s.finished
    · exact ⟨[], hf⟩
    · obtain ⟨i, hi⟩ := step_enabled s envs userID hc.1 hf
      obtain ⟨s', hs'⟩ := Option.isSome_iff_exists.1 hi
      have := step_remaining s s' envs userID i hs'
      omega
  | succ n ih =>
    intro s hn hc
    by_cases hf : s.finished
    · exact ⟨[], hf⟩
    · obtain ⟨i, hi⟩ := step_enabled s envs userID hc.1 hf
      obtain ⟨s', hs'⟩ := Option.isSome_iff_exists.1 hi
      have hlt := step_remaining s s' envs userID i hs'
      obtain ⟨sched, hsched⟩ := ih s' (by omega)
        (step_coherent ra0 envs userID hmiss hhand s s' i hc hs')
      refine ⟨i :: sched, ?_⟩
      unfold ReadSystem.run
      rw [hs']
      exact hsched

/-- Two clock readings that agree hand over: what either call writes is live at the clock
of the other. -/
theorem handover_of_same_clock (ra0 : RiskAnalyzer) (envs : Bool → Env) (userID : String)
    (hclock : ∀ i j, (envs i).now = (envs j).now) :
    ∀ i j, (ra0.getSensitiveDataAvg (envs i) userID).1.baselineLive (envs j).now userID
      (ra0.getSensitiveDataAvg (envs i) userID).2 := by
  intro i j
  rw [← hclock i j]
  exact getSensitiveDataAvg_then_live ra0 (envs i) userID

/-- Two clock readings less than 24 hours apart hand over, when no entry is live and the
database serves nothing. -/
theorem handover_of_close_clocks (ra0 : RiskAnalyzer) (envs : Bool → Env) (userID : String)
    (hmiss : ∀ i, ¬ ∃ avg, ra0.baselineLive (envs i).now userID avg)
    (hstore : ∀ i, ¬ ra0.storeServes (envs i) userID)
    (hclock : ∀ i j, (envs j).now.unixNano < (envs i).now.unixNano + 24 * Hour) :
    ∀ i j, (ra0.getSensitiveDataAvg (envs i) userID).1.baselineLive (envs j).now userID
      (ra0.getSensitiveDataAvg (envs i) userID).2 := by
  intro i j
  have hsvu : ¬ ((ra0.storage.GetSensitiveDataAvg (envs i) userID).2.2 = none ∧
      (envs i).now.Before (ra0.storage.GetSensitiveDataAvg (envs i) userID).2.1 = true) :=
    hstore i
  rw [getSensitiveDataAvg_miss ra0 (envs i) userID (hmiss i), if_neg hsvu]
  refine ⟨if_pos rfl, _, if_pos rfl, ?_⟩
  unfold GoTime.Before GoTime.Add
  rw [decide_eq_true_eq]
  exact hclock i j

/-- C21 as stated fails: the cache is empty and the database holds a value for `sid=1` that
is still valid.  Both goroutines miss at their first check; the first to take the lock adopts
the value of the database, the second finds it at its second check; both return 2 and the
average was recomputed by neither. -/
theorem C21_no_recomputation_when_the_store_serves :
    analyzerOverBaseline.cachedAvg (sampleEnvs true).now "sid=1" = none ∧
    analyzerOverBaseline.cachedAvg (sampleEnvs false).now "sid=1" = none ∧
    (ReadSystem.run sampleEnvs "sid=1" (ReadSystem.init analyzerOverBaseline)
      [true, false]).stage true = ReadStage.waiting ∧
    (ReadSystem.run sampleEnvs "sid=1" (ReadSystem.init analyzerOverBaseline)
      [true, false]).stage false = ReadStage.waiting ∧
    (ReadSystem.run sampleEnvs "sid=1" (ReadSystem.init analyzerOverBaseline)
      [true, false, true, true, true, true, false, false, false]).stage true
        = ReadStage.returned 2 ∧
    (ReadSystem.run sampleEnvs "sid=1" (ReadSystem.init analyzerOverBaseline)
      [true, false, true, true, true, true, false, false, false]).stage false
        = ReadStage.returned 2 ∧
    (ReadSystem.run sampleEnvs "sid=1" (ReadSystem.init analyzerOverBaseline)
      [true, false, true, true, true, true, false, false, false]).recomputations = 0 := by
  decide!

/-- C21 (amended): two goroutines call `getSensitiveDataAvg` for one identity on an engine
whose in-memory entry is live at the clock of neither, and what either call would write when
run alone is live at the clock of the other (as it is when the two clocks agree, or when they
are less than 24 hours apart and the database serves nothing).  Then under every schedule
the average is recomputed at most once; when both have returned, both return the value one
of them returns when run alone on the engine they started from, and the number of
recomputations is 0 if the database served that goroutine a valid value and 1 otherwise, so
exactly 1 when the database serves neither.  While a goroutine has not returned one of the
two can take a step, every step lowers the number of steps that remain, and some schedule
lets both return. -/
theorem C21_concurrent_misses (ra0 : RiskAnalyzer) (envs : Bool → Env) (userID : String)
    (hmiss : ∀ i, ¬ ∃ avg, ra0.baselineLive (envs i).now userID avg)
    (hhand : ∀ i j, (ra0.getSensitiveDataAvg (envs i) userID).1.baselineLive (envs j).now userID
      (ra0.getSensitiveDataAvg (envs i) userID).2) :
    (∀ sched, (ReadSystem.run envs userID (ReadSystem.init ra0) sched).recomputations ≤ 1) ∧
    (∀ sched, (ReadSystem.run envs userID (ReadSystem.init ra0) sched).finished →
      ∃ w, (∀ i, (ReadSystem.run envs userID (ReadSystem.init ra0) sched).stage i
          = ReadStage.returned (ra0.getSensitiveDataAvg (envs w) userID).2) ∧
        (ReadSystem.run envs userID (ReadSystem.init ra0) sched).recomputations
          = if ra0.storeServes (envs w) userID then 0 else 1) ∧
    ((∀ i, ¬ ra0.storeServes (envs i) userID) →
      ∀ sched, (ReadSystem.run envs userID (ReadSystem.init ra0) sched).finished →
        (ReadSystem.run envs userID (ReadSystem.init ra0) sched).recomputations = 1) ∧
    (∀ sched, ¬ (ReadSystem.run envs userID (ReadSystem.init ra0) sched).finished →
      ∃ i, ((ReadSystem.run envs userID (ReadSystem.init ra0) sched).step envs userID
        i).isSome = true) ∧
    (∀ sched i s', (ReadSystem.run envs userID (ReadSystem.init ra0) sched).step envs userID i
        = some s' →
      s'.remaining < (ReadSystem.run envs userID (ReadSystem.init ra0) sched).remaining) ∧
    (∃ sched, (ReadSystem.run envs userID (ReadSystem.init ra0) sched).finished) := by
  have hco := fun sched => run_coherent ra0 envs userID hmiss hhand sched (ReadSystem.init ra0)
    (init_coherent ra0 envs userID)
  have hfin : ∀ sched, (ReadSystem.run envs userID (ReadSystem.init ra0) sched).finished →
      ∃ w, (∀ i, (ReadSystem.run envs userID (ReadSystem.init ra0) sched).stage i
          = ReadStage.returned (ra0.getSensitiveDataAvg (envs w) userID).2) ∧
        (ReadSystem.run envs userID (ReadSystem.init ra0) sched).recomputations
          = if ra0.storeServes (envs w) userID then 0 else 1 := by
    intro sched hf
    obtain ⟨_, _, hphase⟩ := hco sched
    rcases hphase with ⟨_, _, _, h4, _⟩ | ⟨w, _, _, h3, h4⟩
    · obtain ⟨avg, ha⟩ := hf true
      have := h4 true
      rw [ha] at this
      exact absurd this (fun h => h)
    · refine ⟨w, fun i => ?_, h3⟩
      obtain ⟨avg, ha⟩ := hf i
      have := h4 i
      rw [ha] at this
      rw [ha]
      exact congrArg ReadStage.returned this
  refine ⟨fun sched => ?_, hfin, fun hstore sched hf => ?_, fun sched hn => ?_,
    fun sched i s' hs => step_remaining _ s' envs userID i hs,
    exists_finishing_schedule ra0 envs userID hmiss hhand _ (ReadSystem.init ra0) (le_refl _)
      (init_coherent ra0 envs userID)⟩
  · obtain ⟨_, _, hphase⟩ := hco sched
    rcases hphase with ⟨_, _, h3, _, _⟩ | ⟨w, _, _, h3, _⟩
    · rw [h3]
      exact Nat.zero_le 1
    · rw [h3]
      split_ifs
      · exact Nat.zero_le 1
      · exact le_refl 1
  · obtain ⟨w, _, h3⟩ := hfin sched hf
    rw [h3, if_neg (hstore w)]
  · exact step_enabled _ envs userID (hco sched).1 hn

/-- C21 at a concrete input: an empty cache over an empty database, both clocks at instant 5.
Both goroutines miss, `true` takes the lock and recomputes, `false` finds the entry at its
second check: one recomputation, and both return 3/2. -/
theorem C21_concurrent_misses_witness :
    (ReadSystem.run sampleEnvs "sid=1" (ReadSystem.init sampleAnalyzer)
      [true, false, true, true, true, true, true, true, false, false, false]).recomputations = 1 ∧
    (ReadSystem.run sampleEnvs "sid=1" (ReadSystem.init sampleAnalyzer)
      [true, false, true, true, true, true, true, true, false, false, false]).stage true
        = ReadStage.returned (3 / 2) ∧
    (ReadSystem.run sampleEnvs "sid=1" (ReadSystem.init sampleAnalyzer)
      [true, false, true, true, true, true, true, true, false, false, false]).stage false
        = ReadStage.returned (3 / 2) :=
  ⟨(C21_concurrent_misses sampleAnalyzer sampleEnvs "sid=1"
      (fun i => (cachedAvg_eq_none_iff _ _ _).1 (by cases i <;> decide))
      (handover_of_same_clock sampleAnalyzer sampleEnvs "sid=1" (fun _ _ => rfl))).2.2.1
      (fun i => by cases i <;> decide!)
      [true, false, true, true, true, true, true, true, false, false, false]
      (fun i => by cases i <;> exact ⟨3 / 2, by decide!⟩),
    by decide!, by decide!⟩

end Xiaotianquan
